import Mathlib

/-!
Verification of the survey ingestion and analytics engine
(`survey_converter.py`, `survey_analytics.py`).

The Python code is shallowly embedded: pandas rows become explicit cell
values, the Supabase tables become lists of records, and every formula
becomes a total Lean function over that state.  Machine floats are
modelled by exact rationals (`ℚ`) with Python `round(x, 2)` modelled as
round-half-to-even on the exact value; Python string semantics
(`str.lower`, `\w`, `str.strip`) are modelled faithfully on the ASCII
range (Python additionally treats further Unicode alphanumerics as word
characters; every input considered in this development is ASCII apart
from fixed Spanish literals that contain no case-shifting characters).
-/

namespace PTT

set_option maxRecDepth 10000

/-- Python truthiness / `str.strip()` whitespace for the ASCII range. -/
def isPySpace (c : Char) : Bool :=
  c = ' ' || c = '\t' || c = '\n' || c = '\r' || c = '\x0b' || c = '\x0c'

/-- `l.dropWhile p`, then drop the trailing run satisfying `p` as well:
the list-level model of Python `str.strip(chars)`. -/
def stripEnds (p : Char → Bool) (l : List Char) : List Char :=
  ((l.dropWhile p).reverse.dropWhile p).reverse

/-- Python `str.strip()` (whitespace strip) on the ASCII range. -/
def pyStrip (s : String) : String :=
  ⟨stripEnds isPySpace s.toList⟩

/-- Python `str.lower()` restricted to the ASCII range. -/
def lowerStr (s : String) : String :=
  ⟨s.toList.map Char.toLower⟩

/-- Does `hay` start with `needle`? -/
def startsWithL : List Char → List Char → Bool
  | _, [] => true
  | [], _ :: _ => false
  | c :: cs, d :: ds => c = d && startsWithL cs ds

/-- Python `needle in hay` (contiguous substring test) on character lists. -/
def containsL (hay needle : List Char) : Bool :=
  match hay with
  | [] => needle.isEmpty
  | _ :: rest => startsWithL hay needle || containsL rest needle

/-- Python `needle in hay` on strings. -/
def pyIn (needle hay : String) : Bool :=
  containsL hay.toList needle.toList

/-- Python regex `\w` (word character) on the ASCII range: ASCII
alphanumerics and the underscore.  (Python is Unicode-aware here; the
extra Unicode word characters play no role in any claim below.) -/
def pyIsWordChar (c : Char) : Bool :=
  c.isAlphanum || c = '_'

mutual

/-- `re.sub(r"\W+", "_", ·)`: copy word characters, and replace every
maximal run of non-word characters by a single underscore. -/
def subWPlus : List Char → List Char
  | [] => []
  | c :: cs =>
    if pyIsWordChar c then c :: subWPlus cs
    else '_' :: subWPlusSkip cs

/-- Helper of `subWPlus`: currently inside a non-word run whose
underscore has already been emitted. -/
def subWPlusSkip : List Char → List Char
  | [] => []
  | c :: cs =>
    if pyIsWordChar c then c :: subWPlus cs
    else subWPlusSkip cs

end

/-- The character-list core of `SurveyMonkeyConverter.slugify`:
`re.sub(r"\W+", "_", text.lower()).strip("_")` then `[:maxlen]`. -/
def slugifyL (text : List Char) (maxlen : Nat) : List Char :=
  (stripEnds (fun c => c = '_') (subWPlus (text.map Char.toLower))).take maxlen

/-- `SurveyMonkeyConverter.slugify(text, maxlen=1000)`. -/
def slugify (text : String) (maxlen : Nat := 1000) : String :=
  ⟨slugifyL text.toList maxlen⟩

/-! ## `load_surveymonkey_one_hot`: per-column classification

A raw CSV cell is `Option String` (`none` models a pandas `NaN`);
`pyStr` models Python `str(cell)` (for `NaN` this is the literal string
`"nan"`, which is how a blank option header ends up producing a
`...__nan` column downstream). -/

/-- Python `str(...)` on a possibly-missing CSV cell. -/
def pyStr : Option String → String
  | none => "nan"
  | some s => s

/-- The "other, please specify" keyword list of
`load_surveymonkey_one_hot` (line 72 of `survey_converter.py`). -/
def otherHeaderKeywords : List String :=
  ["otro (especifique)", "especifique", "añade información",
   "other (please specify)"]

/-- What `load_surveymonkey_one_hot` turns one raw CSV column into. -/
inductive ColSpec
  /-- open question column: renamed, values pass through verbatim -/
  | passthrough (name : String)
  /-- binary 0/1 indicator column -/
  | indicator (name : String)
  /-- "other" option: indicator column plus a raw-text column -/
  | indicatorWithText (binName textName : String)
deriving DecidableEq

/-- One iteration of the column loop of `load_surveymonkey_one_hot`
(lines 50-84 of `survey_converter.py`).  `current` is the
`current_question` state; `qcell` is the row-0 cell, `ocell` the row-1
cell.  Returns the new `current_question` and the derived columns. -/
def processCol (current : Option String) (qcell ocell : Option String) :
    Option String × List ColSpec :=
  match qcell with
  | some qtext =>
    let cq := slugify qtext
    if lowerStr (pyStr ocell) = "open-ended response" then
      (some cq, [ColSpec.passthrough cq])
    else
      let ol := slugify (pyStr ocell)
      (some cq, [ColSpec.indicator (cq ++ "__" ++ ol)])
  | none =>
    match current with
    | some cq =>
      if otherHeaderKeywords.any (fun k => pyIn k (lowerStr (pyStr ocell))) then
        let ol := slugify (pyStr ocell)
        (some cq,
         [ColSpec.indicatorWithText (cq ++ "__" ++ ol)
            (cq ++ "__" ++ ol ++ "_text")])
      else
        let ol := slugify (pyStr ocell)
        (some cq, [ColSpec.indicator (cq ++ "__" ++ ol)])
    | none => (none, [])

/-- The full column loop: fold `processCol` over the (row-0, row-1)
cell pairs, left to right.  (The subsequent reordering step of the
source only permutes these specs, and the final filter drops the ones
whose name ends in `__nan`; neither step changes how a column was
classified.) -/
def processCols : Option String → List (Option String × Option String) → List ColSpec
  | _, [] => []
  | cur, (q, o) :: rest =>
    let step := processCol cur q o
    step.2 ++ processCols step.1 rest

/-! ## `group_columns` and `row_to_qa` -/

/-- A cell of the one-hot DataFrame handed to `row_to_qa`: indicator
columns hold small ints, text/open columns hold strings or `NaN`. -/
inductive Cell
  | nan
  | str (s : String)
  | int (n : Int)
deriving DecidableEq

/-- `pd.notna` on a cell. -/
def notna : Cell → Bool
  | Cell.nan => false
  | _ => true

/-- Python `str(value)` on a cell. -/
def cellStr : Cell → String
  | Cell.nan => "nan"
  | Cell.str s => s
  | Cell.int n => toString n

/-- Python `row[col] == 1` (int comparison; a string never equals an
int in Python). -/
def cellEqOne : Cell → Bool
  | Cell.int n => n == 1
  | _ => false

/-- `row[col] == 1 or str(row[col]).strip() == "1"`. -/
def cellIsOne (c : Cell) : Bool :=
  cellEqOne c || pyStrip (cellStr c) == "1"

/-- Characters of `s` after the first `"__"` (Python
`s.split("__", 1)[1]`; callers in the source only pass names that
contain `"__"`, as `group_columns` guarantees). -/
def afterFirstSepL : List Char → List Char
  | [] => []
  | '_' :: '_' :: rest => rest
  | _ :: rest => afterFirstSepL rest

/-- Characters of `s` before the first `"__"` (Python
`s.split("__", 1)[0]`). -/
def beforeFirstSepL : List Char → List Char
  | [] => []
  | '_' :: '_' :: _ => []
  | c :: rest => c :: beforeFirstSepL rest

/-- Python `s.replace("_", " ")`. -/
def underscoresToSpaces (s : String) : String :=
  ⟨s.toList.map (fun c => if c = '_' then ' ' else c)⟩

/-- Option label derived from an indicator column name:
`col.split("__", 1)[1].replace("_", " ")`. -/
def optionLabelOf (col : String) : String :=
  underscoresToSpaces ⟨afterFirstSepL col.toList⟩

/-- Does `s` end with `suf`? (Python `s.endswith(suf)`.) -/
def strEndsWith (s suf : String) : Bool :=
  startsWithL s.toList.reverse suf.toList.reverse

/-- The "other" option-label test of `row_to_qa` (line 145 of
`survey_converter.py`). -/
def isOtherLabel (option : String) : Bool :=
  pyIn "otro" (lowerStr option) || pyIn "other" (lowerStr option) ||
  pyIn "especif" (lowerStr option) || pyIn "añade información" (lowerStr option)

/-- `group_columns`: dict `setdefault`/append preserving insertion
order.  `col = none` registers a stand-alone base with an empty list. -/
def groupAdd (g : List (String × List String)) (base : String)
    (col : Option String) : List (String × List String) :=
  if g.any (fun p => p.1 == base) then
    match col with
    | some c => g.map (fun p => if p.1 == base then (p.1, p.2 ++ [c]) else p)
    | none => g
  else
    match col with
    | some c => g ++ [(base, [c])]
    | none => g ++ [(base, [])]

/-- `SurveyMonkeyConverter.group_columns`. -/
def group_columns (columns : List String) : List (String × List String) :=
  columns.foldl
    (fun g col =>
      if containsL col.toList ['_', '_'] then
        groupAdd g ⟨beforeFirstSepL col.toList⟩ (some col)
      else
        groupAdd g col none)
    []

/-- The first pass of `row_to_qa` over a closed question's columns:
accumulates `(selected, other_text, other_option)` in column order,
later text/other columns overwriting earlier ones. -/
def firstPassGo (row : String → Cell) :
    List String → List String × Option String × Option String →
    List String × Option String × Option String
  | [], st => st
  | col :: rest, (sel, oTxt, oOpt) =>
    if strEndsWith col "_text" then
      let v := row col
      if notna v && pyStrip (cellStr v) ≠ "" then
        firstPassGo row rest (sel, some (pyStrip (cellStr v)), oOpt)
      else
        firstPassGo row rest (sel, oTxt, oOpt)
    else
      let option := optionLabelOf col
      if cellIsOne (row col) then
        if isOtherLabel option then
          firstPassGo row rest (sel, oTxt, some option)
        else
          firstPassGo row rest (sel ++ [option], oTxt, oOpt)
      else
        firstPassGo row rest (sel, oTxt, oOpt)

/-- Python truthiness of the `other_text` / `other_option` slots
(`None` and the empty string are falsy). -/
def strTruthy : Option String → Bool
  | none => false
  | some s => s ≠ ""

/-- The "combine other with its text" step of `row_to_qa`
(lines 150-156 of `survey_converter.py`). -/
def resolveOther (sel : List String) (oOpt oTxt : Option String) :
    List String :=
  if strTruthy oOpt && strTruthy oTxt then
    sel ++ [oOpt.getD "" ++ ": " ++ oTxt.getD ""]
  else if strTruthy oOpt then sel ++ [oOpt.getD ""]
  else if strTruthy oTxt then sel ++ [oTxt.getD ""]
  else sel

/-- A respondent's answer to one question. -/
inductive Answer
  /-- open question: the raw cell -/
  | openAns (c : Cell)
  /-- closed question: ordered list of selected option labels -/
  | multi (l : List String)
deriving DecidableEq

/-- One `{index, question, answer}` record. -/
structure QARecord where
  index : Nat
  question : String
  answer : Answer
deriving DecidableEq

/-- `base.replace("_", " ")` with the first character upper-cased. -/
def humanize (base : String) : String :=
  match (underscoresToSpaces base).toList with
  | [] => underscoresToSpaces base
  | c :: rest => ⟨c.toUpper :: rest⟩

/-- The loop of `row_to_qa`, with `qIdx` the running 1-based counter
(incremented on skipped questions as well). -/
def row_to_qa_go (row : String → Cell) :
    List (String × List String) → Nat → List QARecord
  | [], _ => []
  | (base, cols) :: rest, qIdx =>
    match cols with
    | [] =>
      { index := qIdx, question := humanize base,
        answer := Answer.openAns (row base) } :: row_to_qa_go row rest (qIdx + 1)
    | _ :: _ =>
      let st := firstPassGo row cols ([], none, none)
      let selected := resolveOther st.1 st.2.2 st.2.1
      if selected.isEmpty then
        row_to_qa_go row rest (qIdx + 1)
      else
        { index := qIdx, question := humanize base,
          answer := Answer.multi selected } :: row_to_qa_go row rest (qIdx + 1)

/-- `SurveyMonkeyConverter.row_to_qa`. -/
def row_to_qa (row : String → Cell) (groups : List (String × List String)) :
    List QARecord :=
  row_to_qa_go row groups 1

/-- The body of the `row_to_qa` loop for a single group at a given
index, as an optional record: used to state how emitted indices relate
to question positions. -/
def qaRecordForGroup (row : String → Cell) (idx : Nat) (base : String)
    (cols : List String) : Option QARecord :=
  match cols with
  | [] =>
    some { index := idx, question := humanize base,
           answer := Answer.openAns (row base) }
  | _ :: _ =>
    let st := firstPassGo row cols ([], none, none)
    let selected := resolveOther st.1 st.2.2 st.2.1
    if selected.isEmpty then none
    else some { index := idx, question := humanize base,
                answer := Answer.multi selected }

/-! ## Arithmetic

Python computes on binary doubles; the model computes on exact
rationals (the two agree on every value appearing in the claims
below).  The standard `Rat` operations are `@[irreducible]` in core, so
the embedding uses the kernel-reducible `Rat.divInt` forms below; each
is proved equal to the standard operation (`qadd_eq` … `qsum_eq_sum` in
the theorem section), so statements can be read with ordinary
arithmetic. -/

/-- `a + b` on `ℚ`, kernel-reducible (see `qadd_eq`). -/
def qadd (a b : ℚ) : ℚ :=
  Rat.divInt (a.num * b.den + b.num * a.den) ((a.den : ℤ) * (b.den : ℤ))

/-- `a - b` on `ℚ`, kernel-reducible (see `qsub_eq`). -/
def qsub (a b : ℚ) : ℚ :=
  Rat.divInt (a.num * b.den - b.num * a.den) ((a.den : ℤ) * (b.den : ℤ))

/-- `a * b` on `ℚ`, kernel-reducible (see `qmul_eq`). -/
def qmul (a b : ℚ) : ℚ :=
  Rat.divInt (a.num * b.num) ((a.den : ℤ) * (b.den : ℤ))

/-- `a / b` on `ℚ`, kernel-reducible (see `qdiv_eq`). -/
def qdiv (a b : ℚ) : ℚ :=
  Rat.divInt (a.num * b.den) ((a.den : ℤ) * b.num)

/-- Python `sum(...)` over rationals: a left fold from `0`
(see `qsum_eq_sum`). -/
def qsum (l : List ℚ) : ℚ :=
  l.foldl qadd 0

/-- Round half to even to an integer, the rounding mode of Python's
`round`.  With `f = ⌊q⌋` (floor division of `num` by `den`), the
fractional part `q - f = (num - f·den)/den` is compared against `1/2`
by comparing `2·(num - f·den)` against `den`. -/
def roundHalfEven (q : ℚ) : ℤ :=
  let f := Int.fdiv q.num q.den
  let r2 := 2 * (q.num - f * q.den)
  if r2 < (q.den : ℤ) then f
  else if (q.den : ℤ) < r2 then f + 1
  else if f % 2 = 0 then f else f + 1

/-- Python `round(q, 2)`. -/
def pyRound2 (q : ℚ) : ℚ :=
  Rat.divInt (roundHalfEven (qmul 100 q)) 100

/-! ## The persisted data model (Supabase tables) -/

/-- A row of the `respondents` table. -/
structure Respondent where
  id : Nat
  company_id : Nat
deriving DecidableEq

/-- A row of the `questions` table (the fields the analytics reads). -/
structure Question where
  id : Nat
  company_id : Nat
  question_text : String
deriving DecidableEq

/-- A row of the `options` table. -/
structure OptionRow where
  id : Nat
  company_id : Nat
  question_id : Nat
  option_text : String
deriving DecidableEq

/-- A row of the `answers` table: exactly one of `option_id` /
`open_value` is set in practice; both are nullable columns. -/
structure AnswerRow where
  id : Nat
  company_id : Nat
  respondent_id : Nat
  question_id : Option Nat
  option_id : Option Nat
  open_value : Option String
deriving DecidableEq

/-- The database state an analytics run reads. -/
structure DB where
  respondents : List Respondent
  questions : List Question
  options : List OptionRow
  answers : List AnswerRow
deriving DecidableEq

/-- Python dict assignment `m[k] = v` on an insertion-ordered
association list: overwrite in place, or append. -/
def dictSet {κ α : Type} [BEq κ] (m : List (κ × α)) (k : κ) (v : α) :
    List (κ × α) :=
  if m.any (fun p => p.1 == k) then
    m.map (fun p => if p.1 == k then (k, v) else p)
  else m ++ [(k, v)]

/-- Python `m.get(k, d)`. -/
def dictGetD {κ α : Type} [BEq κ] (m : List (κ × α)) (k : κ) (d : α) : α :=
  match m.find? (fun p => p.1 == k) with
  | some p => p.2
  | none => d

/-- Python `set.add` on a duplicate-free list (insertion order kept;
only the cardinality of these sets is ever consumed). -/
def dedupAppend (s : List Nat) (x : Nat) : List Nat :=
  if s.contains x then s else s ++ [x]

/-- The result payload of an envelope: a bare number or a mapping. -/
inductive ResVal
  | num (q : ℚ)
  | strMap (m : List (String × ℚ))
deriving DecidableEq

/-- The uniform result envelope of every formula.  (The `variables`
key of the source, a per-formula bag of intermediate counts, is not
modelled: no claim constrains it.)  `result_grouped` is the extra key
of `calculate_transport_mode_distribution`, `detailed_result` the
extra key of the barrier/motivation formulas. -/
structure Envelope where
  name : String
  question : Option String := none
  result : Option ResVal := none
  error : Option String := none
  result_grouped : Option ResVal := none
  detailed_result : Option ResVal := none
deriving DecidableEq

/-- The `questions` rows of one company, in storage order. -/
def questionsFor (db : DB) (cid : Nat) : List Question :=
  db.questions.filter (fun q => q.company_id == cid)

/-! ## Formula 1: participation rate -/

/-- `SurveyAnalytics.get_total_responses`: exact count of `respondents`
rows of the company (a failing query is out of the model's scope). -/
def get_total_responses (db : DB) (cid : Nat) : Nat :=
  (db.respondents.filter (fun r => r.company_id == cid)).length

/-- `SurveyAnalytics.calculate_participation_rate`. -/
def calculate_participation_rate (db : DB) (cid : Nat)
    (total_employees : ℤ) : Envelope :=
  if total_employees ≤ 0 then
    { name := "Tasa de participación de la encuesta",
      result := some (ResVal.num 0),
      error := some "El número total de empleados debe ser mayor que cero" }
  else
    let responses := get_total_responses db cid
    { name := "Tasa de participación de la encuesta",
      result := some (ResVal.num
        (pyRound2 (qmul (qdiv (responses : ℚ) ((total_employees : ℤ) : ℚ)) 100))) }

/-! ## Formula 2: gender distribution -/

/-- Keyword list of `calculate_gender_distribution`. -/
def genderKeywords : List String :=
  ["género", "genero", "sexo", "gender", "sex"]

/-- `SurveyAnalytics.calculate_gender_distribution`. -/
def calculate_gender_distribution (db : DB) (cid : Nat) : Envelope :=
  match (questionsFor db cid).find?
      (fun q => genderKeywords.any (fun k => pyIn k (lowerStr q.question_text))) with
  | none =>
    { name := "Distribución por género",
      error := some "No se encontró pregunta relacionada con género en la encuesta" }
  | some q =>
    let opts := db.options.filter
      (fun o => o.question_id == q.id && o.company_id == cid)
    let option_ids : List (Nat × String) :=
      opts.foldl (fun m o => dictSet m o.id o.option_text) []
    let gender_counts : List (String × Nat) :=
      option_ids.foldl
        (fun m p => dictSet m p.2
          ((db.answers.filter
            (fun a => a.option_id == some p.1 && a.company_id == cid)).length)) []
    let total := (gender_counts.map Prod.snd).sum
    if total == 0 then
      { name := "Distribución por género",
        error := some "No hay respuestas válidas para la pregunta de género" }
    else
      { name := "Distribución por género",
        question := some q.question_text,
        result := some (ResVal.strMap (gender_counts.map
          (fun p => (p.1, pyRound2 (qmul (qdiv (p.2 : ℚ) (total : ℚ)) 100))))) }

/-! ## Formula 3: postal code distribution -/

/-- Keyword list of `calculate_postal_code_distribution`. -/
def postalKeywords : List String :=
  ["código postal", "codigo postal", "postal code", "cp", "zip", "c.p."]

/-- The tabulation loop of `calculate_postal_code_distribution`: per
answer row, skip respondents already seen, then count the stripped
non-blank postal code.  State is `(unique_respondents, postal_counts)`. -/
def postalFold : List AnswerRow → List Nat × List (String × Nat) →
    List Nat × List (String × Nat)
  | [], st => st
  | a :: rest, (seen, counts) =>
    if seen.contains a.respondent_id then postalFold rest (seen, counts)
    else
      let seen2 := seen ++ [a.respondent_id]
      match a.open_value with
      | some pc =>
        if pc ≠ "" && pyStrip pc ≠ "" then
          postalFold rest
            (seen2, dictSet counts (pyStrip pc) (dictGetD counts (pyStrip pc) 0 + 1))
        else postalFold rest (seen2, counts)
      | none => postalFold rest (seen2, counts)

/-- Stable insertion into a list kept in descending value order: `x`
goes after every earlier element of greater-or-equal value. -/
def insertDesc (x : String × ℚ) : List (String × ℚ) → List (String × ℚ)
  | [] => [x]
  | y :: ys => if y.2 < x.2 then x :: y :: ys else y :: insertDesc x ys

/-- Python `sorted(items, key=lambda x: x[1], reverse=True)`: a stable
descending sort by value (equal values keep their original order, as
CPython's stable sort guarantees). -/
def sortByValDesc (l : List (String × ℚ)) : List (String × ℚ) :=
  l.foldl (fun acc x => insertDesc x acc) []

/-- The top-10 collapse of `calculate_postal_code_distribution`
(lines 211-219 of `survey_analytics.py`), applied when more than 10
distinct codes were tabulated. -/
def postalTop10 (postal_percentages : List (String × ℚ)) : List (String × ℚ) :=
  if 10 < postal_percentages.length then
    let sorted_items := sortByValDesc postal_percentages
    let top_10_items := sorted_items.take 10
    let other_percentage : ℚ := qsum ((sorted_items.drop 10).map Prod.snd)
    if 0 < other_percentage then
      dictSet top_10_items "Otros" (pyRound2 other_percentage)
    else top_10_items
  else postal_percentages

/-- The municipality-enrichment loop: every key except `"Otros"` is
looked up through the external geocoder `muni`; a hit rewrites the key
to `"<code> - <municipality>"`, a miss keeps the bare code. -/
def postalEnrich (muni : String → Option String)
    (pp : List (String × ℚ)) : List (String × ℚ) :=
  pp.foldl
    (fun m p =>
      if p.1 == "Otros" then dictSet m p.1 p.2
      else
        match muni p.1 with
        | some mn => dictSet m (p.1 ++ " - " ++ mn) p.2
        | none => dictSet m p.1 p.2)
    []

/-- `SurveyAnalytics.calculate_postal_code_distribution`, parameterised
by the external geocode lookup `muni`. -/
def calculate_postal_code_distribution (db : DB) (cid : Nat)
    (muni : String → Option String) : Envelope :=
  match (questionsFor db cid).find?
      (fun q => postalKeywords.any
        (fun k => pyIn (lowerStr k) (lowerStr q.question_text))) with
  | none =>
    { name := "Distribución por código postal",
      error := some "No se encontró pregunta relacionada con código postal en la encuesta" }
  | some q =>
    let answers := db.answers.filter
      (fun a => a.question_id == some q.id && a.company_id == cid)
    let st := postalFold answers ([], [])
    let total := st.1.length
    if total == 0 then
      { name := "Distribución por código postal",
        error := some "No hay respuestas válidas para la pregunta de código postal" }
    else
      let postal_percentages := st.2.map
        (fun p => (p.1, pyRound2 (qmul (qdiv (p.2 : ℚ) (total : ℚ)) 100)))
      let pp := postalTop10 postal_percentages
      { name := "Distribución por código postal",
        question := some q.question_text,
        result := some (ResVal.strMap (postalEnrich muni pp)) }

/-! ## Formula 8: multimodal workers -/

/-- Keyword list of `calculate_multimodal_workers_percentage` (kept
verbatim: the first entry retains its capital letter, exactly as in the
source, where it is compared against lower-cased text). -/
def multimodalKeywords : List String :=
  ["Si combinas varios medios de transporte",
   "combinas", "combine", "combinación", "combination",
   "varios medios", "multiple modes", "multimodal",
   "más de un medio", "more than one mode", "varios transportes"]

/-- The distinct-respondent accumulation of
`calculate_multimodal_workers_percentage`: for each option, add every
answering respondent id to the set. -/
def multimodalRespondents (db : DB) (cid : Nat)
    (opts : List OptionRow) : List Nat :=
  opts.foldl
    (fun s o =>
      (db.answers.filter
        (fun a => a.option_id == some o.id && a.company_id == cid)).foldl
        (fun s2 a => dedupAppend s2 a.respondent_id) s)
    []

/-- `SurveyAnalytics.calculate_multimodal_workers_percentage`. -/
def calculate_multimodal_workers_percentage (db : DB) (cid : Nat) : Envelope :=
  let total := (db.respondents.filter (fun r => r.company_id == cid)).length
  if total == 0 then
    { name := "Porcentaje de trabajadores multimodales",
      error := some "No hay encuestados para esta compañía" }
  else
    match (questionsFor db cid).find?
        (fun q => multimodalKeywords.any
          (fun k => pyIn k (lowerStr q.question_text))) with
    | none =>
      { name := "Porcentaje de trabajadores multimodales",
        error := some "No se encontró pregunta relacionada con combinación de transportes en la encuesta" }
    | some q =>
      let opts := db.options.filter
        (fun o => o.question_id == q.id && o.company_id == cid)
      if opts.isEmpty then
        { name := "Porcentaje de trabajadores multimodales",
          error := some "No se encontraron opciones para la pregunta de combinación de transportes" }
      else
        let multimodal_count := (multimodalRespondents db cid opts).length
        let multimodal_percentage :=
          pyRound2 (qmul (qdiv (multimodal_count : ℚ) (total : ℚ)) 100)
        let non_multimodal_percentage := pyRound2 (qsub 100 multimodal_percentage)
        { name := "Porcentaje de trabajadores multimodales",
          question := some q.question_text,
          result := some (ResVal.strMap
            [("Multimodal", multimodal_percentage),
             ("No multimodal", non_multimodal_percentage)]) }

/-! ## Distance extraction (`_extract_distance_value`)

The source uses three fixed regex strategies in order.  They are
embedded as direct scanners; for these particular patterns greedy
scanning without backtracking matches Python's leftmost-greedy
semantics (after a separator character, the continuation `\s*<unit>`
can never start on the separator itself, so declining the separator
never rescues a failed attempt). -/

/-- Greedy `\d+[.,]?\d*` at the head of the list: the matched token and
the remaining characters, or `none` when the head is not a digit. -/
def scanNumber (l : List Char) : Option (List Char × List Char) :=
  match l with
  | [] => none
  | c :: _ =>
    if c.isDigit then
      let ds := l.takeWhile Char.isDigit
      let r1 := l.dropWhile Char.isDigit
      match r1 with
      | s :: r2 =>
        if s = '.' || s = ',' then
          some (ds ++ s :: r2.takeWhile Char.isDigit, r2.dropWhile Char.isDigit)
        else some (ds, r1)
      | [] => some (ds, [])
    else none

/-- Python regex `\s*` on the ASCII range. -/
def skipSpaces (l : List Char) : List Char :=
  l.dropWhile (fun c => isPySpace c)

/-- `re.search(r'(\d+[.,]?\d*)\s*<unit>', l)`: try every start
position left to right; at a digit, scan the greedy number token and
require `\s*` then the literal unit.  The fuel starts at `l.length`,
which bounds the number of positions tried. -/
def searchNumUnitGo : Nat → List Char → List Char → Option (List Char)
  | 0, _, _ => none
  | _, [], _ => none
  | fuel + 1, c :: cs, unit =>
    match scanNumber (c :: cs) with
    | some (tok, rest) =>
      if startsWithL (skipSpaces rest) unit then some tok
      else searchNumUnitGo fuel cs unit
    | none => searchNumUnitGo fuel cs unit

/-- Leftmost number-then-unit match in `l`. -/
def searchNumUnit (l : List Char) (unit : List Char) : Option (List Char) :=
  searchNumUnitGo l.length l unit

/-- `re.findall(r'(\d+[.,]?\d*)', ·)`: all non-overlapping greedy
number tokens, scanning left to right.  Each successful scan consumes
at least one character, so `l.length` fuel suffices. -/
def findNumbersGo : Nat → List Char → List (List Char)
  | 0, _ => []
  | _, [] => []
  | fuel + 1, c :: cs =>
    match scanNumber (c :: cs) with
    | some (tok, rest) => tok :: findNumbersGo fuel rest
    | none => findNumbersGo fuel cs

/-- All number tokens of `l`. -/
def findNumbers (l : List Char) : List (List Char) :=
  findNumbersGo l.length l

/-- Value of a digit run as a natural number. -/
def digitsToNat (l : List Char) : Nat :=
  l.foldl (fun n c => 10 * n + (c.toNat - '0'.toNat)) 0

/-- Python `float(tok.replace(',', '.'))` on a matched number token
(`digits`, optionally a separator and further digits), as an exact
rational. -/
def parseFloatTok (tok : List Char) : ℚ :=
  let intPart := tok.takeWhile Char.isDigit
  let rest := tok.dropWhile Char.isDigit
  match rest with
  | [] => (digitsToNat intPart : ℚ)
  | _ :: frac =>
    qadd (digitsToNat intPart : ℚ) (qdiv (digitsToNat frac : ℚ) (((10 : ℕ) ^ frac.length : ℕ) : ℚ))

/-- Match the words of a `\s*`-separated phrase pattern starting
exactly here. -/
def matchWordsAt : List Char → List (List Char) → Bool
  | _, [] => true
  | l, w :: ws => startsWithL l w && matchWordsAt (skipSpaces (l.drop w.length)) ws

/-- `re.search` of a `\s*`-separated phrase pattern: try every start
position. -/
def searchPhrase : List Char → List (List Char) → Bool
  | [], ws => matchWordsAt [] ws
  | c :: cs, ws => matchWordsAt (c :: cs) ws || searchPhrase cs ws

/-- The unit alternatives of pattern 1, in source order. -/
def kmUnits : List String :=
  ["km", "kilómetros", "kilometros", "kilómetro", "kilometro"]

/-- The fixed range phrasings of pattern 3, in source order, with their
representative values. -/
def distRangePhrases : List (List String × ℚ) :=
  [(["menos", "de", "5"], 3),
   (["entre", "6", "y", "15"], Rat.divInt 21 2),
   (["entre", "16", "y", "25"], Rat.divInt 41 2),
   (["entre", "26", "y", "35"], Rat.divInt 61 2),
   (["más", "de", "35"], 40)]

/-- `SurveyAnalytics._extract_distance_value`.  `none` models both a
missing (`None`) and an empty text value (`if not text_value`). -/
def _extract_distance_value (text_value : Option String) : Option ℚ :=
  match text_value with
  | none => none
  | some s =>
    if s = "" then none
    else
      let t := (lowerStr s).toList
      match kmUnits.findSome? (fun u => searchNumUnit t u.toList) with
      | some tok => some (parseFloatTok tok)
      | none =>
        match findNumbers t with
        | [tok] => some (parseFloatTok tok)
        | _ =>
          distRangePhrases.findSome?
            (fun p => if searchPhrase t (p.1.map String.toList) then some p.2 else none)

/-! ## Formula: distance range distribution -/

/-- The hard-coded distance buckets `(name, min, max)`; `none` models
`float('inf')` for the last bucket's upper bound. -/
def distance_ranges : List (String × ℚ × Option ℚ) :=
  [("Menos de 5 km", 0, some 5),
   ("Entre 6 y 15 km", 6, some 15),
   ("Entre 16 y 25 km", 16, some 25),
   ("Entre 26 y 35 km", 26, some 35),
   ("Más de 35 km", 36, none)]

/-- `range_info["min"] <= v <= range_info["max"]`. -/
def inRange (v : ℚ) (r : String × ℚ × Option ℚ) : Bool :=
  decide (r.2.1 ≤ v) &&
    (match r.2.2 with
     | some m => decide (v ≤ m)
     | none => true)

/-- Index of the first bucket containing `v` (the `break` in the
classification loop), or `none` when no bucket matches. -/
def assignBucket (v : ℚ) : Option Nat :=
  distance_ranges.findIdx? (fun r => inRange v r)

/-- Add `n` to the count at bucket `i`. -/
def bumpAtBy (counts : List Nat) (i n : Nat) : List Nat :=
  counts.set i (counts.getD i 0 + n)

/-- The free-text classification loop (question with no stored
options): one pass over the answer rows, skipping already-seen
respondents, bucketing each newly seen respondent's extracted value.
State is `(unique_respondents, counts)`. -/
def distanceFoldOpen : List AnswerRow → List Nat × List Nat →
    List Nat × List Nat
  | [], st => st
  | a :: rest, (seen, counts) =>
    if seen.contains a.respondent_id then distanceFoldOpen rest (seen, counts)
    else
      let seen2 := seen ++ [a.respondent_id]
      match _extract_distance_value a.open_value with
      | some v =>
        match assignBucket v with
        | some i => distanceFoldOpen rest (seen2, bumpAtBy counts i 1)
        | none => distanceFoldOpen rest (seen2, counts)
      | none => distanceFoldOpen rest (seen2, counts)

/-- The predefined-options classification loop: each option's label is
extracted and bucketed, and the bucket receives the full count of
answer rows for that option. -/
def distanceFoldOptions (db : DB) (cid : Nat) :
    List OptionRow → List Nat → List Nat
  | [], counts => counts
  | o :: rest, counts =>
    match _extract_distance_value (some o.option_text) with
    | none => distanceFoldOptions db cid rest counts
    | some v =>
      match assignBucket v with
      | some i =>
        distanceFoldOptions db cid rest
          (bumpAtBy counts i
            ((db.answers.filter
              (fun a => a.option_id == some o.id && a.company_id == cid)).length))
      | none => distanceFoldOptions db cid rest counts

/-- `SurveyAnalytics._count_unique_respondents_for_question`. -/
def _count_unique_respondents_for_question (db : DB) (cid qid : Nat) : Nat :=
  let opts := db.options.filter
    (fun o => o.question_id == qid && o.company_id == cid)
  if opts.isEmpty then
    ((db.answers.filter
      (fun a => a.question_id == some qid && a.company_id == cid)).foldl
      (fun s a => dedupAppend s a.respondent_id) []).length
  else
    (opts.foldl
      (fun s o =>
        (db.answers.filter
          (fun a => a.option_id == some o.id && a.company_id == cid)).foldl
          (fun s2 a => dedupAppend s2 a.respondent_id) s)
      []).length

/-- Keyword list of `calculate_distance_range_distribution`. -/
def distanceKeywords : List String := ["cuántos kilómetros recorres"]

/-- `SurveyAnalytics.calculate_distance_range_distribution`. -/
def calculate_distance_range_distribution (db : DB) (cid : Nat) : Envelope :=
  match (questionsFor db cid).find?
      (fun q => distanceKeywords.any
        (fun k => pyIn k (lowerStr q.question_text))) with
  | none =>
    { name := "Porcentaje de desplazamientos por tramo de distancia",
      error := some "No se encontró ninguna pregunta relacionada con la distancia al trabajo" }
  | some q =>
    let opts := db.options.filter
      (fun o => o.question_id == q.id && o.company_id == cid)
    let counts :=
      if opts.isEmpty then
        (distanceFoldOpen
          (db.answers.filter
            (fun a => a.question_id == some q.id && a.company_id == cid))
          ([], [0, 0, 0, 0, 0])).2
      else
        distanceFoldOptions db cid opts [0, 0, 0, 0, 0]
    let total := _count_unique_respondents_for_question db cid q.id
    let percentages := (distance_ranges.zip counts).map
      (fun p =>
        (p.1.1,
         pyRound2 (if 0 < total then qmul (qdiv (p.2 : ℚ) (total : ℚ)) 100 else 0)))
    { name := "Porcentaje de desplazamientos por tramo de distancia",
      question := some q.question_text,
      result := some (ResVal.strMap percentages) }


/-! ## Shared helpers for the remaining `calculate_*` formulas

Every further formula locates its question with the same
`for question in questions.data: if any(kw in question_lower ...)`
loop; `kwHit` is that per-question test (`kwHitLower` for the formulas
that lower-case the keyword as well), and the loop itself is
`List.find?`. -/

/-- `any(keyword in question['question_text'].lower() for keyword in kws)`. -/
def kwHit (kws : List String) (q : Question) : Bool :=
  kws.any (fun k => pyIn k (lowerStr q.question_text))

/-- `any(keyword.lower() in question['question_text'].lower() for keyword in kws)`. -/
def kwHitLower (kws : List String) (q : Question) : Bool :=
  kws.any (fun k => pyIn (lowerStr k) (lowerStr q.question_text))

/-- `options.select(...).eq('question_id', qid).eq('company_id', cid)`:
the option rows of one question, in storage order. -/
def optionsFor (db : DB) (cid qid : Nat) : List OptionRow :=
  db.options.filter (fun o => o.question_id == qid && o.company_id == cid)

/-- `answers.select(...).eq('option_id', oid).eq('company_id', cid)`. -/
def answersForOption (db : DB) (cid oid : Nat) : List AnswerRow :=
  db.answers.filter (fun a => a.option_id == some oid && a.company_id == cid)

/-- `answers.select(...).eq('question_id', qid).eq('company_id', cid)`. -/
def answersForQuestion (db : DB) (cid qid : Nat) : List AnswerRow :=
  db.answers.filter (fun a => a.question_id == some qid && a.company_id == cid)

/-- `round((count / total) * 100, 2)`. -/
def pct (count total : Nat) : ℚ :=
  pyRound2 (qmul (qdiv (count : ℚ) (total : ℚ)) 100)

/-- `round((count / total) * 100 if total > 0 else 0, 2)`, the guarded
percentage several formulas compute. -/
def pctOr0 (count total : Nat) : ℚ :=
  pyRound2 (if 0 < total then qmul (qdiv (count : ℚ) (total : ℚ)) 100 else 0)

/-- Stable insertion: `x` goes after every element `y` with `le y x`. -/
def insBy {α : Type} (le : α → α → Bool) (x : α) : List α → List α
  | [] => [x]
  | y :: ys => if le y x then y :: insBy le x ys else x :: y :: ys

/-- Python `sorted(l, key=...)` (CPython's sort is stable): `le y x`
reads "`y` stays before `x`". -/
def pySortBy {α : Type} (le : α → α → Bool) (l : List α) : List α :=
  l.foldl (fun acc x => insBy le x acc) []

/-- Python `s.startswith(pre)`. -/
def pyStartsWith (s pre : String) : Bool :=
  startsWithL s.toList pre.toList

/-- Python `int(s)` on the ASCII range: optional surrounding
whitespace, an optional sign, then decimal digits (digit-group
underscores, non-ASCII digits are outside the model). -/
def pyParseInt (l : List Char) : Option Int :=
  match stripEnds isPySpace l with
  | [] => none
  | '+' :: ds =>
    if !ds.isEmpty && ds.all Char.isDigit then some (digitsToNat ds : Int) else none
  | '-' :: ds =>
    if !ds.isEmpty && ds.all Char.isDigit then some (-(digitsToNat ds : Int)) else none
  | ds =>
    if ds.all Char.isDigit then some (digitsToNat ds : Int) else none

/-- The mantissa of a Python float literal: `digits [. digits*]` or
`. digits+`; returns the value and the unconsumed rest. -/
def parseMantissa (t : List Char) : Option (ℚ × List Char) :=
  let ip := t.takeWhile Char.isDigit
  let r1 := t.dropWhile Char.isDigit
  match r1 with
  | '.' :: r2 =>
    let fp := r2.takeWhile Char.isDigit
    let r3 := r2.dropWhile Char.isDigit
    if ip.isEmpty && fp.isEmpty then none
    else some (qadd (digitsToNat ip : ℚ)
      (qdiv (digitsToNat fp : ℚ) (((10 : ℕ) ^ fp.length : ℕ) : ℚ)), r3)
  | _ => if ip.isEmpty then none else some ((digitsToNat ip : ℚ), r1)

/-- The exponent tail of a Python float literal: an optional sign and
digits after the `e`/`E`, scaling the mantissa `m`. -/
def pyParseExp (m : ℚ) (r : List Char) : Option ℚ :=
  let st : Bool × List Char :=
    match r with
    | '+' :: rr => (true, rr)
    | '-' :: rr => (false, rr)
    | _ => (true, r)
  let ds := st.2.takeWhile Char.isDigit
  let rest := st.2.dropWhile Char.isDigit
  if ds.isEmpty || !rest.isEmpty then none
  else
    let sc : ℚ := (((10 : ℕ) ^ digitsToNat ds : ℕ) : ℚ)
    some (if st.1 then qmul m sc else qdiv m sc)

/-- Python `float(s)` on finite decimal/scientific literals: optional
whitespace and sign, mantissa, optional `e`/`E` exponent.  The words
`inf`/`nan` are treated as unparseable: every caller either filters
`'nan'` beforehand, rejects the value by a range check, or crashes on
`int(inf)` into the same skip/except path a parse failure takes. -/
def pyParseFloat (l : List Char) : Option ℚ :=
  let t := stripEnds isPySpace l
  let st : ℚ × List Char :=
    match t with
    | '+' :: r => (1, r)
    | '-' :: r => (-1, r)
    | _ => (1, t)
  match parseMantissa st.2 with
  | none => none
  | some mr =>
    match mr.2 with
    | [] => some (qmul st.1 mr.1)
    | 'e' :: r =>
      match pyParseExp mr.1 r with
      | some m => some (qmul st.1 m)
      | none => none
    | 'E' :: r =>
      match pyParseExp mr.1 r with
      | some m => some (qmul st.1 m)
      | none => none
    | _ => none

/-- Python `int(float(s))`-style truncation toward zero. -/
def pyTrunc (q : ℚ) : Int :=
  Int.tdiv q.num (q.den : Int)

/-- Python `s.replace(",", ".")`. -/
def commaToDot (s : String) : String :=
  ⟨s.toList.map (fun c => if c = ',' then '.' else c)⟩

/-- Python `s.split()` (split on whitespace runs, dropping empties):
the worker, with fuel bounding the character count consumed. -/
def splitWSGo : Nat → List Char → List String
  | 0, _ => []
  | fuel + 1, l =>
    let l1 := l.dropWhile isPySpace
    match l1 with
    | [] => []
    | _ :: _ =>
      (⟨l1.takeWhile (fun c => !isPySpace c)⟩ : String) ::
        splitWSGo fuel (l1.dropWhile (fun c => !isPySpace c))

/-- Python `s.split()`. -/
def pySplitWS (s : String) : List String :=
  splitWSGo s.toList.length s.toList

/-- Alternating decomposition of a text into `(digit run, following
non-digit stretch)` pairs, the skeleton the digit-anchored regexes of
the analytics walk.  Fuel bounds the characters consumed. -/
def runsGo : Nat → List Char → List (List Char × List Char)
  | 0, _ => []
  | fuel + 1, l =>
    let l1 := l.dropWhile (fun c => !c.isDigit)
    match l1 with
    | [] => []
    | _ :: _ =>
      let r := l1.dropWhile Char.isDigit
      (l1.takeWhile Char.isDigit, r.takeWhile (fun c => !c.isDigit)) ::
        runsGo fuel (r.dropWhile (fun c => !c.isDigit))

/-- All digit runs of `l` with their trailing non-digit stretches. -/
def digitRuns (l : List Char) : List (List Char × List Char) :=
  runsGo l.length l

/-- `re.search(r'(\d+)', ·)`: the first maximal digit run. -/
def firstNumber (l : List Char) : Option (List Char) :=
  let ds := (l.dropWhile (fun c => !c.isDigit)).takeWhile Char.isDigit
  if ds.isEmpty then none else some ds

/-- The PostgREST failure surfaced by the free-text branches that
`select('response_value', ...)`: the `answers` schema (see
`database.py`) has only `open_value`, so `.execute()` raises and the
formula returns through its `except` clause with this exception text
interpolated. -/
def responseValueError : String :=
  "column answers.response_value does not exist"

/-- The yes-option test
`t == "sí" or t == "si" or t.startswith("sí ") or t.startswith("si ")`
shared by the parking-problems and awareness formulas. -/
def isYesOption (t : String) : Bool :=
  t == "sí" || t == "si" || pyStartsWith t "sí " || pyStartsWith t "si "

/-- The no-option test `t == "no" or t.startswith("no ")`. -/
def isNoOption (t : String) : Bool :=
  t == "no" || pyStartsWith t "no "

/-- The "other" option-text whitelist of the work-trip-reason and
cycling-barrier formulas. -/
def otrosWords : List String :=
  ["otro", "otros", "otra", "otras", "other"]

/-- The affirmative-word list of the business-trip formulas. -/
def affirmativeWords : List String :=
  ["sí", "si", "yes", "true", "1"]

/-- `{opt['id']: opt['option_text'] for opt in options.data}` (a Python
dict keyed by option id). -/
def optionMapOf (opts : List OptionRow) : List (Nat × String) :=
  opts.foldl (fun m o => dictSet m o.id o.option_text) []

/-- The shared tabulation of the option-map formulas: initialise every
option text at `0` (`{option_text: 0 for option_text in option_map.values()}`),
then assign each text the exact answer count of its option id (texts
colliding across ids keep the last id's count, as the dict assignment
does). -/
def optionTextCounts (db : DB) (cid : Nat) (option_map : List (Nat × String)) :
    List (String × Nat) :=
  option_map.foldl
    (fun m p => dictSet m p.2 (answersForOption db cid p.1).length)
    (option_map.foldl (fun m p => dictSet m p.2 0) [])

/-! ## Formula 4: age distribution -/

/-- Keyword list of `calculate_age_distribution`. -/
def ageKeywords : List String :=
  ["edad", "age", "rango de edad", "age range", "años", "years"]

/-- Sort key `int(x[0].split('-')[0].strip("<").strip(">").strip())` of
the age buckets; `none` models the exception that abandons the sort
(the surrounding bare `try`/`except` leaves the dict unsorted). -/
def ageSortKey (s : String) : Option Int :=
  pyParseInt (stripEnds (fun c => c = '>')
    (stripEnds (fun c => c = '<') (s.toList.takeWhile (fun c => c ≠ '-'))))

/-- `SurveyAnalytics.calculate_age_distribution`. -/
def calculate_age_distribution (db : DB) (cid : Nat) : Envelope :=
  match (questionsFor db cid).find? (kwHit ageKeywords) with
  | none =>
    { name := "Distribución por edad",
      error := some "No se encontró pregunta relacionada con la edad en la encuesta" }
  | some q =>
    let opts := optionsFor db cid q.id
    if opts.isEmpty then
      { name := "Distribución por edad",
        error := some "No se encontraron opciones para la pregunta de edad" }
    else
      let age_counts := optionTextCounts db cid (optionMapOf opts)
      let total := (age_counts.map Prod.snd).sum
      if total == 0 then
        { name := "Distribución por edad",
          error := some "No hay respuestas válidas para la pregunta de edad" }
      else
        let age_percentages := age_counts.map (fun p => (p.1, pct p.2 total))
        let sortedPct :=
          if age_percentages.all (fun p => (ageSortKey p.1).isSome) then
            pySortBy
              (fun y x => decide ((ageSortKey y.1).getD 0 ≤ (ageSortKey x.1).getD 0))
              age_percentages
          else age_percentages
        { name := "Distribución por edad", question := some q.question_text,
          result := some (ResVal.strMap sortedPct) }

/-! ## Formula 5: workday type distribution -/

/-- Keyword list of `calculate_workday_type_distribution`. -/
def workdayKeywords : List String :=
  ["jornada", "horario", "schedule", "workday", "work day", "horario laboral",
   "work schedule"]

/-- `SurveyAnalytics.calculate_workday_type_distribution`. -/
def calculate_workday_type_distribution (db : DB) (cid : Nat) : Envelope :=
  match (questionsFor db cid).find? (kwHit workdayKeywords) with
  | none =>
    { name := "Distribución por tipo de jornada",
      error := some "No se encontró pregunta relacionada con tipo de jornada en la encuesta" }
  | some q =>
    let opts := optionsFor db cid q.id
    if opts.isEmpty then
      { name := "Distribución por tipo de jornada",
        error := some "No se encontraron opciones para la pregunta de tipo de jornada" }
    else
      let workday_counts := optionTextCounts db cid (optionMapOf opts)
      let total := (workday_counts.map Prod.snd).sum
      if total == 0 then
        { name := "Distribución por tipo de jornada",
          error := some "No hay respuestas válidas para la pregunta de tipo de jornada" }
      else
        { name := "Distribución por tipo de jornada",
          question := some q.question_text,
          result := some (ResVal.strMap
            (workday_counts.map (fun p => (p.1, pct p.2 total)))) }

/-! ## Formula 6: telework distribution -/

/-- Keyword list of `calculate_telework_distribution`. -/
def teleworkKeywords : List String :=
  ["teletrabajo", "remoto", "remote", "telework", "trabajo remoto",
   "trabajo desde casa", "work from home", "wfh", "teletrabajas"]

/-- The inner `extract_first_number` sort key of the telework buckets:
the first digit run, with the `"ning"`/`"tod"` special cases; a total
function, so the surrounding `try` never fails. -/
def extract_first_number (s : String) : Int :=
  match firstNumber s.toList with
  | some ds => (digitsToNat ds : Int)
  | none =>
    if pyIn "ning" (lowerStr s) then -1
    else if pyIn "tod" (lowerStr s) then 999
    else 0

/-- `SurveyAnalytics.calculate_telework_distribution`. -/
def calculate_telework_distribution (db : DB) (cid : Nat) : Envelope :=
  match (questionsFor db cid).find? (kwHit teleworkKeywords) with
  | none =>
    { name := "Distribución por días de teletrabajo",
      error := some "No se encontró pregunta relacionada con teletrabajo en la encuesta" }
  | some q =>
    let opts := optionsFor db cid q.id
    if opts.isEmpty then
      { name := "Distribución por días de teletrabajo",
        error := some "No se encontraron opciones para la pregunta de teletrabajo" }
    else
      let telework_counts := optionTextCounts db cid (optionMapOf opts)
      let total := (telework_counts.map Prod.snd).sum
      if total == 0 then
        { name := "Distribución por días de teletrabajo",
          error := some "No hay respuestas válidas para la pregunta de teletrabajo" }
      else
        let telework_percentages := telework_counts.map (fun p => (p.1, pct p.2 total))
        { name := "Distribución por días de teletrabajo",
          question := some q.question_text,
          result := some (ResVal.strMap (pySortBy
            (fun y x => decide (extract_first_number y.1 ≤ extract_first_number x.1))
            telework_percentages)) }

/-! ## Formula 7: transport mode distribution -/

/-- Keyword list of `calculate_transport_mode_distribution`. -/
def transportModeKeywords : List String :=
  ["principal medio de transporte",
   "modo de transporte", "transport mode", "medio de transporte",
   "desplazamiento", "commute", "viaje al trabajo", "trip to work",
   "movilidad", "mobility", "cómo llegas", "how do you get"]

/-- The ordered category table of `_group_similar_transport_modes`
(`"Otros"` has no keywords: it is filled by the fall-through). -/
def transportCategories : List (String × List String) :=
  [("Coche (solo)", ["coche solo", "coche individual", "auto solo", "car alone",
                     "solo driver"]),
   ("Coche compartido", ["coche compartido", "auto compartido", "carpooling",
                         "shared car", "shared ride"]),
   ("Transporte público", ["bus", "autobús", "metro", "tren", "tranvía", "subway",
                           "train", "public transport", "transporte público"]),
   ("Bicicleta", ["bici", "bicicleta", "bike", "bicycle", "cycling"]),
   ("A pie", ["pie", "caminando", "walk", "walking", "a pie", "on foot"]),
   ("Moto/Scooter", ["moto", "motocicleta", "motorcycle", "scooter", "motorbike"]),
   ("Otros", [])]

/-- `SurveyAnalytics._group_similar_transport_modes`: accumulate each
mode's percentage into the first matching category (else `"Otros"`),
drop zero categories, round.  The body cannot raise, so the `except`
returning `None` is unreachable. -/
def _group_similar_transport_modes (transport_percentages : List (String × ℚ)) :
    List (String × ℚ) :=
  let grouped :=
    transport_percentages.foldl
      (fun g p =>
        match transportCategories.find?
            (fun c => c.2.any (fun k => pyIn k (lowerStr p.1))) with
        | some c => dictSet g c.1 (qadd (dictGetD g c.1 0) p.2)
        | none => dictSet g "Otros" (qadd (dictGetD g "Otros" 0) p.2))
      (transportCategories.map (fun c => (c.1, (0 : ℚ))))
  (grouped.filter (fun p => decide ((0 : ℚ) < p.2))).map (fun p => (p.1, pyRound2 p.2))

/-- `SurveyAnalytics.calculate_transport_mode_distribution`. -/
def calculate_transport_mode_distribution (db : DB) (cid : Nat) : Envelope :=
  match (questionsFor db cid).find? (kwHit transportModeKeywords) with
  | none =>
    { name := "Distribución por modo de transporte",
      error := some "No se encontró pregunta relacionada con el modo de transporte en la encuesta" }
  | some q =>
    let opts := optionsFor db cid q.id
    if opts.isEmpty then
      { name := "Distribución por modo de transporte",
        error := some "No se encontraron opciones para la pregunta de modo de transporte" }
    else
      let transport_counts := optionTextCounts db cid (optionMapOf opts)
      let total := (transport_counts.map Prod.snd).sum
      if total == 0 then
        { name := "Distribución por modo de transporte",
          error := some "No hay respuestas válidas para la pregunta de modo de transporte" }
      else
        let transport_percentages := transport_counts.map (fun p => (p.1, pct p.2 total))
        let grouped := _group_similar_transport_modes transport_percentages
        { name := "Distribución por modo de transporte",
          question := some q.question_text,
          result := some (ResVal.strMap transport_percentages),
          result_grouped :=
            if grouped.isEmpty then none else some (ResVal.strMap grouped) }

/-! ## Formula: travel time distribution -/

/-- Keyword list of `calculate_travel_time_distribution`. -/
def travelTimeKeywords : List String := ["cuántos minutos dedicas"]

/-- The minute-unit patterns of `_extract_time_value`, in source order. -/
def minUnits : List String := ["min", "minutos", "minuto"]

/-- The hour-unit patterns of `_extract_time_value`, in source order. -/
def hourUnits : List String := ["h", "hora", "horas"]

/-- `re.search(r'(\d+)[^\d]*hora[^\d]*(\d+)[^\d]*minuto', ·)` over the
run decomposition: the match anchors on consecutive digit runs whose
separating non-digit stretch contains `hora` and whose following
stretch contains `minuto` (every pattern letter is a non-digit, so the
`[^\d]*` gaps can never cross a digit run). -/
def horaMinutoScan : List (List Char × List Char) → Option (Nat × Nat)
  | [] => none
  | (d1, s1) :: rest =>
    match rest with
    | [] => none
    | (d2, s2) :: _ =>
      if containsL s1 ['h', 'o', 'r', 'a'] &&
          containsL s2 ['m', 'i', 'n', 'u', 't', 'o'] then
        some (digitsToNat d1, digitsToNat d2)
      else horaMinutoScan rest

/-- The fixed time-range phrasings of pattern 5, in source order, with
their representative minute values. -/
def timeRangePhrases : List (List String × ℚ) :=
  [(["menos", "de", "15"], 10),
   (["entre", "16", "y", "30"], 23),
   (["entre", "31", "y", "45"], 38),
   (["entre", "46", "y", "60"], 53),
   (["más", "de", "60"], 75)]

/-- `SurveyAnalytics._extract_time_value`: minute units, hour units
(scaled by 60), the combined hours-and-minutes pattern, a lone number,
then the fixed range phrasings.  `none` models both a missing and an
empty text. -/
def _extract_time_value (text_value : Option String) : Option ℚ :=
  match text_value with
  | none => none
  | some s =>
    if s = "" then none
    else
      let t := (lowerStr s).toList
      match minUnits.findSome? (fun u => searchNumUnit t u.toList) with
      | some tok => some (parseFloatTok tok)
      | none =>
        match hourUnits.findSome? (fun u => searchNumUnit t u.toList) with
        | some tok => some (qmul (parseFloatTok tok) 60)
        | none =>
          match horaMinutoScan (digitRuns t) with
          | some hm => some (((60 * hm.1 + hm.2 : Nat) : ℚ))
          | none =>
            match findNumbers t with
            | [tok] => some (parseFloatTok tok)
            | _ =>
              timeRangePhrases.findSome?
                (fun p => if searchPhrase t (p.1.map String.toList) then some p.2
                          else none)

/-- The hard-coded time buckets `(name, min, max)`; `none` models
`float('inf')`. -/
def time_ranges : List (String × ℚ × Option ℚ) :=
  [("Menos de 15 minutos", 0, some 15),
   ("Entre 16 y 30 minutos", 16, some 30),
   ("Entre 31 y 45 minutos", 31, some 45),
   ("Entre 46 y 60 minutos", 46, some 60),
   ("Más de 60 minutos", 61, none)]

/-- Index of the first time bucket containing `v`. -/
def assignTimeBucket (v : ℚ) : Option Nat :=
  time_ranges.findIdx? (fun r => inRange v r)

/-- The free-text classification loop of
`calculate_travel_time_distribution`: skip already-seen respondents,
bucket each newly seen respondent's extracted minutes.  State is
`(unique_respondents, counts)`. -/
def timeFoldOpen : List AnswerRow → List Nat × List Nat → List Nat × List Nat
  | [], st => st
  | a :: rest, (seen, counts) =>
    if seen.contains a.respondent_id then timeFoldOpen rest (seen, counts)
    else
      let seen2 := seen ++ [a.respondent_id]
      match _extract_time_value a.open_value with
      | some v =>
        match assignTimeBucket v with
        | some i => timeFoldOpen rest (seen2, bumpAtBy counts i 1)
        | none => timeFoldOpen rest (seen2, counts)
      | none => timeFoldOpen rest (seen2, counts)

/-- The predefined-options classification loop of
`calculate_travel_time_distribution`: each option's label is extracted
and bucketed, the bucket receiving that option's full answer count. -/
def timeFoldOptions (db : DB) (cid : Nat) : List OptionRow → List Nat → List Nat
  | [], counts => counts
  | o :: rest, counts =>
    match _extract_time_value (some o.option_text) with
    | none => timeFoldOptions db cid rest counts
    | some v =>
      match assignTimeBucket v with
      | some i =>
        timeFoldOptions db cid rest
          (bumpAtBy counts i (answersForOption db cid o.id).length)
      | none => timeFoldOptions db cid rest counts

/-- `SurveyAnalytics.calculate_travel_time_distribution`. -/
def calculate_travel_time_distribution (db : DB) (cid : Nat) : Envelope :=
  match (questionsFor db cid).find? (kwHit travelTimeKeywords) with
  | none =>
    { name := "Porcentaje de desplazamientos por tramo de tiempo",
      error := some "No se encontró ninguna pregunta relacionada con el tiempo de desplazamiento al trabajo" }
  | some q =>
    let opts := optionsFor db cid q.id
    let counts :=
      if opts.isEmpty then
        (timeFoldOpen (answersForQuestion db cid q.id) ([], [0, 0, 0, 0, 0])).2
      else
        timeFoldOptions db cid opts [0, 0, 0, 0, 0]
    let total := _count_unique_respondents_for_question db cid q.id
    let percentages := (time_ranges.zip counts).map
      (fun p => (p.1.1, pctOr0 p.2 total))
    { name := "Porcentaje de desplazamientos por tramo de tiempo",
      question := some q.question_text,
      result := some (ResVal.strMap percentages) }

/-! ## Formula: business trips (mission travel) -/

/-- Keyword list of `calculate_business_trips_percentage`. -/
def missionKeywords : List String :=
  ["desplazamientos durante", "más desplazamientos", "otros desplazamientos",
   "desplazamientos adicionales", "desplazamiento en misión"]

/-- `SurveyAnalytics.calculate_business_trips_percentage`.  The free-text
branch selects the absent `response_value` column and raises (see
`responseValueError`); the `self.mission_respondents` side effect feeds
no claim and is not modelled.  In the options branch `yes_count` and
`no_count` are assignments, not additions, so the last qualifying
option of each kind wins. -/
def calculate_business_trips_percentage (db : DB) (cid : Nat) : Envelope :=
  match (questionsFor db cid).find? (kwHit missionKeywords) with
  | none =>
    { name := "Porcentaje de trabajadores que realizan desplazamientos en misión",
      error := some "No se encontró ninguna pregunta relacionada con desplazamientos en misión" }
  | some q =>
    let opts := optionsFor db cid q.id
    if opts.isEmpty then
      { name := "Porcentaje de trabajadores que realizan desplazamientos en misión",
        error := some ("Error al calcular el porcentaje de trabajadores con desplazamientos en misión: "
          ++ responseValueError) }
    else
      let yn := opts.foldl
        (fun (yn : Nat × Nat) o =>
          let ot := pyStrip (lowerStr o.option_text)
          let is_affirmative := affirmativeWords.any (fun w => pyIn w ot)
          let cnt := (answersForOption db cid o.id).length
          if is_affirmative && decide (0 < cnt) then (cnt, yn.2)
          else if !is_affirmative then (yn.1, cnt)
          else yn)
        (0, 0)
      let total := yn.1 + yn.2
      { name := "Porcentaje de trabajadores que realizan desplazamientos en misión",
        question := some q.question_text,
        result := some (ResVal.strMap
          [("Sí", pctOr0 yn.1 total), ("No", pctOr0 yn.2 total)]) }

/-! ## Formula: business trips with own car -/

/-- Keyword list of `calculate_business_trips_own_car_percentage`. -/
def carOwnershipKeywords : List String :=
  ["vehículo que utilizas", "coche que utilizas", "vehículo propiedad",
   "coche propio", "coche de empresa", "vehículo de empresa",
   "propiedad de la compañía"]

/-- `SurveyAnalytics.calculate_business_trips_own_car_percentage`.
Affirmative options count as company car, everything else as own car;
the free-text branch selects the absent `response_value` column and
raises. -/
def calculate_business_trips_own_car_percentage (db : DB) (cid : Nat) : Envelope :=
  match (questionsFor db cid).find? (kwHit carOwnershipKeywords) with
  | none =>
    { name := "Porcentaje de viajeros que usan coche propio",
      error := some "No se encontró ninguna pregunta relacionada con la propiedad del vehículo" }
  | some q =>
    let opts := optionsFor db cid q.id
    if opts.isEmpty then
      { name := "Porcentaje de viajeros que usan coche propio",
        error := some ("Error al calcular el porcentaje de viajeros que usan coche propio: "
          ++ responseValueError) }
    else
      let cc := opts.foldl
        (fun (cc : Nat × Nat) o =>
          let ot := pyStrip (lowerStr o.option_text)
          let cnt := (answersForOption db cid o.id).length
          if affirmativeWords.any (fun w => pyIn w ot) then (cc.1 + cnt, cc.2)
          else (cc.1, cc.2 + cnt))
        (0, 0)
      let total := cc.1 + cc.2
      if total == 0 then
        { name := "Porcentaje de viajeros que usan coche propio",
          error := some "No hay respuestas válidas para la pregunta de propiedad del vehículo" }
      else
        { name := "Porcentaje de viajeros que usan coche propio",
          question := some q.question_text,
          result := some (ResVal.strMap
            [("Coche propio", pctOr0 cc.2 total),
             ("Coche de empresa", pctOr0 cc.1 total)]) }

/-! ## Formula: engine type -/

/-- Keyword list of `calculate_engine_type_percentage`. -/
def engineKeywords : List String :=
  ["tipo de motor", "tipo de vehículo", "combustible", "propulsión",
   "tipo de combustible", "motor del vehículo", "motor de tu vehículo",
   "motor de tu coche", "tipo de coche"]

/-- The term-to-category mapping of `calculate_engine_type_percentage`,
in dict insertion order (first match wins). -/
def engineMapping : List (String × String) :=
  [("gasolina", "Gasolina"), ("gasoil", "Gasolina"), ("gasolin", "Gasolina"),
   ("diesel", "Diésel"), ("diésel", "Diésel"), ("gasóleo", "Diésel"),
   ("hybrid", "Híbrido"), ("híbrido", "Híbrido"), ("hibrido", "Híbrido"),
   ("mild hybrid", "Híbrido"), ("híbrido enchufable", "Híbrido"),
   ("híbrido plug-in", "Híbrido"), ("phev", "Híbrido"),
   ("eléctrico", "Eléctrico"), ("electrico", "Eléctrico"),
   ("electric", "Eléctrico"), ("ev", "Eléctrico"), ("bev", "Eléctrico"),
   ("glp", "Gas (GLP/GNC)"), ("gnc", "Gas (GLP/GNC)"), ("gas", "Gas (GLP/GNC)"),
   ("autogas", "Gas (GLP/GNC)"), ("lpg", "Gas (GLP/GNC)"), ("cng", "Gas (GLP/GNC)")]

/-- The fixed category keys of the `engine_types` dict, in insertion
order. -/
def engineTypeNames : List String :=
  ["Gasolina", "Diésel", "Híbrido", "Eléctrico", "Gas (GLP/GNC)", "Otro"]

/-- `SurveyAnalytics.calculate_engine_type_percentage`.  The free-text
branch selects the absent `response_value` column and raises. -/
def calculate_engine_type_percentage (db : DB) (cid : Nat) : Envelope :=
  match (questionsFor db cid).find? (kwHit engineKeywords) with
  | none =>
    { name := "Porcentaje por tipo de motor del vehículo",
      error := some "No se encontró ninguna pregunta relacionada con el tipo de motor del vehículo" }
  | some q =>
    let opts := optionsFor db cid q.id
    if opts.isEmpty then
      { name := "Porcentaje por tipo de motor del vehículo",
        error := some ("Error al calcular el porcentaje por tipo de motor del vehículo: "
          ++ responseValueError) }
    else
      let st := opts.foldl
        (fun (st : List (String × Nat) × List Nat) o =>
          let ot := pyStrip (lowerStr o.option_text)
          let cat :=
            match engineMapping.find? (fun m => pyIn m.1 ot) with
            | some m => m.2
            | none => "Otro"
          let rows := answersForOption db cid o.id
          (dictSet st.1 cat (dictGetD st.1 cat 0 + rows.length),
           rows.foldl (fun s a => dedupAppend s a.respondent_id) st.2))
        (engineTypeNames.map (fun n => (n, 0)), [])
      let total := st.2.length
      let engine_types := st.1.filter (fun p => decide (0 < p.2))
      { name := "Porcentaje por tipo de motor del vehículo",
        question := some q.question_text,
        result := some (ResVal.strMap
          (engine_types.map (fun p => (p.1, pctOr0 p.2 total)))) }

/-! ## Formula: EV purchase intention -/

/-- Keyword list of `calculate_ev_purchase_intention_percentage`. -/
def evIntentionKeywords : List String :=
  ["previsto adquirir", "piensas comprar", "intención de compra",
   "comprarías un vehículo eléctrico", "comprarás un vehículo eléctrico",
   "prevé adquirir", "previsión de compra", "planeas adquirir"]

/-- The question test of the EV formula: `"eléctrico"` must appear and
one of the intention keywords must match. -/
def evPred (q : Question) : Bool :=
  pyIn "eléctrico" (lowerStr q.question_text) && kwHit evIntentionKeywords q

/-- `SurveyAnalytics.calculate_ev_purchase_intention_percentage`.  The
free-text branch selects the absent `response_value` column and
raises. -/
def calculate_ev_purchase_intention_percentage (db : DB) (cid : Nat) : Envelope :=
  match (questionsFor db cid).find? evPred with
  | none =>
    { name := "Porcentaje de intención de compra de vehículo eléctrico",
      error := some "No se encontró ninguna pregunta relacionada con la intención de compra de vehículo eléctrico" }
  | some q =>
    let opts := optionsFor db cid q.id
    if opts.isEmpty then
      { name := "Porcentaje de intención de compra de vehículo eléctrico",
        error := some ("Error al calcular el porcentaje de intención de compra de vehículo eléctrico: "
          ++ responseValueError) }
    else
      let k := opts.foldl
        (fun (k : Nat × Nat × Nat × Nat) o =>
          let ot := pyStrip (lowerStr o.option_text)
          let cnt := (answersForOption db cid o.id).length
          if pyIn "coche eléctrico" ot then (k.1 + cnt, k.2.1, k.2.2.1, k.2.2.2)
          else if pyIn "moto eléctrica" ot then (k.1, k.2.1 + cnt, k.2.2.1, k.2.2.2)
          else if ot == "no" || pyStartsWith ot "no," then
            (k.1, k.2.1, k.2.2.1 + cnt, k.2.2.2)
          else (k.1, k.2.1, k.2.2.1, k.2.2.2 + cnt))
        (0, 0, 0, 0)
      let resp := opts.foldl
        (fun s o => (answersForOption db cid o.id).foldl
          (fun s2 a => dedupAppend s2 a.respondent_id) s) []
      let total := resp.length
      let base :=
        [("Sí, coche eléctrico", pctOr0 k.1 total),
         ("Sí, moto eléctrica", pctOr0 k.2.1 total),
         ("No", pctOr0 k.2.2.1 total)]
      { name := "Porcentaje de intención de compra de vehículo eléctrico",
        question := some q.question_text,
        result := some (ResVal.strMap
          (if 0 < k.2.2.2 then
            dictSet base "No sabe/No contesta" (pctOr0 k.2.2.2 total)
          else base)) }

/-! ## Formula: free parking -/

/-- Keyword list of `calculate_free_parking_percentage`. -/
def parkingKeywords : List String :=
  ["lugar de aparcamiento",
   "aparcamiento", "aparcar", "parking", "estacionamiento", "estacionar",
   "lugar donde aparcas", "lugar donde estacionas", "donde aparcar"]

/-- The question test of the free-parking formula:
`"aparcamiento" in q or "parking" in q or any(keyword in q ...)`. -/
def parkingPred (q : Question) : Bool :=
  pyIn "aparcamiento" (lowerStr q.question_text) ||
    pyIn "parking" (lowerStr q.question_text) || kwHit parkingKeywords q

/-- `SurveyAnalytics.calculate_free_parking_percentage`.  The free-text
branch selects the absent `response_value` column and raises. -/
def calculate_free_parking_percentage (db : DB) (cid : Nat) : Envelope :=
  match (questionsFor db cid).find? parkingPred with
  | none =>
    { name := "Porcentaje con aparcamiento en la empresa",
      error := some "No se encontró ninguna pregunta relacionada con el lugar de aparcamiento" }
  | some q =>
    let opts := optionsFor db cid q.id
    if opts.isEmpty then
      { name := "Porcentaje con aparcamiento en la empresa",
        error := some ("Error al calcular el porcentaje con aparcamiento: "
          ++ responseValueError) }
    else
      let wpOpts := opts.filter (fun o =>
        let t := pyStrip (lowerStr o.option_text)
        pyIn "centro de trabajo" t && (pyIn "aparcamiento" t || pyIn "parking" t))
      let wpCount := (wpOpts.map (fun o => (answersForOption db cid o.id).length)).sum
      let resp := opts.foldl
        (fun s o => (answersForOption db cid o.id).foldl
          (fun s2 a => dedupAppend s2 a.respondent_id) s) []
      let total := resp.length
      if total == 0 then
        { name := "Porcentaje con aparcamiento en la empresa",
          error := some "No se encontraron respuestas a la pregunta sobre lugar de aparcamiento" }
      else
        let wp := qmul (qdiv (wpCount : ℚ) (total : ℚ)) 100
        { name := "Porcentaje con aparcamiento en la empresa",
          question := some q.question_text,
          result := some (ResVal.strMap
            [("Aparcamiento gratuito en empresa", pyRound2 wp),
             ("Otro tipo de aparcamiento", pyRound2 (qsub 100 wp))]) }

/-! ## Formula: no parking problems -/

/-- Keyword list of `calculate_no_parking_problems_percentage`. -/
def parkingProblemsKeywords : List String :=
  ["problemas de estacionamiento", "problemas de aparcamiento",
   "dificultades para aparcar", "dificultad para estacionar",
   "problema de parking", "estacionar con dificultad"]

/-- The question test of the parking-problems formula: the
`"problema"`-plus-parking-word condition, else the keyword list (the
source's `if ... break / elif ... break` per question). -/
def noParkingPred (q : Question) : Bool :=
  let ql := lowerStr q.question_text
  (pyIn "problema" ql &&
    (pyIn "aparcamiento" ql || pyIn "estacionamiento" ql || pyIn "parking" ql)) ||
    kwHit parkingProblemsKeywords q

/-- `SurveyAnalytics.calculate_no_parking_problems_percentage`.  The
free-text branch selects the absent `response_value` column and
raises. -/
def calculate_no_parking_problems_percentage (db : DB) (cid : Nat) : Envelope :=
  match (questionsFor db cid).find? noParkingPred with
  | none =>
    { name := "Porcentaje que no percibe problemas de aparcamiento",
      error := some "No se encontró ninguna pregunta relacionada con problemas de aparcamiento" }
  | some q =>
    let opts := optionsFor db cid q.id
    if opts.isEmpty then
      { name := "Porcentaje que no percibe problemas de aparcamiento",
        error := some ("Error al calcular el porcentaje que no percibe problemas de aparcamiento: "
          ++ responseValueError) }
    else
      let noOpts := opts.filter (fun o => isNoOption (pyStrip (lowerStr o.option_text)))
      let yesOpts := opts.filter (fun o =>
        let t := pyStrip (lowerStr o.option_text)
        !isNoOption t && isYesOption t)
      let noCount := (noOpts.map (fun o => (answersForOption db cid o.id).length)).sum
      let yesCount := (yesOpts.map (fun o => (answersForOption db cid o.id).length)).sum
      let resp := (noOpts ++ yesOpts).foldl
        (fun s o => (answersForOption db cid o.id).foldl
          (fun s2 a => dedupAppend s2 a.respondent_id) s) []
      let total := resp.length
      if total == 0 then
        { name := "Porcentaje que no percibe problemas de aparcamiento",
          error := some "No se encontraron respuestas a la pregunta sobre problemas de aparcamiento" }
      else
        let base :=
          [("No percibe problemas", pctOr0 noCount total),
           ("Sí percibe problemas", pctOr0 yesCount total)]
        let other : Int := (total : Int) - ((noCount : Int) + (yesCount : Int))
        { name := "Porcentaje que no percibe problemas de aparcamiento",
          question := some q.question_text,
          result := some (ResVal.strMap
            (if 0 < other then
              dictSet base "Sin clasificar"
                (pyRound2 (qmul (qdiv ((other : ℚ)) (total : ℚ)) 100))
            else base)) }

/-! ## Formula: public transport barriers -/

/-- Keyword list of `calculate_public_transport_barriers_percentage`. -/
def barriersKeywords : List String :=
  ["indica las principales razones por las que no utilizas el transporte público",
   "razones", "motivos", "barreras", "limitaciones", "dificultades",
   "no utilizas", "no usas", "no usar", "no utilizar", "impiden utilizar",
   "impiden usar", "por qué no", "razón por la que no"]

/-- `f"Opción {option_id}"`, the synthetic label of an answer whose
`option_id` is unknown to the option table (`None` for an open
answer). -/
def optionKeyLabel : Option Nat → String
  | some i => "Opción " ++ toString i
  | none => "Opción None"

/-- The mention-count loop of the barriers formula over all answer
rows of the question: every respondent enters the set, unknown
`option_id` keys are added with a synthetic label, each row bumps its
key.  (The `other_responses` collection is dead code: the query never
selects `response_value`, so `'response_value' in answer` is false.)
State is `(respondents, option_counts, option_texts)`. -/
def barriersFold :
    List AnswerRow →
    List Nat × List (Option Nat × Nat) × List (Option Nat × String) →
    List Nat × List (Option Nat × Nat) × List (Option Nat × String)
  | [], st => st
  | a :: rest, (seen, counts, texts) =>
    let seen2 := dedupAppend seen a.respondent_id
    let known := counts.any (fun p => p.1 == a.option_id)
    let counts2 := dictSet counts a.option_id (dictGetD counts a.option_id 0 + 1)
    let texts2 :=
      if known then texts
      else dictSet texts a.option_id (optionKeyLabel a.option_id)
    barriersFold rest (seen2, counts2, texts2)

/-- The result construction shared by the barrier and motivation
formulas: walk the counts sorted by descending mention count, keep
positive counts, build the main dict capped at 5 keys and the full
detailed dict (keys are the stored option texts). -/
def cap5Results {κ : Type} [BEq κ] (texts : List (κ × String)) (total : Nat)
    (sorted : List (κ × Nat)) : List (String × ℚ) × List (String × ℚ) :=
  sorted.foldl
    (fun rd p =>
      if 0 < p.2 then
        let nm := dictGetD texts p.1 ""
        let pc := pct p.2 total
        ((if rd.1.length < 5 then dictSet rd.1 nm pc else rd.1), dictSet rd.2 nm pc)
      else rd)
    ([], [])

/-- `SurveyAnalytics.calculate_public_transport_barriers_percentage`.
The free-text branch selects the absent `response_value` column and
raises. -/
def calculate_public_transport_barriers_percentage (db : DB) (cid : Nat) :
    Envelope :=
  match (questionsFor db cid).find? (kwHit barriersKeywords) with
  | none =>
    { name := "Porcentaje por barrera al uso de transporte público",
      error := some "No se encontró ninguna pregunta relacionada con barreras al uso de transporte público" }
  | some q =>
    let opts := optionsFor db cid q.id
    if opts.isEmpty then
      { name := "Porcentaje por barrera al uso de transporte público",
        error := some ("Error al calcular el porcentaje por barrera al uso de transporte público: "
          ++ responseValueError) }
    else
      let init : List (Option Nat × Nat) × List (Option Nat × String) :=
        opts.foldl
          (fun st o =>
            (dictSet st.1 (some o.id) 0,
             dictSet st.2 (some o.id) (pyStrip o.option_text)))
          ([], [])
      let st := barriersFold (answersForQuestion db cid q.id) ([], init.1, init.2)
      let total := st.1.length
      if total == 0 then
        { name := "Porcentaje por barrera al uso de transporte público",
          error := some "No se encontraron respuestas a la pregunta sobre barreras al transporte público" }
      else
        let sorted := pySortBy (fun y x => decide (x.2 ≤ y.2)) st.2.1
        let rd := cap5Results st.2.2 total sorted
        { name := "Porcentaje por barrera al uso de transporte público",
          question := some q.question_text,
          result := some (ResVal.strMap rd.1),
          detailed_result := some (ResVal.strMap rd.2) }

/-! ## Formula: public transport motivations -/

/-- The transport-word list of
`calculate_public_transport_motivations_percentage`. -/
def motivTransportKeywords : List String :=
  ["transporte público", "autobús", "bus", "metro", "tren", "tranvía",
   "cercanías"]

/-- The motivation-word list of the same formula. -/
def motivationsKeywords : List String :=
  ["principales motivos",
   "por qué utilizas", "por qué usas", "motivo", "razón", "motivación",
   "incentivo", "ventaja", "beneficio", "factor", "favorable",
   "preferencia", "elección", "decisión de usar"]

/-- The question test of the motivations formula: a transport word and
a motivation word must both appear. -/
def motivationsPred (q : Question) : Bool :=
  kwHit motivTransportKeywords q && kwHit motivationsKeywords q

/-- The mention-count loop of the motivations formula: every
respondent enters the set; only option ids already in the dict are
counted (open answers with `option_id = None` are ignored). -/
def motivationsFold :
    List AnswerRow → List Nat × List (Nat × Nat) → List Nat × List (Nat × Nat)
  | [], st => st
  | a :: rest, (seen, counts) =>
    let seen2 := dedupAppend seen a.respondent_id
    let counts2 :=
      match a.option_id with
      | some i =>
        if counts.any (fun p => p.1 == i) then
          dictSet counts i (dictGetD counts i 0 + 1)
        else counts
      | none => counts
    motivationsFold rest (seen2, counts2)

/-- `SurveyAnalytics.calculate_public_transport_motivations_percentage`.
The free-text branch selects the absent `response_value` column and
raises. -/
def calculate_public_transport_motivations_percentage (db : DB) (cid : Nat) :
    Envelope :=
  match (questionsFor db cid).find? motivationsPred with
  | none =>
    { name := "Porcentaje de motivaciones para usar transporte público",
      error := some "No se encontró ninguna pregunta relacionada con motivaciones para usar transporte público" }
  | some q =>
    let opts := optionsFor db cid q.id
    if opts.isEmpty then
      { name := "Porcentaje de motivaciones para usar transporte público",
        error := some ("Error al calcular el porcentaje de motivaciones para usar transporte público: "
          ++ responseValueError) }
    else
      let init : List (Nat × Nat) × List (Nat × String) :=
        opts.foldl
          (fun st o =>
            (dictSet st.1 o.id 0, dictSet st.2 o.id (pyStrip o.option_text)))
          ([], [])
      let st := motivationsFold (answersForQuestion db cid q.id) ([], init.1)
      let total := st.1.length
      if total == 0 then
        { name := "Porcentaje de motivaciones para usar transporte público",
          error := some "No se encontraron respuestas a la pregunta sobre motivaciones para usar transporte público" }
      else
        let sorted := pySortBy (fun y x => decide (x.2 ≤ y.2)) st.2
        let rd := cap5Results init.2 total sorted
        { name := "Porcentaje de motivaciones para usar transporte público",
          question := some q.question_text,
          result := some (ResVal.strMap rd.1),
          detailed_result := some (ResVal.strMap rd.2) }

/-! ## Formula: car sharing willingness -/

/-- Keyword list of `calculate_car_sharing_willingness_percentage`. -/
def carSharingKeywords : List String :=
  ["compartir coche", "compartir vehículo", "coche compartido",
   "carpooling", "car sharing", "car-sharing", "carpool",
   "dispuesto a compartir", "compartirías", "compartirías tu coche",
   "compartir trayecto"]

/-- `SurveyAnalytics.calculate_car_sharing_willingness_percentage`.
The free-text branch selects the absent `response_value` column and
raises. -/
def calculate_car_sharing_willingness_percentage (db : DB) (cid : Nat) :
    Envelope :=
  match (questionsFor db cid).find? (kwHit carSharingKeywords) with
  | none =>
    { name := "Porcentaje de disposición a compartir coche",
      error := some "No se encontró ninguna pregunta relacionada con compartir coche" }
  | some q =>
    let opts := optionsFor db cid q.id
    if opts.isEmpty then
      { name := "Porcentaje de disposición a compartir coche",
        error := some ("Error al calcular el porcentaje de disposición a compartir coche: "
          ++ responseValueError) }
    else
      let counts0 := opts.foldl (fun m o => dictSet m o.option_text 0) []
      let st := (optionMapOf opts).foldl
        (fun (st : List (String × Nat) × List Nat) p =>
          let rows := answersForOption db cid p.1
          (dictSet st.1 p.2 (dictGetD st.1 p.2 0 + rows.length),
           rows.foldl (fun s a => dedupAppend s a.respondent_id) st.2))
        (counts0, [])
      let total := st.2.length
      if total == 0 then
        { name := "Porcentaje de disposición a compartir coche",
          error := some "No se encontraron respuestas a la pregunta sobre compartir coche" }
      else
        let sorted := pySortBy (fun y x => decide (x.2 ≤ y.2)) st.1
        { name := "Porcentaje de disposición a compartir coche",
          question := some q.question_text,
          result := some (ResVal.strMap (sorted.foldl
            (fun m p => if p.2 == 0 then m else dictSet m p.1 (pct p.2 total))
            [])) }

/-! ## The two awareness formulas (public transport lines, cycling routes) -/

/-- The shared yes/no tabulation of the awareness formulas: answer
counts of the yes-options and the no-options, and the size of the
union of their respondents (yes loop first, as in the source). -/
def yesNoTabulation (db : DB) (cid : Nat) (opts : List OptionRow) :
    Nat × Nat × Nat :=
  let yesOpts := opts.filter (fun o => isYesOption (pyStrip (lowerStr o.option_text)))
  let noOpts := opts.filter (fun o =>
    let t := pyStrip (lowerStr o.option_text)
    !isYesOption t && isNoOption t)
  let aware := (yesOpts.map (fun o => (answersForOption db cid o.id).length)).sum
  let unaware := (noOpts.map (fun o => (answersForOption db cid o.id).length)).sum
  let resp := (yesOpts ++ noOpts).foldl
    (fun s o => (answersForOption db cid o.id).foldl
      (fun s2 a => dedupAppend s2 a.respondent_id) s) []
  (aware, unaware, resp.length)

/-- The aware/unaware/unclassified result dict shared by the two
awareness formulas. -/
def awarenessResult (awareKey unawareKey : String) (t : Nat × Nat × Nat) :
    List (String × ℚ) :=
  let total := t.2.2
  let base := [(awareKey, pctOr0 t.1 total), (unawareKey, pctOr0 t.2.1 total)]
  let other : Int := (total : Int) - ((t.1 : Int) + (t.2.1 : Int))
  if 0 < other then
    dictSet base "Sin clasificar"
      (pyRound2 (qmul (qdiv ((other : ℚ)) (total : ℚ)) 100))
  else base

/-- Keyword list of
`calculate_public_transport_lines_awareness_percentage`. -/
def ptLinesKeywords : List String :=
  ["conoces las líneas", "conoces líneas", "conoce las líneas", "conoce líneas",
   "conoces el transporte público", "conoces las rutas", "conoces rutas",
   "sabes qué líneas", "sabes que líneas", "sabes qué rutas", "sabes que rutas",
   "conocimiento de líneas", "conocimiento de rutas",
   "conocimiento del transporte público",
   "líneas de autobús", "líneas de metro", "líneas de tren", "líneas cercanas",
   "transporte público cercano", "transporte público próximo"]

/-- `SurveyAnalytics.calculate_public_transport_lines_awareness_percentage`.
The free-text branch selects the absent `response_value` column and
raises. -/
def calculate_public_transport_lines_awareness_percentage (db : DB) (cid : Nat) :
    Envelope :=
  match (questionsFor db cid).find? (kwHit ptLinesKeywords) with
  | none =>
    { name := "Porcentaje que conoce líneas de transporte público cercanas",
      error := some "No se encontró ninguna pregunta relacionada con el conocimiento de líneas de transporte público" }
  | some q =>
    let opts := optionsFor db cid q.id
    if opts.isEmpty then
      { name := "Porcentaje que conoce líneas de transporte público cercanas",
        error := some ("Error al calcular el porcentaje que conoce líneas de transporte público cercanas: "
          ++ responseValueError) }
    else
      let t := yesNoTabulation db cid opts
      if t.2.2 == 0 then
        { name := "Porcentaje que conoce líneas de transporte público cercanas",
          error := some "No se encontraron respuestas a la pregunta sobre conocimiento de líneas de transporte público" }
      else
        { name := "Porcentaje que conoce líneas de transporte público cercanas",
          question := some q.question_text,
          result := some (ResVal.strMap
            (awarenessResult "Conocen las líneas" "No conocen las líneas" t)) }

/-- Keyword list of `calculate_cycling_routes_awareness_percentage`. -/
def cyclingRoutesKeywords : List String :=
  ["vías ciclistas", "carriles bici", "carril bici", "rutas ciclistas",
   "carril-bici", "infraestructura ciclista", "camino ciclista"]

/-- `SurveyAnalytics.calculate_cycling_routes_awareness_percentage`.
The free-text branch selects the absent `response_value` column and
raises. -/
def calculate_cycling_routes_awareness_percentage (db : DB) (cid : Nat) :
    Envelope :=
  match (questionsFor db cid).find? (kwHit cyclingRoutesKeywords) with
  | none =>
    { name := "Porcentaje que conoce vías ciclistas",
      error := some "No se encontró ninguna pregunta relacionada con el conocimiento de vías ciclistas" }
  | some q =>
    let opts := optionsFor db cid q.id
    if opts.isEmpty then
      { name := "Porcentaje que conoce vías ciclistas",
        error := some ("Error al calcular el porcentaje que conoce vías ciclistas: "
          ++ responseValueError) }
    else
      let t := yesNoTabulation db cid opts
      if t.2.2 == 0 then
        { name := "Porcentaje que conoce vías ciclistas",
          error := some "No se encontraron respuestas a la pregunta sobre conocimiento de vías ciclistas" }
      else
        { name := "Porcentaje que conoce vías ciclistas",
          question := some q.question_text,
          result := some (ResVal.strMap
            (awarenessResult "Conocen las vías ciclistas"
              "No conocen las vías ciclistas" t)) }

/-! ## The two improvement-factor formulas -/

/-- Keyword list of
`calculate_public_transport_improvement_factors_percentage`. -/
def ptImprovementKeywords : List String :=
  ["haría que el uso del transporte público", "haría más atractivo",
   "mejoraría el transporte público", "mejorar el transporte público",
   "mejorar la oferta de transporte público", "haría que usaras",
   "motivaría a usar el transporte público", "para usar más el transporte público",
   "factor de mejora", "factores de mejora", "mejora del transporte",
   "más atractivo", "más útil", "más eficiente", "más conveniente"]

/-- `SurveyAnalytics.calculate_public_transport_improvement_factors_percentage`.
Only options with a positive answer count enter `factor_counts` (an
assignment, so texts colliding across ids keep the last count); the
percentages divide by the total mention count and are sorted
descending.  The free-text branch selects the absent `response_value`
column and raises. -/
def calculate_public_transport_improvement_factors_percentage
    (db : DB) (cid : Nat) : Envelope :=
  match (questionsFor db cid).find? (kwHit ptImprovementKeywords) with
  | none =>
    { name := "Porcentaje por factor de mejora del transporte público",
      error := some "No se encontró ninguna pregunta relacionada con factores de mejora del transporte público" }
  | some q =>
    let opts := optionsFor db cid q.id
    if opts.isEmpty then
      { name := "Porcentaje por factor de mejora del transporte público",
        error := some ("Error al calcular el porcentaje por factor de mejora del transporte público: "
          ++ responseValueError) }
    else
      let st := (optionMapOf opts).foldl
        (fun (st : List (String × Nat) × List Nat) p =>
          let rows := answersForOption db cid p.1
          if 0 < rows.length then
            (dictSet st.1 p.2 rows.length,
             rows.foldl (fun s a => dedupAppend s a.respondent_id) st.2)
          else st)
        ([], [])
      if st.1.isEmpty then
        { name := "Porcentaje por factor de mejora del transporte público",
          error := some "No se encontraron respuestas válidas a la pregunta sobre factores de mejora" }
      else
        let total_mentions := (st.1.map Prod.snd).sum
        let percentages := st.1.map (fun p => (p.1, pct p.2 total_mentions))
        { name := "Porcentaje por factor de mejora del transporte público",
          question := some q.question_text,
          result := some (ResVal.strMap
            (pySortBy (fun y x => decide (x.2 ≤ y.2)) percentages)) }

/-- Keyword list of `calculate_cycling_improvement_factors_percentage`. -/
def cyclingFactorsKeywords : List String :=
  ["bicicleta fuera una opción más atractiva",
   "mejoraría el uso de la bicicleta", "mejorarían el uso de la bicicleta",
   "factores para usar la bicicleta", "que te animaría a usar la bicicleta",
   "qué te animaría a usar la bicicleta", "facilitar el uso de la bicicleta",
   "mejorar uso bicicleta", "motivaría a usar bicicleta"]

/-- The not-a-factor whitelist skipped by the cycling-factors formula. -/
def skipFactorWords : List String :=
  ["ninguno", "nada", "no aplica", "no sabe", "no responde"]

/-- `SurveyAnalytics.calculate_cycling_improvement_factors_percentage`.
Irrelevant options are skipped entirely (their answers count for
nothing); the percentages divide by the unique-respondent total and
are sorted descending.  The free-text branch selects the absent
`response_value` column and raises. -/
def calculate_cycling_improvement_factors_percentage (db : DB) (cid : Nat) :
    Envelope :=
  match (questionsFor db cid).find? (kwHit cyclingFactorsKeywords) with
  | none =>
    { name := "Porcentaje por factor de mejora al uso de bicicleta",
      error := some "No se encontró ninguna pregunta relacionada con factores de mejora para el uso de la bicicleta" }
  | some q =>
    let opts := optionsFor db cid q.id
    if opts.isEmpty then
      { name := "Porcentaje por factor de mejora al uso de bicicleta",
        error := some ("Error al calcular el porcentaje por factor de mejora al uso de bicicleta: "
          ++ responseValueError) }
    else
      let st := opts.foldl
        (fun (st : List (String × Nat) × List Nat) o =>
          let ft := pyStrip o.option_text
          if skipFactorWords.contains (lowerStr ft) then st
          else
            let rows := answersForOption db cid o.id
            (dictSet st.1 ft (dictGetD st.1 ft 0 + rows.length),
             rows.foldl (fun s a => dedupAppend s a.respondent_id) st.2))
        ([], [])
      let total := st.2.length
      if total == 0 then
        { name := "Porcentaje por factor de mejora al uso de bicicleta",
          error := some "No se encontraron respuestas a la pregunta sobre factores de mejora para el uso de la bicicleta" }
      else
        let percentages := st.1.map (fun p => (p.1, pct p.2 total))
        { name := "Porcentaje por factor de mejora al uso de bicicleta",
          question := some q.question_text,
          result := some (ResVal.strMap
            (pySortBy (fun y x => decide (x.2 ≤ y.2)) percentages)) }

/-! ## Formula: department distribution -/

/-- Keyword list of `calculate_department_distribution`. -/
def departmentKeywords : List String :=
  ["eres personal de", "área", "area", "department", "departamento",
   "división", "division"]

/-- `SurveyAnalytics.calculate_department_distribution`. -/
def calculate_department_distribution (db : DB) (cid : Nat) : Envelope :=
  match (questionsFor db cid).find? (kwHit departmentKeywords) with
  | none =>
    { name := "Distribución por departamento",
      error := some "No se encontró pregunta relacionada con departamento en la encuesta" }
  | some q =>
    let opts := optionsFor db cid q.id
    if opts.isEmpty then
      { name := "Distribución por departamento",
        error := some "No se encontraron opciones para la pregunta de departamento" }
    else
      let department_counts := optionTextCounts db cid (optionMapOf opts)
      let total := (department_counts.map Prod.snd).sum
      if total == 0 then
        { name := "Distribución por departamento",
          error := some "No hay respuestas válidas para la pregunta de departamento" }
      else
        { name := "Distribución por departamento",
          question := some q.question_text,
          result := some (ResVal.strMap
            (department_counts.map (fun p => (p.1, pct p.2 total)))) }

/-! ## Formula: weekly workdays distribution -/

/-- Keyword list of `calculate_workdays_distribution`. -/
def workdaysKeywords : List String :=
  ["días de la semana que trabajas", "días que trabajas", "días laborables"]

/-- `SurveyAnalytics.calculate_workdays_distribution`: per-option
counts, but the percentage denominator is the number of unique
respondents across all options. -/
def calculate_workdays_distribution (db : DB) (cid : Nat) : Envelope :=
  match (questionsFor db cid).find? (kwHit workdaysKeywords) with
  | none =>
    { name := "Distribución por días de trabajo semanal",
      error := some "No se encontró pregunta relacionada con días de trabajo semanal en la encuesta" }
  | some q =>
    let opts := optionsFor db cid q.id
    if opts.isEmpty then
      { name := "Distribución por días de trabajo semanal",
        error := some "No se encontraron opciones para la pregunta de días de trabajo semanal" }
    else
      let option_map := optionMapOf opts
      let workdays_counts := optionTextCounts db cid option_map
      let resp := option_map.foldl
        (fun s p => (answersForOption db cid p.1).foldl
          (fun s2 a => dedupAppend s2 a.respondent_id) s) []
      let total := resp.length
      if total == 0 then
        { name := "Distribución por días de trabajo semanal",
          error := some "No hay respuestas válidas para la pregunta de días de trabajo semanal" }
      else
        { name := "Distribución por días de trabajo semanal",
          question := some q.question_text,
          result := some (ResVal.strMap
            (workdays_counts.map (fun p => (p.1, pct p.2 total)))) }

/-! ## Formula: transport combination distribution -/

/-- Keyword list of `calculate_transport_combination_distribution`
(verbatim from that method; textually identical to
`multimodalKeywords`). -/
def combinationKeywords : List String :=
  ["Si combinas varios medios de transporte",
   "combinas", "combine", "combinación", "combination",
   "varios medios", "multiple modes", "multimodal",
   "más de un medio", "more than one mode", "varios transportes"]

/-- `SurveyAnalytics.calculate_transport_combination_distribution`. -/
def calculate_transport_combination_distribution (db : DB) (cid : Nat) :
    Envelope :=
  match (questionsFor db cid).find? (kwHit combinationKeywords) with
  | none =>
    { name := "Distribución de combinaciones de transporte",
      error := some "No se encontró pregunta relacionada con combinación de transportes en la encuesta" }
  | some q =>
    let opts := optionsFor db cid q.id
    if opts.isEmpty then
      { name := "Distribución de combinaciones de transporte",
        error := some "No se encontraron opciones para la pregunta de combinación de transportes" }
    else
      let sel := (optionMapOf opts).foldl
        (fun (m : List (Nat × List String)) p =>
          (answersForOption db cid p.1).foldl
            (fun m2 a =>
              dictSet m2 a.respondent_id (dictGetD m2 a.respondent_id [] ++ [p.2]))
            m)
        []
      let combo_counts := sel.foldl
        (fun cc p =>
          if 1 < p.2.length then
            let key := String.intercalate " + "
              (pySortBy (fun y x => !decide (x < y)) p.2)
            dictSet cc key (dictGetD cc key 0 + 1)
          else cc)
        []
      let total := (combo_counts.map Prod.snd).sum
      if total == 0 then
        { name := "Distribución de combinaciones de transporte",
          error := some "No se encontraron trabajadores multimodales" }
      else
        let sorted := pySortBy (fun y x => decide (x.2 ≤ y.2))
          (combo_counts.map (fun p => (p.1, pct p.2 total)))
        { name := "Distribución de combinaciones de transporte",
          question := some q.question_text,
          result := some (ResVal.strMap
            (if 10 < sorted.length then
              dictSet (sorted.take 10) "Otras combinaciones"
                (pyRound2 (qsum ((sorted.drop 10).map Prod.snd)))
            else sorted)) }

/-! ## Formula: car occupancy distribution -/

/-- Keyword list of `calculate_car_occupancy_distribution`. -/
def occupancyKeywords : List String :=
  ["cuántos compañeros", "cuantos compañeros", "ocupantes",
   "personas viajan", "viajáis en el coche", "contándote a ti",
   "cuántas personas", "número de ocupantes", "car occupancy"]

/-- `f"{n} {'ocupante' if n == 1 else 'ocupantes'}"`. -/
def occupantsLabel (n : Int) : String :=
  toString n ++ (if n == 1 then " ocupante" else " ocupantes")

/-- The occupancy sort key
`int(x[0].split()[0]) if x[0].split()[0].isdigit() else 0` (the key
string is non-empty here, so `split()[0]` exists). -/
def occupancySortKey (s : String) : Int :=
  match pySplitWS s with
  | tok :: _ =>
    if tok.toList.all Char.isDigit then (digitsToNat tok.toList : Int) else 0
  | [] => 0

/-- `SurveyAnalytics.calculate_car_occupancy_distribution`.  A key that
is all whitespace makes `split()[0]` raise `IndexError` inside the
sort; the surrounding `try` then returns the except envelope.  The
free-text branch selects the absent `response_value` column and
raises. -/
def calculate_car_occupancy_distribution (db : DB) (cid : Nat) : Envelope :=
  match (questionsFor db cid).find? (kwHit occupancyKeywords) with
  | none =>
    { name := "Distribución de ocupantes por vehículo",
      error := some "No se encontró ninguna pregunta relacionada con ocupantes por vehículo" }
  | some q =>
    let opts := optionsFor db cid q.id
    if opts.isEmpty then
      { name := "Distribución de ocupantes por vehículo",
        error := some ("Error al calcular la distribución de ocupantes por vehículo: "
          ++ responseValueError) }
    else
      let st := opts.foldl
        (fun (st : List (String × Nat) × Nat) o =>
          let ot := pyStrip o.option_text
          let cnt := (answersForOption db cid o.id).length
          if 0 < cnt then
            let counts :=
              match pyParseInt ot.toList with
              | some n => if 0 < n then dictSet st.1 (occupantsLabel n) cnt else st.1
              | none => dictSet st.1 ot cnt
            (counts, st.2 + cnt)
          else st)
        ([], 0)
      let total := st.2
      if total == 0 then
        { name := "Distribución de ocupantes por vehículo",
          error := some "No hay respuestas válidas para la pregunta de ocupantes por vehículo" }
      else
        if st.1.any (fun p => (pySplitWS p.1).isEmpty) then
          { name := "Distribución de ocupantes por vehículo",
            error := some "Error al calcular la distribución de ocupantes por vehículo: list index out of range" }
        else
          let percentages := st.1.map (fun p => (p.1, pct p.2 total))
          { name := "Distribución de ocupantes por vehículo",
            question := some q.question_text,
            result := some (ResVal.strMap (pySortBy
              (fun y x => decide (occupancySortKey y.1 ≤ occupancySortKey x.1))
              percentages)) }

/-! ## Formula: estimated time using public transport -/

/-- Keyword list of
`calculate_public_transport_estimated_time_distribution`. -/
def ptTimeKeywords : List String :=
  ["cuánto tiempo estimas que tardarías utilizando el transporte público",
   "tiempo estimas que tardarías utilizando el transporte público"]

/-- `re.search(r'(\d+)[\s]*-[\s]*(\d+)', ·)` over the run
decomposition: the first digit run whose following non-digit stretch
is exactly optional spaces, a dash, optional spaces, with another
digit run after it; returns that first run's value. -/
def rangeScan : List (List Char × List Char) → Option Nat
  | [] => none
  | (d1, s1) :: rest =>
    match rest with
    | [] => none
    | _ :: _ =>
      match s1.dropWhile isPySpace with
      | '-' :: t2 =>
        if (t2.dropWhile isPySpace).isEmpty then some (digitsToNat d1)
        else rangeScan rest
      | _ => rangeScan rest

/-- The sort-only `time_value` of an estimated-time option: negative
first number for "menos de"/"less than", first number plus 1000 for
"más de"/"more than", else the first number of an `a-b` range, else
the first bare number, defaulting to 0. -/
def timeOrderValue (ot : String) : ℚ :=
  let low := lowerStr ot
  let tl := ot.toList
  if pyIn "menos de" low || pyIn "less than" low then
    match firstNumber tl with
    | some ds => -((digitsToNat ds : ℚ))
    | none => 0
  else if pyIn "más de" low || pyIn "more than" low then
    match firstNumber tl with
    | some ds => qadd (digitsToNat ds : ℚ) 1000
    | none => 0
  else
    match rangeScan (digitRuns tl) with
    | some n => (n : ℚ)
    | none =>
      match firstNumber tl with
      | some ds => (digitsToNat ds : ℚ)
      | none => 0

/-- `SurveyAnalytics.calculate_public_transport_estimated_time_distribution`.
The free-text branch selects the absent `response_value` column and
raises. -/
def calculate_public_transport_estimated_time_distribution
    (db : DB) (cid : Nat) : Envelope :=
  match (questionsFor db cid).find? (kwHit ptTimeKeywords) with
  | none =>
    { name := "Distribución de tiempo estimado en transporte público",
      error := some "No se encontró ninguna pregunta relacionada con tiempo estimado en transporte público" }
  | some q =>
    let opts := optionsFor db cid q.id
    if opts.isEmpty then
      { name := "Distribución de tiempo estimado en transporte público",
        error := some ("Error al calcular la distribución de tiempo estimado en transporte público: "
          ++ responseValueError) }
    else
      let st := opts.foldl
        (fun (st : List (String × Nat) × List (String × ℚ) × Nat) o =>
          let ot := pyStrip o.option_text
          let cnt := (answersForOption db cid o.id).length
          if 0 < cnt then
            (dictSet st.1 ot cnt, dictSet st.2.1 ot (timeOrderValue ot),
             st.2.2 + cnt)
          else st)
        ([], [], 0)
      let total := st.2.2
      if total == 0 then
        { name := "Distribución de tiempo estimado en transporte público",
          error := some "No hay respuestas válidas para la pregunta de tiempo estimado en transporte público" }
      else
        let percentages := st.1.map (fun p => (p.1, pct p.2 total))
        { name := "Distribución de tiempo estimado en transporte público",
          question := some q.question_text,
          result := some (ResVal.strMap
            (if !st.2.1.isEmpty then
              pySortBy
                (fun y x =>
                  decide (dictGetD st.2.1 y.1 0 ≤ dictGetD st.2.1 x.1 0))
                percentages
            else pySortBy (fun y x => !decide (x.1 < y.1)) percentages)) }

/-! ## Formula: public transport satisfaction -/

/-- Keyword list of
`calculate_public_transport_satisfaction_distribution`. -/
def satisfactionKeywords : List String :=
  ["en relación al servicio actual de transporte público valora tu nivel de satisfacción",
   "servicio actual de transporte público",
   "satisfacción", "satisfaccion", "nivel de satisfaccion"]

/-- The fixed satisfaction buckets `(min, max, label)`. -/
def satisfactionRanges : List (ℚ × ℚ × String) :=
  [(0, 20, "Muy insatisfecho (0-20)"),
   (21, 40, "Insatisfecho (21-40)"),
   (41, 60, "Neutral (41-60)"),
   (61, 80, "Satisfecho (61-80)"),
   (81, 100, "Muy satisfecho (81-100)")]

/-- The per-answer loop of the satisfaction formula: parse each
`open_value` (comma as decimal point), keep values in `[0, 100]`,
count the first containing bucket (values in the unit gaps between
buckets are dropped without entering the total). -/
def satisfactionFold : List AnswerRow → List Nat × Nat → List Nat × Nat
  | [], st => st
  | a :: rest, (counts, total) =>
    match a.open_value with
    | none => satisfactionFold rest (counts, total)
    | some raw =>
      let vs := commaToDot (pyStrip raw)
      if vs == "" || lowerStr vs == "nan" then
        satisfactionFold rest (counts, total)
      else
        match pyParseFloat vs.toList with
        | none => satisfactionFold rest (counts, total)
        | some v =>
          if decide ((0 : ℚ) ≤ v) && decide (v ≤ 100) then
            match satisfactionRanges.findIdx?
                (fun r => decide (r.1 ≤ v) && decide (v ≤ r.2.1)) with
            | some i => satisfactionFold rest (bumpAtBy counts i 1, total + 1)
            | none => satisfactionFold rest (counts, total)
          else satisfactionFold rest (counts, total)

/-- `SurveyAnalytics.calculate_public_transport_satisfaction_distribution`
(this one reads the real `open_value` column and has no options
branch). -/
def calculate_public_transport_satisfaction_distribution
    (db : DB) (cid : Nat) : Envelope :=
  match (questionsFor db cid).find? (kwHitLower satisfactionKeywords) with
  | none =>
    { name := "Distribución de satisfacción con el transporte público",
      error := some "No se encontró ninguna pregunta relacionada con satisfacción con el transporte público" }
  | some q =>
    let st := satisfactionFold (answersForQuestion db cid q.id)
      ([0, 0, 0, 0, 0], 0)
    if st.2 == 0 then
      { name := "Distribución de satisfacción con el transporte público",
        error := some "No se encontraron respuestas válidas (0-100) para la pregunta de satisfacción" }
    else
      { name := "Distribución de satisfacción con el transporte público",
        question := some q.question_text,
        result := some (ResVal.strMap ((satisfactionRanges.zip st.1).map
          (fun p => (p.1.2.2, pct p.2 st.2)))) }

/-! ## Formula: main transport mode during the workday -/

/-- Keyword list of
`calculate_main_transport_mode_during_work_distribution`. -/
def mainWorkTransportKeywords : List String :=
  ["principal medio de transporte que utilizas normalmente para realizar desplazamientos durante la jornada laboral",
   "desplazamientos durante la jornada laboral",
   "medio de transporte durante la jornada",
   "transporte que utilizas normalmente durante la jornada"]

/-- `SurveyAnalytics.calculate_main_transport_mode_during_work_distribution`. -/
def calculate_main_transport_mode_during_work_distribution
    (db : DB) (cid : Nat) : Envelope :=
  match (questionsFor db cid).find? (kwHitLower mainWorkTransportKeywords) with
  | none =>
    { name := "Distribución de principal medio de transporte durante la jornada laboral",
      error := some "No se encontró ninguna pregunta relacionada con el principal medio de transporte durante la jornada laboral" }
  | some q =>
    let opts := optionsFor db cid q.id
    if opts.isEmpty then
      { name := "Distribución de principal medio de transporte durante la jornada laboral",
        error := some "No se encontraron opciones para la pregunta de transporte durante la jornada laboral" }
    else
      let transport_counts := optionTextCounts db cid (optionMapOf opts)
      let total := (transport_counts.map Prod.snd).sum
      if total == 0 then
        { name := "Distribución de principal medio de transporte durante la jornada laboral",
          error := some "No hay respuestas válidas para la pregunta de transporte durante la jornada laboral" }
      else
        { name := "Distribución de principal medio de transporte durante la jornada laboral",
          question := some q.question_text,
          result := some (ResVal.strMap
            (transport_counts.map (fun p => (p.1, pct p.2 total)))) }

/-! ## Formula: work trip frequency -/

/-- Keyword list of `calculate_work_trip_frequency_distribution`. -/
def freqKeywords : List String :=
  ["con qué frecuencia realizas desplazamientos durante la jornada laboral",
   "frecuencia desplazamientos jornada laboral",
   "frecuencia de desplazamientos durante la jornada",
   "frecuencia de desplazamientos"]

/-- `SurveyAnalytics.calculate_work_trip_frequency_distribution`. -/
def calculate_work_trip_frequency_distribution (db : DB) (cid : Nat) :
    Envelope :=
  match (questionsFor db cid).find? (kwHitLower freqKeywords) with
  | none =>
    { name := "Distribución de frecuencia de desplazamientos durante la jornada laboral",
      error := some "No se encontró ninguna pregunta relacionada con la frecuencia de desplazamientos durante la jornada laboral" }
  | some q =>
    let opts := optionsFor db cid q.id
    if opts.isEmpty then
      { name := "Distribución de frecuencia de desplazamientos durante la jornada laboral",
        error := some "No se encontraron opciones para la pregunta" }
    else
      let counts := optionTextCounts db cid (optionMapOf opts)
      let total := (counts.map Prod.snd).sum
      if total == 0 then
        { name := "Distribución de frecuencia de desplazamientos durante la jornada laboral",
          error := some "No hay respuestas válidas" }
      else
        { name := "Distribución de frecuencia de desplazamientos durante la jornada laboral",
          question := some q.question_text,
          result := some (ResVal.strMap
            (counts.map (fun p => (p.1, pct p.2 total)))) }

/-! ## The two open numeric averages (trip distance, pedestrian rating) -/

/-- The valid-value collection shared by the two open numeric
averages: parse each `open_value` after comma-to-dot conversion,
truncate to an integer, drop blanks, `nan`, parse failures and
negatives. -/
def openIntValues (rows : List AnswerRow) : List Int :=
  rows.foldl
    (fun vs a =>
      match a.open_value with
      | none => vs
      | some raw =>
        let s := commaToDot (pyStrip raw)
        if s == "" || lowerStr s == "nan" then vs
        else
          match pyParseFloat s.toList with
          | none => vs
          | some v =>
            let n := pyTrunc v
            if n < 0 then vs else vs ++ [n])
    []

/-- Keyword list of `calculate_average_trip_distance`. -/
def avgTripKeywords : List String :=
  ["cuántos kilómetros de media recorres aproximadamente en cada trayecto",
   "kilómetros de media por trayecto",
   "km de media por trayecto",
   "kilometros de media por trayecto",
   "media de kilómetros por trayecto"]

/-- `SurveyAnalytics.calculate_average_trip_distance`. -/
def calculate_average_trip_distance (db : DB) (cid : Nat) : Envelope :=
  match (questionsFor db cid).find? (kwHit avgTripKeywords) with
  | none =>
    { name := "Promedio de kilómetros por trayecto",
      error := some "No se encontró ninguna pregunta relacionada con kilómetros de media por trayecto" }
  | some q =>
    let values := openIntValues (answersForQuestion db cid q.id)
    if values.isEmpty then
      { name := "Promedio de kilómetros por trayecto",
        error := some "No se encontraron respuestas válidas para la pregunta de kilómetros por trayecto" }
    else
      { name := "Promedio de kilómetros por trayecto",
        question := some q.question_text,
        result := some (ResVal.num
          (pyRound2 (qdiv ((values.sum : Int) : ℚ) ((values.length : Nat) : ℚ)))) }

/-- Keyword list of `calculate_pedestrian_environment_rating`. -/
def pedestrianKeywords : List String :=
  ["cómo valorarías el entorno cercano al centro de trabajo para ser utilizado por peatones",
   "valoración entorno peatones centro de trabajo",
   "valoración entorno peatones",
   "valoración entorno centro de trabajo",
   "valoracion entorno peatones"]

/-- `SurveyAnalytics.calculate_pedestrian_environment_rating`. -/
def calculate_pedestrian_environment_rating (db : DB) (cid : Nat) : Envelope :=
  match (questionsFor db cid).find? (kwHit pedestrianKeywords) with
  | none =>
    { name := "Promedio de valoración del entorno para peatones",
      error := some "No se encontró ninguna pregunta relacionada con la valoración del entorno para peatones" }
  | some q =>
    let values := openIntValues (answersForQuestion db cid q.id)
    if values.isEmpty then
      { name := "Promedio de valoración del entorno para peatones",
        error := some "No se encontraron respuestas válidas para la valoración del entorno para peatones" }
    else
      { name := "Promedio de valoración del entorno para peatones",
        question := some q.question_text,
        result := some (ResVal.num
          (pyRound2 (qdiv ((values.sum : Int) : ℚ) ((values.length : Nat) : ℚ)))) }

/-! ## Formula: work trip reasons -/

/-- `answer.get('open_value') and str(answer.get('open_value')).strip() != ''`. -/
def hasOpenText (a : AnswerRow) : Bool :=
  match a.open_value with
  | some s => s ≠ "" && pyStrip s ≠ ""
  | none => false

/-- Keyword list of `calculate_work_trip_reason_distribution`. -/
def reasonKeywords : List String :=
  ["motivo por el que realizas desplazamientos durante la jornada laboral",
   "motivo desplazamientos jornada laboral",
   "razón desplazamientos jornada laboral",
   "por qué realizas desplazamientos durante la jornada laboral"]

/-- `SurveyAnalytics.calculate_work_trip_reason_distribution`: the
"otros" options additionally count the answers carrying open text,
reported under the extra `'Otros (con texto)'` key whenever an otros
option exists. -/
def calculate_work_trip_reason_distribution (db : DB) (cid : Nat) : Envelope :=
  match (questionsFor db cid).find? (kwHit reasonKeywords) with
  | none =>
    { name := "Distribución de motivos de desplazamiento durante la jornada laboral",
      error := some "No se encontró ninguna pregunta relacionada con el motivo de desplazamientos durante la jornada laboral" }
  | some q =>
    let opts := optionsFor db cid q.id
    if opts.isEmpty then
      { name := "Distribución de motivos de desplazamiento durante la jornada laboral",
        error := some "No se encontraron opciones para la pregunta" }
    else
      let option_map := optionMapOf opts
      let otrosIds := option_map.filter
        (fun p => otrosWords.contains (lowerStr (pyStrip p.2)))
      let counts := optionTextCounts db cid option_map
      let otros_count := (otrosIds.map
        (fun p => ((answersForOption db cid p.1).filter hasOpenText).length)).sum
      let total := (counts.map Prod.snd).sum
      if total == 0 then
        { name := "Distribución de motivos de desplazamiento durante la jornada laboral",
          error := some "No hay respuestas válidas" }
      else
        let percentages := counts.map (fun p => (p.1, pct p.2 total))
        { name := "Distribución de motivos de desplazamiento durante la jornada laboral",
          question := some q.question_text,
          result := some (ResVal.strMap
            (if !otrosIds.isEmpty then
              dictSet percentages "Otros (con texto)" (pct otros_count total)
            else percentages)) }

/-! ## Formula: replaceable trips -/

/-- Keyword list of `calculate_replaceable_trips_distribution`. -/
def replaceableKeywords : List String :=
  ["cuántos podrías reemplazar por una videollamada",
   "trayectos que podrías reemplazar por videollamada",
   "trayectos reemplazables por videollamada",
   "trayectos que podrías reemplazar por otro tipo de comunicación",
   "trayectos reemplazables durante la jornada laboral"]

/-- `SurveyAnalytics.calculate_replaceable_trips_distribution`. -/
def calculate_replaceable_trips_distribution (db : DB) (cid : Nat) : Envelope :=
  match (questionsFor db cid).find? (kwHit replaceableKeywords) with
  | none =>
    { name := "Distribución de trayectos reemplazables por videollamada",
      error := some "No se encontró ninguna pregunta relacionada con trayectos reemplazables por videollamada" }
  | some q =>
    let opts := optionsFor db cid q.id
    if opts.isEmpty then
      { name := "Distribución de trayectos reemplazables por videollamada",
        error := some "No se encontraron opciones para la pregunta" }
    else
      let counts := optionTextCounts db cid (optionMapOf opts)
      let total := (counts.map Prod.snd).sum
      if total == 0 then
        { name := "Distribución de trayectos reemplazables por videollamada",
          error := some "No hay respuestas válidas" }
      else
        { name := "Distribución de trayectos reemplazables por videollamada",
          question := some q.question_text,
          result := some (ResVal.strMap
            (counts.map (fun p => (p.1, pct p.2 total)))) }

/-! ## Formula: cycling barriers -/

/-- Keyword list of `calculate_cycling_barriers_percentage`. -/
def cyclingBarriersKeywords : List String :=
  ["indica las principales razones por las que no utilizas la bicicleta o patinete eléctrico",
   "razones por las que no utilizas la bicicleta",
   "barreras al uso de bicicleta",
   "por qué no usas bicicleta",
   "no utilizas la bicicleta"]

/-- `SurveyAnalytics.calculate_cycling_barriers_percentage`: like the
work-trip-reason formula, but the percentage denominator is the number
of unique respondents across all options. -/
def calculate_cycling_barriers_percentage (db : DB) (cid : Nat) : Envelope :=
  match (questionsFor db cid).find? (kwHitLower cyclingBarriersKeywords) with
  | none =>
    { name := "Porcentaje por barrera al uso de bicicleta/patinete",
      error := some "No se encontró ninguna pregunta relacionada con barreras al uso de bicicleta o patinete" }
  | some q =>
    let opts := optionsFor db cid q.id
    if opts.isEmpty then
      { name := "Porcentaje por barrera al uso de bicicleta/patinete",
        error := some "No se encontraron opciones para la pregunta" }
    else
      let option_map := optionMapOf opts
      let otrosIds := option_map.filter
        (fun p => otrosWords.contains (lowerStr (pyStrip p.2)))
      let counts := optionTextCounts db cid option_map
      let otros_count := (otrosIds.map
        (fun p => ((answersForOption db cid p.1).filter hasOpenText).length)).sum
      let resp := option_map.foldl
        (fun s p => (answersForOption db cid p.1).foldl
          (fun s2 a => dedupAppend s2 a.respondent_id) s) []
      let total := resp.length
      if total == 0 then
        { name := "Porcentaje por barrera al uso de bicicleta/patinete",
          error := some "No hay respuestas válidas" }
      else
        let percentages := counts.map (fun p => (p.1, pct p.2 total))
        { name := "Porcentaje por barrera al uso de bicicleta/patinete",
          question := some q.question_text,
          result := some (ResVal.strMap
            (if !otrosIds.isEmpty then
              dictSet percentages "Otros (con texto)" (pct otros_count total)
            else percentages)) }

/-- The error-envelope shape the spec's error policy promises: the
formula's name, no result of any kind, and a non-empty error string. -/
def isErrorEnvelope (env : Envelope) (nm : String) : Prop :=
  env.name = nm ∧ env.result = none ∧ env.result_grouped = none ∧
    env.detailed_result = none ∧ ∃ e, env.error = some e ∧ e ≠ ""

/-- Row of the C5 check: three one-option closed questions, the middle
one unanswered. -/
def c5row : String → Cell := fun col =>
  if col = "q1__a" then Cell.int 1
  else if col = "q2__b" then Cell.int 0
  else if col = "q3__c" then Cell.int 1
  else Cell.nan

/-- Groups of the C5 check. -/
def c5groups : List (String × List String) :=
  [("q1", ["q1__a"]), ("q2", ["q2__b"]), ("q3", ["q3__c"])]

/-- Row of the C6 check, parameterised by the free text typed into the
"Other (please specify)" slot: one closed question with a regular
selected option and a selected other-option. -/
def c6row (t : String) : String → Cell := fun col =>
  if col = "commute__car" then Cell.int 1
  else if col = "commute__other_please_specify" then Cell.int 1
  else if col = "commute__other_please_specify_text" then Cell.str t
  else Cell.nan

/-- Groups of the C6 check. -/
def c6groups : List (String × List String) :=
  [("commute", ["commute__car", "commute__other_please_specify",
                "commute__other_please_specify_text"])]

/-- The 1001-character input refuting unconditional slug idempotence at
the default `maxlen` of 1000 (truncation leaves a trailing underscore
that a second `slugify` strips). -/
def c3longIn : String := ⟨List.replicate 999 'a' ++ [' ', 'b']⟩

/-- The character set `[a-z0-9_]` of the slug-charset claim. -/
def isSlugChar (c : Char) : Bool :=
  c.isLower || c.isDigit || c = '_'

/-! ## Concrete database states for the claim checks -/

/-- A company (id 1) with two respondents and no stored questions. -/
def dbNoQ : DB :=
  { respondents := [{ id := 1, company_id := 1 }, { id := 2, company_id := 1 }],
    questions := [], options := [], answers := [] }

/-- A company (id 1) with one respondent and one stored question whose
text `"zzz"` matches no formula's keyword condition. -/
def dbOneQ : DB :=
  { respondents := [{ id := 1, company_id := 1 }],
    questions := [{ id := 1, company_id := 1, question_text := "zzz" }],
    options := [], answers := [] }

/-- A company (id 1) with 42 respondents (plus one respondent of
another company), and no questions. -/
def db42 : DB :=
  { respondents :=
      (List.range 42).map (fun i => { id := i + 1, company_id := 1 }) ++
        [{ id := 100, company_id := 2 }],
    questions := [], options := [], answers := [] }

/-- Fifteen distinct postal codes. -/
def postalCodes : List String :=
  ["28001", "28002", "28003", "28004", "28005", "28006", "28007", "28008",
   "28009", "28010", "28011", "28012", "28013", "28014", "28015"]

/-- A postal-code question with 15 respondents, one answer each, all
codes distinct: every percentage is `round(100/15, 2) = 6.67`. -/
def dbPostal : DB :=
  { respondents := [],
    questions := [{ id := 1, company_id := 1,
                    question_text := "¿Cuál es tu código postal?" }],
    options := [],
    answers := (List.range 15).map (fun i =>
      { id := i + 1, company_id := 1, respondent_id := i + 1,
        question_id := some 1, option_id := none,
        open_value := some (postalCodes.getD i "") }) }

/-- The postal-code mapping returned for `dbPostal`: ten codes at 6.67%
each plus the synthetic `"Otros"` bucket at 33.35%. -/
def c7expected : List (String × ℚ) :=
  [("28001", Rat.divInt 667 100), ("28002", Rat.divInt 667 100),
   ("28003", Rat.divInt 667 100), ("28004", Rat.divInt 667 100),
   ("28005", Rat.divInt 667 100), ("28006", Rat.divInt 667 100),
   ("28007", Rat.divInt 667 100), ("28008", Rat.divInt 667 100),
   ("28009", Rat.divInt 667 100), ("28010", Rat.divInt 667 100),
   ("Otros", Rat.divInt 667 20)]

/-- Four respondents, a multimodal question with two options; two
distinct respondents selected options (one of them twice). -/
def dbMM : DB :=
  { respondents := [{ id := 1, company_id := 1 }, { id := 2, company_id := 1 },
                    { id := 3, company_id := 1 }, { id := 4, company_id := 1 }],
    questions := [{ id := 1, company_id := 1,
                    question_text := "¿Combinas varios medios de transporte en tu trayecto?" }],
    options := [{ id := 1, company_id := 1, question_id := 1, option_text := "Bus y tren" },
                { id := 2, company_id := 1, question_id := 1, option_text := "Coche y bici" }],
    answers := [{ id := 1, company_id := 1, respondent_id := 1,
                  question_id := some 1, option_id := some 1, open_value := none },
                { id := 2, company_id := 1, respondent_id := 2,
                  question_id := some 1, option_id := some 1, open_value := none },
                { id := 3, company_id := 1, respondent_id := 2,
                  question_id := some 1, option_id := some 2, open_value := none }] }

/-- A free-text distance question: respondent 1 answers `"5,5 km"`
(extracted 5.5, in the gap between the 0-5 and 6-15 buckets),
respondent 2 answers `"3 km"`. -/
def dbDist : DB :=
  { respondents := [],
    questions := [{ id := 1, company_id := 1,
                    question_text := "¿Cuántos kilómetros recorres para llegar al trabajo?" }],
    options := [],
    answers := [{ id := 1, company_id := 1, respondent_id := 1,
                  question_id := some 1, option_id := none, open_value := some "5,5 km" },
                { id := 2, company_id := 1, respondent_id := 2,
                  question_id := some 1, option_id := none, open_value := some "3 km" }] }

/-! # Theorems

First the bridge lemmas identifying the kernel-reducible arithmetic
with the standard operations, then supporting lemmas, then one theorem
per claim (with its witness or counterexample). -/

theorem qadd_eq (a b : ℚ) : qadd a b = a + b := by
  have had : ((a.den : ℚ)) ≠ 0 := by exact_mod_cast a.den_nz
  have hbd : ((b.den : ℚ)) ≠ 0 := by exact_mod_cast b.den_nz
  have ha : a * (a.den : ℚ) = (a.num : ℚ) := (eq_div_iff had).mp (Rat.num_div_den a).symm
  have hbb : b * (b.den : ℚ) = (b.num : ℚ) := (eq_div_iff hbd).mp (Rat.num_div_den b).symm
  rw [qadd, Rat.divInt_eq_div]
  push_cast
  rw [div_eq_iff (mul_ne_zero had hbd), ← ha, ← hbb]
  ring

theorem qsub_eq (a b : ℚ) : qsub a b = a - b := by
  have had : ((a.den : ℚ)) ≠ 0 := by exact_mod_cast a.den_nz
  have hbd : ((b.den : ℚ)) ≠ 0 := by exact_mod_cast b.den_nz
  have ha : a * (a.den : ℚ) = (a.num : ℚ) := (eq_div_iff had).mp (Rat.num_div_den a).symm
  have hbb : b * (b.den : ℚ) = (b.num : ℚ) := (eq_div_iff hbd).mp (Rat.num_div_den b).symm
  rw [qsub, Rat.divInt_eq_div]
  push_cast
  rw [div_eq_iff (mul_ne_zero had hbd), ← ha, ← hbb]
  ring

theorem qmul_eq (a b : ℚ) : qmul a b = a * b := by
  have had : ((a.den : ℚ)) ≠ 0 := by exact_mod_cast a.den_nz
  have hbd : ((b.den : ℚ)) ≠ 0 := by exact_mod_cast b.den_nz
  have ha : a * (a.den : ℚ) = (a.num : ℚ) := (eq_div_iff had).mp (Rat.num_div_den a).symm
  have hbb : b * (b.den : ℚ) = (b.num : ℚ) := (eq_div_iff hbd).mp (Rat.num_div_den b).symm
  rw [qmul, Rat.divInt_eq_div]
  push_cast
  rw [div_eq_iff (mul_ne_zero had hbd), ← ha, ← hbb]
  ring

theorem qdiv_eq (a b : ℚ) : qdiv a b = a / b := by
  rcases eq_or_ne b 0 with rfl | hb
  · rw [qdiv]
    norm_num
  · have had : ((a.den : ℚ)) ≠ 0 := by exact_mod_cast a.den_nz
    have hbd : ((b.den : ℚ)) ≠ 0 := by exact_mod_cast b.den_nz
    have hbn : ((b.num : ℚ)) ≠ 0 := by exact_mod_cast Rat.num_ne_zero.mpr hb
    have ha : a * (a.den : ℚ) = (a.num : ℚ) := (eq_div_iff had).mp (Rat.num_div_den a).symm
    have hbb : b * (b.den : ℚ) = (b.num : ℚ) := (eq_div_iff hbd).mp (Rat.num_div_den b).symm
    rw [qdiv, Rat.divInt_eq_div]
    push_cast
    rw [div_eq_div_iff (mul_ne_zero had hbn) hb, ← ha, ← hbb]
    ring

theorem qsum_eq_sum (l : List ℚ) : qsum l = l.sum := by
  have h : ∀ (l : List ℚ) (q : ℚ), l.foldl qadd q = q + l.sum := by
    intro l
    induction l with
    | nil => intro q; simp
    | cons x xs ih =>
      intro q
      rw [List.foldl_cons, ih, qadd_eq, List.sum_cons]
      ring
  rw [qsum, h, zero_add]


/-! ## Character-level facts (ASCII case mapping and `\w`) -/

theorem toNat_ofNat_valid {n : Nat} (h : n.isValidChar) : (Char.ofNat n).toNat = n := by
  simp only [Char.ofNat, Char.ofNatAux, Char.toNat, h, dite_true, reduceDIte]
  rfl

theorem char_toNat_inj {c d : Char} (h : c.toNat = d.toNat) : c = d := by
  apply Char.eq_of_val_eq
  apply UInt32.eq_of_toBitVec_eq
  apply BitVec.eq_of_toNat_eq
  exact h

theorem toLower_toNat (c : Char) : c.toLower.toNat =
    if c.toNat ≥ 65 ∧ c.toNat ≤ 90 then c.toNat + 32 else c.toNat := by
  unfold Char.toLower
  by_cases h : c.toNat ≥ 65 ∧ c.toNat ≤ 90
  · rw [if_pos h, if_pos h]
    exact toNat_ofNat_valid (Or.inl (by omega))
  · rw [if_neg h, if_neg h]

theorem isUpper_iff (c : Char) : c.isUpper = true ↔ 65 ≤ c.toNat ∧ c.toNat ≤ 90 := by
  simp [Char.isUpper, UInt32.le_def, Char.toNat, BitVec.le_def, UInt32.toNat]

theorem isLower_iff (c : Char) : c.isLower = true ↔ 97 ≤ c.toNat ∧ c.toNat ≤ 122 := by
  simp [Char.isLower, UInt32.le_def, Char.toNat, BitVec.le_def, UInt32.toNat]

theorem isDigit_iff (c : Char) : c.isDigit = true ↔ 48 ≤ c.toNat ∧ c.toNat ≤ 57 := by
  simp [Char.isDigit, UInt32.le_def, Char.toNat, BitVec.le_def, UInt32.toNat]

theorem eq_underscore_iff (c : Char) : c = '_' ↔ c.toNat = 95 :=
  ⟨fun h => h ▸ rfl, fun h => char_toNat_inj h⟩

theorem word_iff (c : Char) : pyIsWordChar c = true ↔
    (65 ≤ c.toNat ∧ c.toNat ≤ 90) ∨ (97 ≤ c.toNat ∧ c.toNat ≤ 122) ∨
    (48 ≤ c.toNat ∧ c.toNat ≤ 57) ∨ c.toNat = 95 := by
  simp [pyIsWordChar, Char.isAlphanum, Char.isAlpha, isUpper_iff, isLower_iff,
        isDigit_iff, eq_underscore_iff, Bool.or_eq_true, or_assoc]

theorem slug_iff (c : Char) : isSlugChar c = true ↔
    (97 ≤ c.toNat ∧ c.toNat ≤ 122) ∨ (48 ≤ c.toNat ∧ c.toNat ≤ 57) ∨ c.toNat = 95 := by
  simp [isSlugChar, isLower_iff, isDigit_iff, eq_underscore_iff, Bool.or_eq_true, or_assoc]

theorem char_toLower_idem (c : Char) : c.toLower.toLower = c.toLower := by
  apply char_toNat_inj
  rw [toLower_toNat, toLower_toNat]
  split_ifs <;> omega

theorem word_toLower {c : Char} (h : pyIsWordChar c = true) :
    pyIsWordChar c.toLower = true := by
  rw [word_iff] at h ⊢
  rw [toLower_toNat]
  by_cases hu : c.toNat ≥ 65 ∧ c.toNat ≤ 90
  · rw [if_pos hu]; omega
  · rw [if_neg hu]; omega

theorem slug_of_word_toLower {c : Char} (h : pyIsWordChar c.toLower = true) :
    isSlugChar c.toLower = true := by
  rw [word_iff, toLower_toNat] at h
  rw [slug_iff, toLower_toNat]
  by_cases hu : c.toNat ≥ 65 ∧ c.toNat ≤ 90
  · rw [if_pos hu] at h ⊢; omega
  · rw [if_neg hu] at h ⊢; omega

theorem toLower_eq_underscore {c : Char} (h : c.toLower = '_') : c = '_' := by
  rw [eq_underscore_iff] at h ⊢
  rw [toLower_toNat] at h
  by_cases hu : c.toNat ≥ 65 ∧ c.toNat ≤ 90
  · rw [if_pos hu] at h; omega
  · rw [if_neg hu] at h; exact h

theorem toLower_underscore : Char.toLower '_' = '_' := by decide



/-! ## Lemmas on `subWPlus`, `stripEnds` and substring search -/
theorem subW_mem : ∀ n (l : List Char), l.length ≤ n →
    (∀ c ∈ subWPlus l, c = '_' ∨ (c ∈ l ∧ pyIsWordChar c = true)) ∧
    (∀ c ∈ subWPlusSkip l, c = '_' ∨ (c ∈ l ∧ pyIsWordChar c = true)) := by
  intro n
  induction n with
  | zero =>
    intro l hl
    have : l = [] := List.length_eq_zero.mp (Nat.le_zero.mp hl)
    subst this
    simp [subWPlus, subWPlusSkip]
  | succ n ih =>
    intro l hl
    match l with
    | [] => simp [subWPlus, subWPlusSkip]
    | c :: cs =>
      have hcs : cs.length ≤ n := by simpa using hl
      obtain ⟨ih1, ih2⟩ := ih cs hcs
      constructor
      · intro d hd
        rw [subWPlus] at hd
        by_cases hw : pyIsWordChar c = true
        · rw [if_pos hw] at hd
          rcases List.mem_cons.mp hd with rfl | hd
          · exact Or.inr ⟨List.mem_cons_self _ _, hw⟩
          · rcases ih1 d hd with h | ⟨h1, h2⟩
            · exact Or.inl h
            · exact Or.inr ⟨List.mem_cons_of_mem _ h1, h2⟩
        · rw [if_neg hw] at hd
          rcases List.mem_cons.mp hd with rfl | hd
          · exact Or.inl rfl
          · rcases ih2 d hd with h | ⟨h1, h2⟩
            · exact Or.inl h
            · exact Or.inr ⟨List.mem_cons_of_mem _ h1, h2⟩
      · intro d hd
        rw [subWPlusSkip] at hd
        by_cases hw : pyIsWordChar c = true
        · rw [if_pos hw] at hd
          rcases List.mem_cons.mp hd with rfl | hd
          · exact Or.inr ⟨List.mem_cons_self _ _, hw⟩
          · rcases ih1 d hd with h | ⟨h1, h2⟩
            · exact Or.inl h
            · exact Or.inr ⟨List.mem_cons_of_mem _ h1, h2⟩
        · rw [if_neg hw] at hd
          rcases ih2 d hd with h | ⟨h1, h2⟩
          · exact Or.inl h
          · exact Or.inr ⟨List.mem_cons_of_mem _ h1, h2⟩

theorem subW_id_of_word : ∀ (l : List Char), (∀ c ∈ l, pyIsWordChar c = true) →
    subWPlus l = l := by
  intro l
  induction l with
  | nil => intro _; rfl
  | cons c cs ih =>
    intro h
    rw [subWPlus, if_pos (h c (List.mem_cons_self _ _))]
    rw [ih (fun d hd => h d (List.mem_cons_of_mem _ hd))]


theorem startsWith_iff : ∀ (hay needle : List Char),
    startsWithL hay needle = true ↔ needle <+: hay := by
  intro hay
  induction hay with
  | nil =>
    intro needle
    cases needle with
    | nil => simp [startsWithL]
    | cons d ds => simp [startsWithL]
  | cons c cs ih =>
    intro needle
    cases needle with
    | nil => simp [startsWithL]
    | cons d ds =>
      rw [startsWithL]
      simp only [Bool.and_eq_true, decide_eq_true_eq, ih ds]
      constructor
      · rintro ⟨rfl, t, rfl⟩
        exact ⟨t, rfl⟩
      · rintro ⟨t, ht⟩
        injection ht with h1 h2
        exact ⟨h1.symm, t, h2⟩

theorem containsL_iff : ∀ (hay needle : List Char),
    containsL hay needle = true ↔ needle <:+: hay := by
  intro hay
  induction hay with
  | nil =>
    intro needle
    rw [containsL]
    simp [List.isEmpty_iff]
  | cons c cs ih =>
    intro needle
    rw [containsL]
    simp only [Bool.or_eq_true, startsWith_iff, ih, List.infix_cons_iff]

theorem containsL_false_of_infix {big piece pat : List Char}
    (h : containsL big pat = false) (hp : piece <:+: big) :
    containsL piece pat = false := by
  by_contra hc
  have ht : containsL piece pat = true := by
    cases hx : containsL piece pat with
    | false => exact absurd hx hc
    | true => rfl
  have : containsL big pat = true :=
    (containsL_iff big pat).mpr (((containsL_iff piece pat).mp ht).trans hp)
  rw [this] at h
  cases h


theorem startsWith_single_eq_false {x : List Char}
    (h : ∀ c, x.head? = some c → c ≠ '_') :
    startsWithL x ['_'] = false := by
  cases x with
  | nil => rfl
  | cons d ds =>
    have hd : d ≠ '_' := h d rfl
    rw [startsWithL]
    simp [hd]

theorem startsWith_uu_false_of_ne {x : Char} {xs : List Char} (hx : x ≠ '_') :
    startsWithL (x :: xs) ['_', '_'] = false := by
  rw [startsWithL]
  simp [hx]

theorem subW_noUU : ∀ n (l : List Char), l.length ≤ n → '_' ∉ l →
    containsL (subWPlus l) ['_', '_'] = false ∧
    (containsL (subWPlusSkip l) ['_', '_'] = false ∧
     ∀ c, (subWPlusSkip l).head? = some c → c ≠ '_') := by
  intro n
  induction n with
  | zero =>
    intro l hl _
    have : l = [] := List.length_eq_zero.mp (Nat.le_zero.mp hl)
    subst this
    refine ⟨rfl, rfl, ?_⟩
    intro c hc
    simp [subWPlusSkip] at hc
  | succ n ih =>
    intro l hl hus
    match l with
    | [] =>
      refine ⟨rfl, rfl, ?_⟩
      intro c hc
      simp [subWPlusSkip] at hc
    | c :: cs =>
      have hcs : cs.length ≤ n := by simpa using hl
      have hcus : '_' ∉ cs := fun h => hus (List.mem_cons_of_mem _ h)
      have hc : c ≠ '_' := fun h => hus (h ▸ List.mem_cons_self _ _)
      obtain ⟨ihW, ihS, ihH⟩ := ih cs hcs hcus
      by_cases hw : pyIsWordChar c = true
      · refine ⟨?_, ?_, ?_⟩
        · rw [subWPlus, if_pos hw, containsL, startsWith_uu_false_of_ne hc, ihW]
          rfl
        · rw [subWPlusSkip, if_pos hw, containsL, startsWith_uu_false_of_ne hc, ihW]
          rfl
        · rw [subWPlusSkip, if_pos hw]
          intro d hd
          rw [List.head?_cons] at hd
          injection hd with hd
          exact hd ▸ hc
      · refine ⟨?_, ?_, ?_⟩
        · rw [subWPlus, if_neg hw, containsL]
          have h1 : startsWithL ('_' :: subWPlusSkip cs) ['_', '_'] = false := by
            rw [startsWithL, startsWith_single_eq_false ihH]
            rfl
          rw [h1, ihS]
          rfl
        · rw [subWPlusSkip, if_neg hw]
          exact ihS
        · rw [subWPlusSkip, if_neg hw]
          exact ihH


theorem head?_dropWhile_no {α : Type} (p : α → Bool) :
    ∀ (l : List α) (c : α), (l.dropWhile p).head? = some c → p c = false := by
  intro l
  induction l with
  | nil => intro c h; simp at h
  | cons x xs ih =>
    intro c h
    rw [List.dropWhile_cons] at h
    by_cases hp : p x = true
    · rw [if_pos hp] at h
      exact ih c h
    · rw [if_neg hp] at h
      rw [List.head?_cons] at h
      injection h with h
      subst h
      exact Bool.eq_false_iff.mpr hp

theorem dropWhile_eq_self_of_head {α : Type} (p : α → Bool) (l : List α)
    (h : ∀ c, l.head? = some c → p c = false) : l.dropWhile p = l := by
  cases l with
  | nil => rfl
  | cons x xs =>
    have hx : p x = false := h x rfl
    rw [List.dropWhile_cons, hx]
    simp

theorem dropWhileIsSuf {α : Type} (p : α → Bool) (l : List α) :
    l.dropWhile p <:+ l := by
  induction l with
  | nil => exact List.suffix_refl _
  | cons x xs ih =>
    rw [List.dropWhile_cons]
    by_cases hp : p x = true
    · rw [if_pos hp]
      exact ih.trans (List.suffix_cons x xs)
    · rw [if_neg hp]

theorem stripEnds_isPre (p : Char → Bool) (l : List Char) :
    stripEnds p l <+: l.dropWhile p := by
  rw [stripEnds]
  rw [← List.reverse_suffix, List.reverse_reverse]
  exact dropWhileIsSuf p (l.dropWhile p).reverse

theorem prefix_head? {α : Type} {l₁ l₂ : List α} (h : l₁ <+: l₂) {c : α}
    (hc : l₁.head? = some c) : l₂.head? = some c := by
  obtain ⟨t, rfl⟩ := h
  cases l₁ with
  | nil => simp at hc
  | cons x xs =>
    rw [List.head?_cons] at hc
    rw [List.cons_append, List.head?_cons]
    exact hc

theorem stripEnds_head? (p : Char → Bool) (l : List Char) (c : Char)
    (h : (stripEnds p l).head? = some c) : p c = false :=
  head?_dropWhile_no p l c (prefix_head? (stripEnds_isPre p l) h)

theorem stripEnds_getLast? (p : Char → Bool) (l : List Char) (c : Char)
    (h : (stripEnds p l).getLast? = some c) : p c = false := by
  rw [← List.head?_reverse, stripEnds, List.reverse_reverse] at h
  exact head?_dropWhile_no p (l.dropWhile p).reverse c h

theorem stripEnds_idem (p : Char → Bool) (l : List Char) :
    stripEnds p (stripEnds p l) = stripEnds p l := by
  have h1 : (stripEnds p l).dropWhile p = stripEnds p l :=
    dropWhile_eq_self_of_head p _ (fun c hc => stripEnds_head? p l c hc)
  have h2 : (stripEnds p l).reverse.dropWhile p = (stripEnds p l).reverse := by
    apply dropWhile_eq_self_of_head
    intro c hc
    rw [List.head?_reverse] at hc
    exact stripEnds_getLast? p l c hc
  rw [stripEnds, h1, h2, List.reverse_reverse]

theorem takeIsPre {α : Type} (n : Nat) (l : List α) : l.take n <+: l :=
  ⟨l.drop n, List.take_append_drop n l⟩

theorem stripEnds_isInfix (p : Char → Bool) (l : List Char) :
    stripEnds p l <:+: l :=
  List.infix_iff_prefix_suffix.mpr
    ⟨l.dropWhile p, stripEnds_isPre p l, dropWhileIsSuf p l⟩

theorem slugifyL_isInfix (t : List Char) (m : Nat) :
    slugifyL t m <:+: subWPlus (t.map Char.toLower) := by
  rw [slugifyL]
  exact List.IsInfix.trans (takeIsPre m _).isInfix
    (stripEnds_isInfix _ (subWPlus (t.map Char.toLower)))

theorem slug_chars {t : List Char} {m : Nat} {c : Char} (hc : c ∈ slugifyL t m) :
    c = '_' ∨ (c ∈ t.map Char.toLower ∧ pyIsWordChar c = true) := by
  have hmem : c ∈ subWPlus (t.map Char.toLower) :=
    (slugifyL_isInfix t m).sublist.subset hc
  exact (subW_mem (t.map Char.toLower).length _ le_rfl).1 c hmem

theorem stripEnds_chars {p : Char → Bool} {l : List Char} {c : Char}
    (hc : c ∈ stripEnds p l) : c ∈ l :=
  (stripEnds_isInfix p l).sublist.subset hc


theorem slug_chars_fixed {t : List Char} {m : Nat} {c : Char}
    (hc : c ∈ slugifyL t m) :
    Char.toLower c = c ∧ pyIsWordChar c = true := by
  rcases slug_chars hc with rfl | ⟨hmem, hword⟩
  · exact ⟨toLower_underscore, by decide⟩
  · obtain ⟨e, _, rfl⟩ := List.mem_map.mp hmem
    exact ⟨char_toLower_idem e, hword⟩

/-- Claim C3 (amended): `slugify` at the default `maxlen = 1000` is
idempotent on every string whose stripped slug is not truncated, i.e.
has length at most 1000. -/
theorem c3_slugify_idempotent (s : String)
    (h : (stripEnds (fun c => c = '_')
          (subWPlus (s.toList.map Char.toLower))).length ≤ 1000) :
    slugify (slugify s) = slugify s := by
  have hE : slugifyL s.toList 1000 =
      stripEnds (fun c => c = '_') (subWPlus (s.toList.map Char.toLower)) := by
    rw [slugifyL]
    exact List.take_of_length_le h
  have hfix : ∀ c ∈ slugifyL s.toList 1000,
      Char.toLower c = c ∧ pyIsWordChar c = true :=
    fun c hc => slug_chars_fixed hc
  show (⟨slugifyL (slugify s).toList 1000⟩ : String) = ⟨slugifyL s.toList 1000⟩
  have hTL : (slugify s).toList = slugifyL s.toList 1000 := rfl
  rw [hTL]
  have h1 : (slugifyL s.toList 1000).map Char.toLower = slugifyL s.toList 1000 := by
    have := List.map_congr_left (f := Char.toLower) (g := id)
      (l := slugifyL s.toList 1000) (fun c hc => (hfix c hc).1)
    rw [this, List.map_id]
  have h2 : subWPlus (slugifyL s.toList 1000) = slugifyL s.toList 1000 :=
    subW_id_of_word _ (fun c hc => (hfix c hc).2)
  have h3 : stripEnds (fun c => c = '_') (slugifyL s.toList 1000) =
      slugifyL s.toList 1000 := by
    rw [hE]
    exact stripEnds_idem _ _
  have hlen : (slugifyL s.toList 1000).length ≤ 1000 := by
    rw [hE]
    exact h
  rw [slugifyL, h1, h2, h3, List.take_of_length_le hlen]

/-- Witness for C3: idempotence at the concrete input
`"Hello, World!"`. -/
theorem c3_witness :
    (stripEnds (fun c => c = '_')
      (subWPlus ("Hello, World!".toList.map Char.toLower))).length ≤ 1000 ∧
    slugify (slugify "Hello, World!") = slugify "Hello, World!" :=
  ⟨by decide, c3_slugify_idempotent "Hello, World!" (by decide)⟩

/-- Counterexample to C3 as stated: on a 1001-character input the
truncation to `maxlen = 1000` cuts just after a separator, leaving a
trailing underscore that the second `slugify` strips, so
`slugify (slugify s) ≠ slugify s`. -/
theorem c3_counterexample :
    slugify (slugify c3longIn) ≠ slugify c3longIn := by decide

theorem take_head? {α : Type} {n : Nat} {l : List α} {c : α}
    (h : (l.take n).head? = some c) : l.head? = some c :=
  prefix_head? (takeIsPre n l) h

/-- Claim C4 (amended): every character of `slugify s` lies in
`[a-z0-9_]` (over the ASCII model) and the output never starts with an
underscore; it never ends with an underscore provided no truncation
occurs, and it contains no two consecutive underscores provided the
input contains no literal underscore. -/
theorem c4_slug_charset (s : String) :
    (∀ c ∈ (slugify s).toList, isSlugChar c = true) ∧
    (∀ c, (slugify s).toList.head? = some c → c ≠ '_') ∧
    ((stripEnds (fun c => c = '_')
        (subWPlus (s.toList.map Char.toLower))).length ≤ 1000 →
      ∀ c, (slugify s).toList.getLast? = some c → c ≠ '_') ∧
    ('_' ∉ s.toList → containsL (slugify s).toList ['_', '_'] = false) := by
  have hTL : (slugify s).toList = slugifyL s.toList 1000 := rfl
  refine ⟨?_, ?_, ?_, ?_⟩
  · intro c hc
    rw [hTL] at hc
    rcases slug_chars hc with rfl | ⟨hmem, hword⟩
    · decide
    · obtain ⟨e, _, rfl⟩ := List.mem_map.mp hmem
      exact slug_of_word_toLower hword
  · intro c hc
    rw [hTL, slugifyL] at hc
    have := stripEnds_head? _ _ c (take_head? hc)
    exact of_decide_eq_false this
  · intro hlen c hc
    rw [hTL, slugifyL, List.take_of_length_le hlen] at hc
    exact of_decide_eq_false (stripEnds_getLast? _ _ c hc)
  · intro hus
    have hmus : '_' ∉ s.toList.map Char.toLower := by
      intro hmem
      obtain ⟨e, he, heq⟩ := List.mem_map.mp hmem
      exact hus (toLower_eq_underscore heq ▸ he)
    have hbig : containsL (subWPlus (s.toList.map Char.toLower)) ['_', '_'] = false :=
      (subW_noUU (s.toList.map Char.toLower).length _ le_rfl hmus).1
    rw [hTL]
    exact containsL_false_of_infix hbig (slugifyL_isInfix s.toList 1000)

/-- Witness for C4 at the concrete input `"a b"`. -/
theorem c4_witness :
    (∀ c ∈ (slugify "a b").toList, isSlugChar c = true) ∧
    '_' ∉ "a b".toList ∧
    containsL (slugify "a b").toList ['_', '_'] = false :=
  ⟨(c4_slug_charset "a b").1, by decide, (c4_slug_charset "a b").2.2.2 (by decide)⟩

/-- Counterexample to C4 as stated: the input `"a_-_b"` (literal
underscores adjacent to a separator) slugifies to `"a___b"`, which
contains a run of three consecutive underscores. -/
theorem c4_counterexample :
    slugify "a_-_b" = "a___b" ∧
    containsL (slugify "a_-_b").toList ['_', '_', '_'] = true := by
  exact ⟨by decide, by decide⟩



/-! ## `row_to_qa`: index bookkeeping and the other-option merge -/

theorem row_to_qa_go_open (row : String → Cell) (base : String)
    (rest : List (String × List String)) (n : Nat) :
    row_to_qa_go row ((base, []) :: rest) n =
      { index := n, question := humanize base,
        answer := Answer.openAns (row base) } :: row_to_qa_go row rest (n + 1) := rfl

theorem row_to_qa_go_closed (row : String → Cell) (base c : String)
    (cs : List String) (rest : List (String × List String)) (n : Nat) :
    row_to_qa_go row ((base, c :: cs) :: rest) n =
      if (resolveOther (firstPassGo row (c :: cs) ([], none, none)).1
          (firstPassGo row (c :: cs) ([], none, none)).2.2
          (firstPassGo row (c :: cs) ([], none, none)).2.1).isEmpty then
        row_to_qa_go row rest (n + 1)
      else
        { index := n, question := humanize base,
          answer := Answer.multi
            (resolveOther (firstPassGo row (c :: cs) ([], none, none)).1
              (firstPassGo row (c :: cs) ([], none, none)).2.2
              (firstPassGo row (c :: cs) ([], none, none)).2.1) } ::
          row_to_qa_go row rest (n + 1) := rfl

theorem qaRecordForGroup_open (row : String → Cell) (idx : Nat) (base : String) :
    qaRecordForGroup row idx base [] =
      some { index := idx, question := humanize base,
             answer := Answer.openAns (row base) } := rfl

theorem qaRecordForGroup_closed (row : String → Cell) (idx : Nat) (base c : String)
    (cs : List String) :
    qaRecordForGroup row idx base (c :: cs) =
      if (resolveOther (firstPassGo row (c :: cs) ([], none, none)).1
          (firstPassGo row (c :: cs) ([], none, none)).2.2
          (firstPassGo row (c :: cs) ([], none, none)).2.1).isEmpty then none
      else
        some { index := idx, question := humanize base,
               answer := Answer.multi
                 (resolveOther (firstPassGo row (c :: cs) ([], none, none)).1
                   (firstPassGo row (c :: cs) ([], none, none)).2.2
                   (firstPassGo row (c :: cs) ([], none, none)).2.1) } := rfl

theorem row_to_qa_go_eq (row : String → Cell) :
    ∀ (groups : List (String × List String)) (n : Nat),
    row_to_qa_go row groups n =
      (List.enumFrom n groups).filterMap
        (fun p => qaRecordForGroup row p.1 p.2.1 p.2.2) := by
  intro groups
  induction groups with
  | nil => intro n; rfl
  | cons g rest ih =>
    intro n
    obtain ⟨base, cols⟩ := g
    rw [List.enumFrom_cons, List.filterMap_cons]
    cases cols with
    | nil =>
      rw [row_to_qa_go_open, ih (n + 1)]
      rfl
    | cons c cs =>
      rw [row_to_qa_go_closed]
      dsimp only
      rw [qaRecordForGroup_closed]
      by_cases hsel : (resolveOther (firstPassGo row (c :: cs) ([], none, none)).1
          (firstPassGo row (c :: cs) ([], none, none)).2.2
          (firstPassGo row (c :: cs) ([], none, none)).2.1).isEmpty
      · rw [if_pos hsel, if_pos hsel, ih (n + 1)]
      · rw [if_neg hsel, if_neg hsel, ih (n + 1)]

/-- Claim C5 (amended): `row_to_qa` equals a filterMap over the groups
enumerated from 1 — a closed question with no selected option yields no
record, while its index is still consumed, so every emitted record's
index equals its question's 1-based position among all grouped
questions (the emitted index sequence has gaps; it is not
renumbered). -/
theorem c5_indices (row : String → Cell) (groups : List (String × List String)) :
    row_to_qa row groups =
      (List.enumFrom 1 groups).filterMap
        (fun p => qaRecordForGroup row p.1 p.2.1 p.2.2) :=
  row_to_qa_go_eq row groups 1

/-- Counterexample to C5 as stated: with the middle of three questions
unanswered, the emitted indices are `[1, 3]`, not `[1, 2]` — the next
answered question's index is NOT one greater than the last emitted
record's index. -/
theorem c5_counterexample :
    row_to_qa c5row c5groups =
      [{ index := 1, question := "Q1", answer := Answer.multi ["a"] },
       { index := 3, question := "Q3", answer := Answer.multi ["c"] }] ∧
    (row_to_qa c5row c5groups).map (fun r => r.index) ≠ [1, 2] := by
  exact ⟨by decide, by decide⟩


/-- Claim C6 (amended): selecting the "Other (please specify)" option
with non-blank free text `t` produces exactly one selected-list entry
`"<derived label>: <stripped text>"` where the derived label is the
humanized slug `"other please specify"` (not the raw label `"Other"`),
and no separate bare label entry appears. -/
theorem c6_other_merge (t : String) (h : pyStrip t ≠ "") :
    row_to_qa (c6row t) c6groups =
      [{ index := 1, question := "Commute",
         answer := Answer.multi ["car", "other please specify: " ++ pyStrip t] }] := by
  have r1 : c6row t "commute__car" = Cell.int 1 := rfl
  have r2 : c6row t "commute__other_please_specify" = Cell.int 1 := rfl
  have r3 : c6row t "commute__other_please_specify_text" = Cell.str t := rfl
  have hd : decide (pyStrip (cellStr (Cell.str t)) ≠ "") = true := decide_eq_true h
  have f1 : firstPassGo (c6row t)
      ["commute__car", "commute__other_please_specify",
       "commute__other_please_specify_text"] ([], none, none) =
      (["car"], some (pyStrip t), some "other please specify") := by
    rw [firstPassGo, if_neg (by decide), r1, if_pos (by decide), if_neg (by decide)]
    rw [firstPassGo, if_neg (by decide), r2, if_pos (by decide), if_pos (by decide)]
    rw [firstPassGo, if_pos (by decide), r3]
    rw [if_pos]
    · rw [firstPassGo]
      simp only [show optionLabelOf "commute__car" = "car" from by decide,
        show optionLabelOf "commute__other_please_specify" = "other please specify"
          from by decide,
        show cellStr (Cell.str t) = t from rfl, List.nil_append]
    · rw [Bool.and_eq_true]
      exact ⟨rfl, hd⟩
  have g2 : strTruthy (some (pyStrip t)) = true := by
    rw [strTruthy]
    exact decide_eq_true h
  have hres : resolveOther ["car"] (some "other please specify") (some (pyStrip t)) =
      ["car", "other please specify: " ++ pyStrip t] := by
    rw [resolveOther, if_pos]
    · have : ((some "other please specify").getD "" ++ ": " ++ (some (pyStrip t)).getD "")
          = "other please specify: " ++ pyStrip t := by
        show "other please specify" ++ ": " ++ pyStrip t = "other please specify: " ++ pyStrip t
        rw [show ("other please specify" ++ ": " : String) = "other please specify: " from by decide]
      rw [this]
      rfl
    · rw [Bool.and_eq_true, g2]
      exact ⟨by decide, rfl⟩
  rw [row_to_qa, show c6groups = [("commute", ["commute__car",
      "commute__other_please_specify", "commute__other_please_specify_text"])] from rfl,
    row_to_qa_go_closed, f1]
  dsimp only
  rw [hres, if_neg (by simp [List.isEmpty_cons])]
  rw [show humanize "commute" = "Commute" from by decide]
  rfl


/-- Witness for C6 with the free text `"Carpool"`. -/
theorem c6_witness :
    pyStrip "Carpool" ≠ "" ∧
    row_to_qa (c6row "Carpool") c6groups =
      [{ index := 1, question := "Commute",
         answer := Answer.multi ["car", "other please specify: Carpool"] }] := by
  refine ⟨by decide, ?_⟩
  have h := c6_other_merge "Carpool" (by decide)
  rwa [show ("other please specify: " ++ pyStrip "Carpool" : String) =
    "other please specify: Carpool" from by decide] at h

/-- Counterexample to C6 as stated: the merged entry is
`"other please specify: Carpool"`, and the string `"Other: Carpool"`
appears nowhere in the selected list. -/
theorem c6_counterexample :
    row_to_qa (c6row "Carpool") c6groups =
      [{ index := 1, question := "Commute",
         answer := Answer.multi ["car", "other please specify: Carpool"] }] ∧
    "Other: Carpool" ∉ ["car", "other please specify: Carpool"] := by
  exact ⟨by decide, by decide⟩



/-! ## Analytics claims -/

/-- Claim C9 (amended): a question-header column becomes an open-text
pass-through column if and only if its row-1 cell lower-cases to
`"open-ended response"` — the match is case-insensitive, not
case-sensitive; any other value yields a binary indicator column. -/
theorem c9_sentinel (cur : Option String) (qt : String) (cell : Option String) :
    ((processCol cur (some qt) cell).2 = [ColSpec.passthrough (slugify qt)] ↔
      lowerStr (pyStr cell) = "open-ended response") ∧
    (lowerStr (pyStr cell) ≠ "open-ended response" →
      (processCol cur (some qt) cell).2 =
        [ColSpec.indicator (slugify qt ++ "__" ++ slugify (pyStr cell))]) := by
  by_cases hc : lowerStr (pyStr cell) = "open-ended response"
  · constructor
    · rw [processCol, if_pos hc]
      exact ⟨fun _ => hc, fun _ => rfl⟩
    · intro hne
      exact absurd hc hne
  · constructor
    · rw [processCol, if_neg hc]
      constructor
      · intro h
        exact absurd (List.head_eq_of_cons_eq h) (by simp)
      · intro h
        exact absurd h hc
    · intro _
      rw [processCol, if_neg hc]

/-- Claim C2: `calculate_participation_rate` returns result `0` with a
non-empty error when `total_employees ≤ 0`, and otherwise returns
`round(stored respondent rows / total_employees × 100, 2)` with no
error. -/
theorem c2_participation (db : DB) (cid : Nat) (te : ℤ) :
    (te ≤ 0 →
      (calculate_participation_rate db cid te).result = some (ResVal.num 0) ∧
      ∃ e, (calculate_participation_rate db cid te).error = some e ∧ e ≠ "") ∧
    (0 < te →
      (calculate_participation_rate db cid te).result =
        some (ResVal.num (pyRound2
          (((db.respondents.filter (fun r => r.company_id == cid)).length : ℚ) /
            (te : ℚ) * 100))) ∧
      (calculate_participation_rate db cid te).error = none) := by
  constructor
  · intro h
    rw [calculate_participation_rate, if_pos h]
    exact ⟨rfl, "El número total de empleados debe ser mayor que cero", rfl, by decide⟩
  · intro h
    rw [calculate_participation_rate, if_neg (by omega)]
    dsimp only
    refine ⟨?_, rfl⟩
    rw [qmul_eq, qdiv_eq, get_total_responses]


/-- Witness for C2 at the spec's example: 42 stored respondents and
`total_employees = 100` give result 42, and `total_employees = -1`
gives result 0 with a non-empty error. -/
theorem c2_witness :
    ((0 : ℤ) < 100 ∧
      (calculate_participation_rate db42 1 100).result = some (ResVal.num 42)) ∧
    ((-1 : ℤ) ≤ 0 ∧
      (calculate_participation_rate db42 1 (-1)).result = some (ResVal.num 0) ∧
      ∃ e, (calculate_participation_rate db42 1 (-1)).error = some e ∧ e ≠ "") := by
  refine ⟨⟨by decide, ?_⟩, by decide, (c2_participation db42 1 (-1)).1 (by decide)⟩
  have h := ((c2_participation db42 1 100).2 (by decide)).1
  rw [show (db42.respondents.filter (fun r => r.company_id == 1)).length = 42
      from by decide] at h
  rw [show ((42 : ℕ) : ℚ) / ((100 : ℤ) : ℚ) * 100 = 42 from by norm_num] at h
  rwa [show pyRound2 42 = 42 from by decide] at h

theorem find?_none_of_all_false {α : Type} (p : α → Bool) (l : List α)
    (h : ∀ x ∈ l, p x = false) : l.find? p = none :=
  List.find?_eq_none.mpr
    (fun x hx hc => by rw [h x hx] at hc; exact Bool.false_ne_true hc)

/-- Claim C1 (amended): every question-locating `calculate_*` formula
of the suite — all thirty-five are embedded above — run against a
company none of whose stored questions satisfy that formula's keyword
condition (in particular a company with no questions at all), returns
an envelope carrying the formula's name and a non-empty error string
with no result of any kind; the functions are total, so no exception
reaches the caller.  `calculate_multimodal_workers_percentage` may
instead fail earlier on its respondent check, but the envelope shape
is the same either way.  `calculate_participation_rate` is the
exception the counterexample exhibits: it never consults the stored
questions and always carries a `result`. -/
theorem c1_error_envelopes (db : DB) (cid : Nat)
    (hGender : ∀ q ∈ questionsFor db cid,
      genderKeywords.any (fun k => pyIn k (lowerStr q.question_text)) = false)
    (hPostal : ∀ q ∈ questionsFor db cid,
      postalKeywords.any (fun k => pyIn (lowerStr k) (lowerStr q.question_text)) = false)
    (hAge : ∀ q ∈ questionsFor db cid, kwHit ageKeywords q = false)
    (hWorkday : ∀ q ∈ questionsFor db cid, kwHit workdayKeywords q = false)
    (hTelework : ∀ q ∈ questionsFor db cid, kwHit teleworkKeywords q = false)
    (hTransport : ∀ q ∈ questionsFor db cid, kwHit transportModeKeywords q = false)
    (hMM : ∀ q ∈ questionsFor db cid,
      multimodalKeywords.any (fun k => pyIn k (lowerStr q.question_text)) = false)
    (hDist : ∀ q ∈ questionsFor db cid,
      distanceKeywords.any (fun k => pyIn k (lowerStr q.question_text)) = false)
    (hTime : ∀ q ∈ questionsFor db cid, kwHit travelTimeKeywords q = false)
    (hMission : ∀ q ∈ questionsFor db cid, kwHit missionKeywords q = false)
    (hOwnCar : ∀ q ∈ questionsFor db cid, kwHit carOwnershipKeywords q = false)
    (hEngine : ∀ q ∈ questionsFor db cid, kwHit engineKeywords q = false)
    (hEv : ∀ q ∈ questionsFor db cid, evPred q = false)
    (hFreePark : ∀ q ∈ questionsFor db cid, parkingPred q = false)
    (hNoPark : ∀ q ∈ questionsFor db cid, noParkingPred q = false)
    (hBarriers : ∀ q ∈ questionsFor db cid, kwHit barriersKeywords q = false)
    (hMotiv : ∀ q ∈ questionsFor db cid, motivationsPred q = false)
    (hCarShare : ∀ q ∈ questionsFor db cid, kwHit carSharingKeywords q = false)
    (hLines : ∀ q ∈ questionsFor db cid, kwHit ptLinesKeywords q = false)
    (hPtImprove : ∀ q ∈ questionsFor db cid, kwHit ptImprovementKeywords q = false)
    (hCycRoutes : ∀ q ∈ questionsFor db cid, kwHit cyclingRoutesKeywords q = false)
    (hCycFactors : ∀ q ∈ questionsFor db cid, kwHit cyclingFactorsKeywords q = false)
    (hDept : ∀ q ∈ questionsFor db cid, kwHit departmentKeywords q = false)
    (hWorkdays : ∀ q ∈ questionsFor db cid, kwHit workdaysKeywords q = false)
    (hCombination : ∀ q ∈ questionsFor db cid, kwHit combinationKeywords q = false)
    (hOccupancy : ∀ q ∈ questionsFor db cid, kwHit occupancyKeywords q = false)
    (hPtTime : ∀ q ∈ questionsFor db cid, kwHit ptTimeKeywords q = false)
    (hSatisf : ∀ q ∈ questionsFor db cid, kwHitLower satisfactionKeywords q = false)
    (hMainWork : ∀ q ∈ questionsFor db cid,
      kwHitLower mainWorkTransportKeywords q = false)
    (hFreq : ∀ q ∈ questionsFor db cid, kwHitLower freqKeywords q = false)
    (hAvgTrip : ∀ q ∈ questionsFor db cid, kwHit avgTripKeywords q = false)
    (hReason : ∀ q ∈ questionsFor db cid, kwHit reasonKeywords q = false)
    (hReplace : ∀ q ∈ questionsFor db cid, kwHit replaceableKeywords q = false)
    (hPedestrian : ∀ q ∈ questionsFor db cid, kwHit pedestrianKeywords q = false)
    (hCycBar : ∀ q ∈ questionsFor db cid,
      kwHitLower cyclingBarriersKeywords q = false) :
    isErrorEnvelope (calculate_gender_distribution db cid)
      "Distribución por género" ∧
    (∀ muni, isErrorEnvelope (calculate_postal_code_distribution db cid muni)
      "Distribución por código postal") ∧
    isErrorEnvelope (calculate_age_distribution db cid)
      "Distribución por edad" ∧
    isErrorEnvelope (calculate_workday_type_distribution db cid)
      "Distribución por tipo de jornada" ∧
    isErrorEnvelope (calculate_telework_distribution db cid)
      "Distribución por días de teletrabajo" ∧
    isErrorEnvelope (calculate_transport_mode_distribution db cid)
      "Distribución por modo de transporte" ∧
    isErrorEnvelope (calculate_multimodal_workers_percentage db cid)
      "Porcentaje de trabajadores multimodales" ∧
    isErrorEnvelope (calculate_distance_range_distribution db cid)
      "Porcentaje de desplazamientos por tramo de distancia" ∧
    isErrorEnvelope (calculate_travel_time_distribution db cid)
      "Porcentaje de desplazamientos por tramo de tiempo" ∧
    isErrorEnvelope (calculate_business_trips_percentage db cid)
      "Porcentaje de trabajadores que realizan desplazamientos en misión" ∧
    isErrorEnvelope (calculate_business_trips_own_car_percentage db cid)
      "Porcentaje de viajeros que usan coche propio" ∧
    isErrorEnvelope (calculate_engine_type_percentage db cid)
      "Porcentaje por tipo de motor del vehículo" ∧
    isErrorEnvelope (calculate_ev_purchase_intention_percentage db cid)
      "Porcentaje de intención de compra de vehículo eléctrico" ∧
    isErrorEnvelope (calculate_free_parking_percentage db cid)
      "Porcentaje con aparcamiento en la empresa" ∧
    isErrorEnvelope (calculate_no_parking_problems_percentage db cid)
      "Porcentaje que no percibe problemas de aparcamiento" ∧
    isErrorEnvelope (calculate_public_transport_barriers_percentage db cid)
      "Porcentaje por barrera al uso de transporte público" ∧
    isErrorEnvelope (calculate_public_transport_motivations_percentage db cid)
      "Porcentaje de motivaciones para usar transporte público" ∧
    isErrorEnvelope (calculate_car_sharing_willingness_percentage db cid)
      "Porcentaje de disposición a compartir coche" ∧
    isErrorEnvelope (calculate_public_transport_lines_awareness_percentage db cid)
      "Porcentaje que conoce líneas de transporte público cercanas" ∧
    isErrorEnvelope (calculate_public_transport_improvement_factors_percentage db cid)
      "Porcentaje por factor de mejora del transporte público" ∧
    isErrorEnvelope (calculate_cycling_routes_awareness_percentage db cid)
      "Porcentaje que conoce vías ciclistas" ∧
    isErrorEnvelope (calculate_cycling_improvement_factors_percentage db cid)
      "Porcentaje por factor de mejora al uso de bicicleta" ∧
    isErrorEnvelope (calculate_department_distribution db cid)
      "Distribución por departamento" ∧
    isErrorEnvelope (calculate_workdays_distribution db cid)
      "Distribución por días de trabajo semanal" ∧
    isErrorEnvelope (calculate_transport_combination_distribution db cid)
      "Distribución de combinaciones de transporte" ∧
    isErrorEnvelope (calculate_car_occupancy_distribution db cid)
      "Distribución de ocupantes por vehículo" ∧
    isErrorEnvelope (calculate_public_transport_estimated_time_distribution db cid)
      "Distribución de tiempo estimado en transporte público" ∧
    isErrorEnvelope (calculate_public_transport_satisfaction_distribution db cid)
      "Distribución de satisfacción con el transporte público" ∧
    isErrorEnvelope (calculate_main_transport_mode_during_work_distribution db cid)
      "Distribución de principal medio de transporte durante la jornada laboral" ∧
    isErrorEnvelope (calculate_work_trip_frequency_distribution db cid)
      "Distribución de frecuencia de desplazamientos durante la jornada laboral" ∧
    isErrorEnvelope (calculate_average_trip_distance db cid)
      "Promedio de kilómetros por trayecto" ∧
    isErrorEnvelope (calculate_work_trip_reason_distribution db cid)
      "Distribución de motivos de desplazamiento durante la jornada laboral" ∧
    isErrorEnvelope (calculate_replaceable_trips_distribution db cid)
      "Distribución de trayectos reemplazables por videollamada" ∧
    isErrorEnvelope (calculate_pedestrian_environment_rating db cid)
      "Promedio de valoración del entorno para peatones" ∧
    isErrorEnvelope (calculate_cycling_barriers_percentage db cid)
      "Porcentaje por barrera al uso de bicicleta/patinete" := by
  refine ⟨?_, ?_, ?_, ?_, ?_, ?_, ?_, ?_, ?_, ?_, ?_, ?_, ?_, ?_, ?_, ?_, ?_,
    ?_, ?_, ?_, ?_, ?_, ?_, ?_, ?_, ?_, ?_, ?_, ?_, ?_, ?_, ?_, ?_, ?_, ?_⟩
  · rw [calculate_gender_distribution, find?_none_of_all_false
      (fun q => genderKeywords.any (fun k => pyIn k (lowerStr q.question_text)))
      (questionsFor db cid) hGender]
    exact ⟨rfl, rfl, rfl, rfl, _, rfl, by decide⟩
  · intro muni
    rw [calculate_postal_code_distribution, find?_none_of_all_false
      (fun q => postalKeywords.any
        (fun k => pyIn (lowerStr k) (lowerStr q.question_text)))
      (questionsFor db cid) hPostal]
    exact ⟨rfl, rfl, rfl, rfl, _, rfl, by decide⟩
  · rw [calculate_age_distribution,
      find?_none_of_all_false (kwHit ageKeywords) (questionsFor db cid) hAge]
    exact ⟨rfl, rfl, rfl, rfl, _, rfl, by decide⟩
  · rw [calculate_workday_type_distribution,
      find?_none_of_all_false (kwHit workdayKeywords) (questionsFor db cid) hWorkday]
    exact ⟨rfl, rfl, rfl, rfl, _, rfl, by decide⟩
  · rw [calculate_telework_distribution,
      find?_none_of_all_false (kwHit teleworkKeywords) (questionsFor db cid) hTelework]
    exact ⟨rfl, rfl, rfl, rfl, _, rfl, by decide⟩
  · rw [calculate_transport_mode_distribution,
      find?_none_of_all_false (kwHit transportModeKeywords) (questionsFor db cid)
        hTransport]
    exact ⟨rfl, rfl, rfl, rfl, _, rfl, by decide⟩
  · rw [calculate_multimodal_workers_percentage]
    by_cases h :
        ((db.respondents.filter (fun r => r.company_id == cid)).length == 0) = true
    · rw [if_pos h]
      exact ⟨rfl, rfl, rfl, rfl, _, rfl, by decide⟩
    · rw [if_neg h, find?_none_of_all_false
        (fun q => multimodalKeywords.any (fun k => pyIn k (lowerStr q.question_text)))
        (questionsFor db cid) hMM]
      exact ⟨rfl, rfl, rfl, rfl, _, rfl, by decide⟩
  · rw [calculate_distance_range_distribution, find?_none_of_all_false
      (fun q => distanceKeywords.any (fun k => pyIn k (lowerStr q.question_text)))
      (questionsFor db cid) hDist]
    exact ⟨rfl, rfl, rfl, rfl, _, rfl, by decide⟩
  · rw [calculate_travel_time_distribution,
      find?_none_of_all_false (kwHit travelTimeKeywords) (questionsFor db cid) hTime]
    exact ⟨rfl, rfl, rfl, rfl, _, rfl, by decide⟩
  · rw [calculate_business_trips_percentage,
      find?_none_of_all_false (kwHit missionKeywords) (questionsFor db cid) hMission]
    exact ⟨rfl, rfl, rfl, rfl, _, rfl, by decide⟩
  · rw [calculate_business_trips_own_car_percentage,
      find?_none_of_all_false (kwHit carOwnershipKeywords) (questionsFor db cid)
        hOwnCar]
    exact ⟨rfl, rfl, rfl, rfl, _, rfl, by decide⟩
  · rw [calculate_engine_type_percentage,
      find?_none_of_all_false (kwHit engineKeywords) (questionsFor db cid) hEngine]
    exact ⟨rfl, rfl, rfl, rfl, _, rfl, by decide⟩
  · rw [calculate_ev_purchase_intention_percentage,
      find?_none_of_all_false evPred (questionsFor db cid) hEv]
    exact ⟨rfl, rfl, rfl, rfl, _, rfl, by decide⟩
  · rw [calculate_free_parking_percentage,
      find?_none_of_all_false parkingPred (questionsFor db cid) hFreePark]
    exact ⟨rfl, rfl, rfl, rfl, _, rfl, by decide⟩
  · rw [calculate_no_parking_problems_percentage,
      find?_none_of_all_false noParkingPred (questionsFor db cid) hNoPark]
    exact ⟨rfl, rfl, rfl, rfl, _, rfl, by decide⟩
  · rw [calculate_public_transport_barriers_percentage,
      find?_none_of_all_false (kwHit barriersKeywords) (questionsFor db cid)
        hBarriers]
    exact ⟨rfl, rfl, rfl, rfl, _, rfl, by decide⟩
  · rw [calculate_public_transport_motivations_percentage,
      find?_none_of_all_false motivationsPred (questionsFor db cid) hMotiv]
    exact ⟨rfl, rfl, rfl, rfl, _, rfl, by decide⟩
  · rw [calculate_car_sharing_willingness_percentage,
      find?_none_of_all_false (kwHit carSharingKeywords) (questionsFor db cid)
        hCarShare]
    exact ⟨rfl, rfl, rfl, rfl, _, rfl, by decide⟩
  · rw [calculate_public_transport_lines_awareness_percentage,
      find?_none_of_all_false (kwHit ptLinesKeywords) (questionsFor db cid) hLines]
    exact ⟨rfl, rfl, rfl, rfl, _, rfl, by decide⟩
  · rw [calculate_public_transport_improvement_factors_percentage,
      find?_none_of_all_false (kwHit ptImprovementKeywords) (questionsFor db cid)
        hPtImprove]
    exact ⟨rfl, rfl, rfl, rfl, _, rfl, by decide⟩
  · rw [calculate_cycling_routes_awareness_percentage,
      find?_none_of_all_false (kwHit cyclingRoutesKeywords) (questionsFor db cid)
        hCycRoutes]
    exact ⟨rfl, rfl, rfl, rfl, _, rfl, by decide⟩
  · rw [calculate_cycling_improvement_factors_percentage,
      find?_none_of_all_false (kwHit cyclingFactorsKeywords) (questionsFor db cid)
        hCycFactors]
    exact ⟨rfl, rfl, rfl, rfl, _, rfl, by decide⟩
  · rw [calculate_department_distribution,
      find?_none_of_all_false (kwHit departmentKeywords) (questionsFor db cid) hDept]
    exact ⟨rfl, rfl, rfl, rfl, _, rfl, by decide⟩
  · rw [calculate_workdays_distribution,
      find?_none_of_all_false (kwHit workdaysKeywords) (questionsFor db cid)
        hWorkdays]
    exact ⟨rfl, rfl, rfl, rfl, _, rfl, by decide⟩
  · rw [calculate_transport_combination_distribution,
      find?_none_of_all_false (kwHit combinationKeywords) (questionsFor db cid)
        hCombination]
    exact ⟨rfl, rfl, rfl, rfl, _, rfl, by decide⟩
  · rw [calculate_car_occupancy_distribution,
      find?_none_of_all_false (kwHit occupancyKeywords) (questionsFor db cid)
        hOccupancy]
    exact ⟨rfl, rfl, rfl, rfl, _, rfl, by decide⟩
  · rw [calculate_public_transport_estimated_time_distribution,
      find?_none_of_all_false (kwHit ptTimeKeywords) (questionsFor db cid) hPtTime]
    exact ⟨rfl, rfl, rfl, rfl, _, rfl, by decide⟩
  · rw [calculate_public_transport_satisfaction_distribution,
      find?_none_of_all_false (kwHitLower satisfactionKeywords) (questionsFor db cid)
        hSatisf]
    exact ⟨rfl, rfl, rfl, rfl, _, rfl, by decide⟩
  · rw [calculate_main_transport_mode_during_work_distribution,
      find?_none_of_all_false (kwHitLower mainWorkTransportKeywords)
        (questionsFor db cid) hMainWork]
    exact ⟨rfl, rfl, rfl, rfl, _, rfl, by decide⟩
  · rw [calculate_work_trip_frequency_distribution,
      find?_none_of_all_false (kwHitLower freqKeywords) (questionsFor db cid) hFreq]
    exact ⟨rfl, rfl, rfl, rfl, _, rfl, by decide⟩
  · rw [calculate_average_trip_distance,
      find?_none_of_all_false (kwHit avgTripKeywords) (questionsFor db cid) hAvgTrip]
    exact ⟨rfl, rfl, rfl, rfl, _, rfl, by decide⟩
  · rw [calculate_work_trip_reason_distribution,
      find?_none_of_all_false (kwHit reasonKeywords) (questionsFor db cid) hReason]
    exact ⟨rfl, rfl, rfl, rfl, _, rfl, by decide⟩
  · rw [calculate_replaceable_trips_distribution,
      find?_none_of_all_false (kwHit replaceableKeywords) (questionsFor db cid)
        hReplace]
    exact ⟨rfl, rfl, rfl, rfl, _, rfl, by decide⟩
  · rw [calculate_pedestrian_environment_rating,
      find?_none_of_all_false (kwHit pedestrianKeywords) (questionsFor db cid)
        hPedestrian]
    exact ⟨rfl, rfl, rfl, rfl, _, rfl, by decide⟩
  · rw [calculate_cycling_barriers_percentage,
      find?_none_of_all_false (kwHitLower cyclingBarriersKeywords)
        (questionsFor db cid) hCycBar]
    exact ⟨rfl, rfl, rfl, rfl, _, rfl, by decide⟩

/-- Witness for C1: the amended theorem applied to the concrete
company `dbOneQ`, which has a respondent and one stored question
(text `"zzz"`) matching no formula's keyword condition; every
hypothesis is discharged by evaluation. -/
theorem c1_witness :
    questionsFor dbOneQ 1 = [{ id := 1, company_id := 1, question_text := "zzz" }] ∧
    (isErrorEnvelope (calculate_gender_distribution dbOneQ 1)
      "Distribución por género" ∧
    (∀ muni, isErrorEnvelope (calculate_postal_code_distribution dbOneQ 1 muni)
      "Distribución por código postal") ∧
    isErrorEnvelope (calculate_age_distribution dbOneQ 1)
      "Distribución por edad" ∧
    isErrorEnvelope (calculate_workday_type_distribution dbOneQ 1)
      "Distribución por tipo de jornada" ∧
    isErrorEnvelope (calculate_telework_distribution dbOneQ 1)
      "Distribución por días de teletrabajo" ∧
    isErrorEnvelope (calculate_transport_mode_distribution dbOneQ 1)
      "Distribución por modo de transporte" ∧
    isErrorEnvelope (calculate_multimodal_workers_percentage dbOneQ 1)
      "Porcentaje de trabajadores multimodales" ∧
    isErrorEnvelope (calculate_distance_range_distribution dbOneQ 1)
      "Porcentaje de desplazamientos por tramo de distancia" ∧
    isErrorEnvelope (calculate_travel_time_distribution dbOneQ 1)
      "Porcentaje de desplazamientos por tramo de tiempo" ∧
    isErrorEnvelope (calculate_business_trips_percentage dbOneQ 1)
      "Porcentaje de trabajadores que realizan desplazamientos en misión" ∧
    isErrorEnvelope (calculate_business_trips_own_car_percentage dbOneQ 1)
      "Porcentaje de viajeros que usan coche propio" ∧
    isErrorEnvelope (calculate_engine_type_percentage dbOneQ 1)
      "Porcentaje por tipo de motor del vehículo" ∧
    isErrorEnvelope (calculate_ev_purchase_intention_percentage dbOneQ 1)
      "Porcentaje de intención de compra de vehículo eléctrico" ∧
    isErrorEnvelope (calculate_free_parking_percentage dbOneQ 1)
      "Porcentaje con aparcamiento en la empresa" ∧
    isErrorEnvelope (calculate_no_parking_problems_percentage dbOneQ 1)
      "Porcentaje que no percibe problemas de aparcamiento" ∧
    isErrorEnvelope (calculate_public_transport_barriers_percentage dbOneQ 1)
      "Porcentaje por barrera al uso de transporte público" ∧
    isErrorEnvelope (calculate_public_transport_motivations_percentage dbOneQ 1)
      "Porcentaje de motivaciones para usar transporte público" ∧
    isErrorEnvelope (calculate_car_sharing_willingness_percentage dbOneQ 1)
      "Porcentaje de disposición a compartir coche" ∧
    isErrorEnvelope (calculate_public_transport_lines_awareness_percentage dbOneQ 1)
      "Porcentaje que conoce líneas de transporte público cercanas" ∧
    isErrorEnvelope
      (calculate_public_transport_improvement_factors_percentage dbOneQ 1)
      "Porcentaje por factor de mejora del transporte público" ∧
    isErrorEnvelope (calculate_cycling_routes_awareness_percentage dbOneQ 1)
      "Porcentaje que conoce vías ciclistas" ∧
    isErrorEnvelope (calculate_cycling_improvement_factors_percentage dbOneQ 1)
      "Porcentaje por factor de mejora al uso de bicicleta" ∧
    isErrorEnvelope (calculate_department_distribution dbOneQ 1)
      "Distribución por departamento" ∧
    isErrorEnvelope (calculate_workdays_distribution dbOneQ 1)
      "Distribución por días de trabajo semanal" ∧
    isErrorEnvelope (calculate_transport_combination_distribution dbOneQ 1)
      "Distribución de combinaciones de transporte" ∧
    isErrorEnvelope (calculate_car_occupancy_distribution dbOneQ 1)
      "Distribución de ocupantes por vehículo" ∧
    isErrorEnvelope (calculate_public_transport_estimated_time_distribution dbOneQ 1)
      "Distribución de tiempo estimado en transporte público" ∧
    isErrorEnvelope (calculate_public_transport_satisfaction_distribution dbOneQ 1)
      "Distribución de satisfacción con el transporte público" ∧
    isErrorEnvelope (calculate_main_transport_mode_during_work_distribution dbOneQ 1)
      "Distribución de principal medio de transporte durante la jornada laboral" ∧
    isErrorEnvelope (calculate_work_trip_frequency_distribution dbOneQ 1)
      "Distribución de frecuencia de desplazamientos durante la jornada laboral" ∧
    isErrorEnvelope (calculate_average_trip_distance dbOneQ 1)
      "Promedio de kilómetros por trayecto" ∧
    isErrorEnvelope (calculate_work_trip_reason_distribution dbOneQ 1)
      "Distribución de motivos de desplazamiento durante la jornada laboral" ∧
    isErrorEnvelope (calculate_replaceable_trips_distribution dbOneQ 1)
      "Distribución de trayectos reemplazables por videollamada" ∧
    isErrorEnvelope (calculate_pedestrian_environment_rating dbOneQ 1)
      "Promedio de valoración del entorno para peatones" ∧
    isErrorEnvelope (calculate_cycling_barriers_percentage dbOneQ 1)
      "Porcentaje por barrera al uso de bicicleta/patinete") :=
  ⟨by decide,
    c1_error_envelopes dbOneQ 1 (by decide) (by decide) (by decide) (by decide)
      (by decide) (by decide) (by decide) (by decide) (by decide) (by decide)
      (by decide) (by decide) (by decide) (by decide) (by decide) (by decide)
      (by decide) (by decide) (by decide) (by decide) (by decide) (by decide)
      (by decide) (by decide) (by decide) (by decide) (by decide) (by decide)
      (by decide) (by decide) (by decide) (by decide) (by decide) (by decide)
      (by decide)⟩

/-- Counterexample to C1 as stated: `calculate_participation_rate` is
in the `calculate_*` suite, yet against a company with no questions it
returns an envelope with no error and with a result present. -/
theorem c1_counterexample :
    questionsFor dbNoQ 1 = [] ∧
    (calculate_participation_rate dbNoQ 1 100).error = none ∧
    (calculate_participation_rate dbNoQ 1 100).result ≠ none :=
  ⟨by decide, by decide, by decide⟩


theorem foldl_dedupAppend_spec :
    ∀ (l s : List Nat), s.Nodup →
      (l.foldl dedupAppend s).Nodup ∧
      (l.foldl dedupAppend s).toFinset = s.toFinset ∪ l.toFinset := by
  intro l
  induction l with
  | nil =>
    intro s hs
    simpa using hs
  | cons x xs ih =>
    intro s hs
    rw [List.foldl_cons]
    by_cases hx : s.contains x = true
    · have hd : dedupAppend s x = s := by rw [dedupAppend, if_pos hx]
      rw [hd]
      obtain ⟨h1, h2⟩ := ih s hs
      refine ⟨h1, ?_⟩
      rw [h2, List.toFinset_cons]
      have hmem : x ∈ s.toFinset := List.mem_toFinset.mpr (List.elem_iff.mp hx)
      ext y
      simp only [Finset.mem_union, Finset.mem_insert, List.mem_toFinset]
      rw [List.mem_toFinset] at hmem
      constructor
      · rintro (hy | hy)
        · exact Or.inl hy
        · exact Or.inr (Or.inr hy)
      · rintro (hy | rfl | hy)
        · exact Or.inl hy
        · exact Or.inl hmem
        · exact Or.inr hy
    · have hxm : x ∉ s := fun hm => hx (List.elem_iff.mpr hm)
      have hd : dedupAppend s x = s ++ [x] := by rw [dedupAppend, if_neg hx]
      rw [hd]
      have hs2 : (s ++ [x]).Nodup := by
        rw [List.nodup_append]
        refine ⟨hs, List.nodup_singleton x, ?_⟩
        intro a ha hax
        rw [List.mem_singleton] at hax
        exact hxm (hax ▸ ha)
      obtain ⟨h1, h2⟩ := ih (s ++ [x]) hs2
      refine ⟨h1, ?_⟩
      rw [h2, List.toFinset_append, List.toFinset_cons]
      ext y
      simp only [Finset.mem_union, Finset.mem_insert, List.mem_toFinset,
        List.toFinset_cons, List.toFinset_nil, Finset.mem_singleton,
        List.mem_singleton, Finset.not_mem_empty, or_false, insert_emptyc_eq]
      tauto

theorem foldl_dedupAppend_length (l : List Nat) :
    (l.foldl dedupAppend []).length = l.dedup.length := by
  obtain ⟨h1, h2⟩ := foldl_dedupAppend_spec l [] List.nodup_nil
  rw [← List.toFinset_card_of_nodup h1, h2]
  rw [show ([] : List Nat).toFinset = ∅ from rfl, Finset.empty_union]
  exact List.card_toFinset l

theorem multimodalRespondents_eq (db : DB) (cid : Nat) :
    ∀ (opts : List OptionRow) (s : List Nat),
      opts.foldl
        (fun s o =>
          (db.answers.filter
            (fun a => a.option_id == some o.id && a.company_id == cid)).foldl
            (fun s2 a => dedupAppend s2 a.respondent_id) s)
        s =
      ((opts.map (fun o =>
          (db.answers.filter
            (fun a => a.option_id == some o.id && a.company_id == cid)).map
            (fun a => a.respondent_id))).flatten).foldl dedupAppend s := by
  intro opts
  induction opts with
  | nil => intro s; rfl
  | cons o os ih =>
    intro s
    rw [List.foldl_cons, List.map_cons, List.flatten_cons, List.foldl_append, ih]
    congr 1
    rw [← List.foldl_map]


/-- Claim C8: `calculate_multimodal_workers_percentage` divides the
number of distinct respondents that selected any option of the located
question by the total respondent count of the company, rounds to two
decimals, and reports the non-multimodal percentage as
`round(100 - multimodal, 2)` — the complement of the rounded value,
not a recomputation from counts. -/
theorem c8_multimodal (db : DB) (cid : Nat) (q : Question)
    (htot : ((db.respondents.filter (fun r => r.company_id == cid)).length == 0) = false)
    (hq : (questionsFor db cid).find? (fun q => multimodalKeywords.any
      (fun k => pyIn k (lowerStr q.question_text))) = some q)
    (hopts : (db.options.filter
      (fun o => o.question_id == q.id && o.company_id == cid)).isEmpty = false) :
    (calculate_multimodal_workers_percentage db cid).question = some q.question_text ∧
    ∃ mm, (calculate_multimodal_workers_percentage db cid).result =
        some (ResVal.strMap [("Multimodal", mm), ("No multimodal", pyRound2 (100 - mm))]) ∧
      mm = pyRound2
        (((((db.options.filter (fun o => o.question_id == q.id && o.company_id == cid)).map
              (fun o => (db.answers.filter (fun a => a.option_id == some o.id &&
                a.company_id == cid)).map (fun a => a.respondent_id))).flatten.dedup.length : ℚ) /
          ((db.respondents.filter (fun r => r.company_id == cid)).length : ℚ)) * 100) := by
  have hcount : (multimodalRespondents db cid
      (db.options.filter (fun o => o.question_id == q.id && o.company_id == cid))).length =
      ((db.options.filter (fun o => o.question_id == q.id && o.company_id == cid)).map
        (fun o => (db.answers.filter (fun a => a.option_id == some o.id &&
          a.company_id == cid)).map (fun a => a.respondent_id))).flatten.dedup.length := by
    rw [multimodalRespondents, multimodalRespondents_eq, foldl_dedupAppend_length]
  rw [calculate_multimodal_workers_percentage]
  rw [if_neg (by rw [htot]; exact Bool.false_ne_true), hq]
  dsimp only
  rw [if_neg (by rw [hopts]; exact Bool.false_ne_true)]
  dsimp only
  refine ⟨rfl, pyRound2 (qmul (qdiv
      ((multimodalRespondents db cid (db.options.filter
        (fun o => o.question_id == q.id && o.company_id == cid))).length : ℚ)
      ((db.respondents.filter (fun r => r.company_id == cid)).length : ℚ)) 100),
      ?_, ?_⟩
  · rw [qsub_eq]
  · rw [qmul_eq, qdiv_eq, hcount]


/-- Witness for C8: the concrete company `dbMM` (4 respondents, 2
multimodal) yields 50% / 50%. -/
theorem c8_witness :
    (calculate_multimodal_workers_percentage dbMM 1).result =
      some (ResVal.strMap [("Multimodal", 50), ("No multimodal", 50)]) ∧
    (calculate_multimodal_workers_percentage dbMM 1).question =
      some "¿Combinas varios medios de transporte en tu trayecto?" ∧
    ∃ mm, (calculate_multimodal_workers_percentage dbMM 1).result =
        some (ResVal.strMap [("Multimodal", mm), ("No multimodal", pyRound2 (100 - mm))]) := by
  have h := c8_multimodal dbMM 1
    { id := 1, company_id := 1,
      question_text := "¿Combinas varios medios de transporte en tu trayecto?" }
    (by decide) (by decide) (by decide)
  obtain ⟨hq, mm, hres, _⟩ := h
  exact ⟨by decide, hq, mm, hres⟩


theorem find?_dictSet_replaced {α : Type} (k : String) (v : α) :
    ∀ m : List (String × α), m.any (fun p => p.1 == k) = true →
      (m.map (fun p => if p.1 == k then (k, v) else p)).find?
        (fun p => p.1 == k) = some (k, v) := by
  intro m
  induction m with
  | nil => intro h; simp at h
  | cons p ps ih =>
    intro h
    rw [List.map_cons]
    by_cases hp : (p.1 == k) = true
    · rw [if_pos hp, List.find?_cons]
      have : (((k, v) : String × α).1 == k) = true := by simp
      rw [this]
    · rw [if_neg hp, List.find?_cons, Bool.eq_false_iff.mpr hp]
      rw [List.any_cons, Bool.eq_false_iff.mpr hp, Bool.false_or] at h
      exact ih h

theorem dictGetD_dictSet {α : Type} (m : List (String × α)) (k : String) (v d : α) :
    dictGetD (dictSet m k v) k d = v := by
  rw [dictSet]
  by_cases h : m.any (fun p => p.1 == k) = true
  · rw [if_pos h, dictGetD, find?_dictSet_replaced k v m h]
  · rw [if_neg h, dictGetD]
    have hnone : m.find? (fun p => p.1 == k) = none := by
      rw [List.find?_eq_none]
      intro x hx hcontra
      exact h (List.any_eq_true.mpr ⟨x, hx, hcontra⟩)
    rw [List.find?_append, hnone, Option.none_or, List.find?_cons]
    have : (((k, v) : String × α).1 == k) = true := by simp
    rw [this]

theorem length_dictSet {α : Type} (m : List (String × α)) (k : String) (v : α) :
    (dictSet m k v).length ≤ m.length + 1 := by
  rw [dictSet]
  by_cases h : m.any (fun p => p.1 == k) = true
  · rw [if_pos h, List.length_map]
    omega
  · rw [if_neg h, List.length_append]
    simp

theorem length_insertDesc (x : String × ℚ) :
    ∀ l : List (String × ℚ), (insertDesc x l).length = l.length + 1 := by
  intro l
  induction l with
  | nil => rfl
  | cons y ys ih =>
    rw [insertDesc]
    by_cases h : y.2 < x.2
    · rw [if_pos h]
      rfl
    · rw [if_neg h, List.length_cons, ih, List.length_cons]

theorem length_sortByValDesc (l : List (String × ℚ)) :
    (sortByValDesc l).length = l.length := by
  have h : ∀ (l acc : List (String × ℚ)),
      (l.foldl (fun a x => insertDesc x a) acc).length = acc.length + l.length := by
    intro l
    induction l with
    | nil => intro acc; simp
    | cons x xs ih =>
      intro acc
      rw [List.foldl_cons, ih, length_insertDesc, List.length_cons]
      omega
  rw [sortByValDesc, h]
  simp

theorem length_postalTop10 (l : List (String × ℚ)) :
    (postalTop10 l).length ≤ 11 := by
  rw [postalTop10]
  by_cases h : 10 < l.length
  · rw [if_pos h]
    have htake : ((sortByValDesc l).take 10).length ≤ 10 := by
      rw [List.length_take]
      omega
    by_cases h2 : 0 < qsum (((sortByValDesc l).drop 10).map Prod.snd)
    · rw [if_pos h2]
      calc (dictSet ((sortByValDesc l).take 10) "Otros"
              (pyRound2 (qsum (((sortByValDesc l).drop 10).map Prod.snd)))).length
          ≤ ((sortByValDesc l).take 10).length + 1 := length_dictSet _ _ _
        _ ≤ 11 := by omega
    · rw [if_neg h2]
      omega
  · rw [if_neg h]
    omega

theorem length_postalEnrich (muni : String → Option String) :
    ∀ (pp acc : List (String × ℚ)),
      (pp.foldl
        (fun m p =>
          if p.1 == "Otros" then dictSet m p.1 p.2
          else
            match muni p.1 with
            | some mn => dictSet m (p.1 ++ " - " ++ mn) p.2
            | none => dictSet m p.1 p.2)
        acc).length ≤ acc.length + pp.length := by
  intro pp
  induction pp with
  | nil => intro acc; simp
  | cons p ps ih =>
    intro acc
    rw [List.foldl_cons]
    have hstep : ∀ m : List (String × ℚ),
        ((if p.1 == "Otros" then dictSet m p.1 p.2
          else
            match muni p.1 with
            | some mn => dictSet m (p.1 ++ " - " ++ mn) p.2
            | none => dictSet m p.1 p.2) : List (String × ℚ)).length ≤ m.length + 1 := by
      intro m
      by_cases h : (p.1 == "Otros") = true
      · rw [if_pos h]
        exact length_dictSet _ _ _
      · rw [if_neg h]
        match muni p.1 with
        | some mn => exact length_dictSet _ _ _
        | none => exact length_dictSet _ _ _
    calc _ ≤ _ := ih _
      _ ≤ acc.length + (p :: ps).length := by
          have := hstep acc
          rw [List.length_cons]
          omega


/-- Claim C7 (amended): any result mapping of
`calculate_postal_code_distribution` has at most 11 entries, and when
the top-10 collapse fires with a positive remainder, the `"Otros"`
percentage equals the rounded sum of the dropped entries' (already
rounded) percentages — not `100` minus the top-10 sum, from which it
can differ by more than 0.01. -/
theorem c7_top10_collapse (db : DB) (cid : Nat) (muni : String → Option String) :
    (∀ m, (calculate_postal_code_distribution db cid muni).result =
        some (ResVal.strMap m) → m.length ≤ 11) ∧
    (∀ l : List (String × ℚ), 10 < l.length →
      0 < qsum (((sortByValDesc l).drop 10).map Prod.snd) →
      dictGetD (postalTop10 l) "Otros" 0 =
        pyRound2 (qsum (((sortByValDesc l).drop 10).map Prod.snd))) := by
  constructor
  · intro m hm
    rw [calculate_postal_code_distribution] at hm
    rcases hfind : (questionsFor db cid).find? (fun q => postalKeywords.any
        (fun k => pyIn (lowerStr k) (lowerStr q.question_text))) with _ | q
    · rw [hfind] at hm
      simp at hm
    · rw [hfind] at hm
      dsimp only at hm
      by_cases ht : ((postalFold (db.answers.filter
          (fun a => a.question_id == some q.id && a.company_id == cid))
          ([], [])).1.length == 0) = true
      · rw [if_pos ht] at hm
        simp at hm
      · rw [if_neg ht] at hm
        dsimp only at hm
        simp only [Option.some.injEq, ResVal.strMap.injEq] at hm
        subst hm
        calc (postalEnrich muni (postalTop10 _)).length
            ≤ 0 + (postalTop10 _).length := by
              rw [postalEnrich]
              exact length_postalEnrich muni _ []
          _ ≤ 11 := by
              rw [Nat.zero_add]
              exact length_postalTop10 _
  · intro l hlen hpos
    rw [postalTop10, if_pos hlen, if_pos hpos, dictGetD_dictSet]


/-- Witness for C7: the concrete 15-code company `dbPostal`. -/
theorem c7_witness :
    (calculate_postal_code_distribution dbPostal 1 (fun _ => none)).result =
      some (ResVal.strMap c7expected) ∧
    c7expected.length ≤ 11 ∧
    dictGetD (postalTop10 (postalCodes.map (fun c => (c, Rat.divInt 667 100)))) "Otros" 0 =
      pyRound2 (qsum (((sortByValDesc (postalCodes.map
        (fun c => (c, Rat.divInt 667 100)))).drop 10).map Prod.snd)) := by
  refine ⟨by decide, ?_, ?_⟩
  · exact (c7_top10_collapse dbPostal 1 (fun _ => none)).1 c7expected (by decide)
  · exact (c7_top10_collapse dbPostal 1 (fun _ => none)).2
      (postalCodes.map (fun c => (c, Rat.divInt 667 100))) (by decide) (by decide)

/-- Counterexample to C7 as stated: with 15 codes at one respondent
each, every percentage rounds to 6.67, `"Otros"` is 33.35, but
`100 - (top-10 sum) = 33.30`; the difference 0.05 exceeds the claimed
0.01 tolerance. -/
theorem c7_counterexample :
    (calculate_postal_code_distribution dbPostal 1 (fun _ => none)).result =
      some (ResVal.strMap c7expected) ∧
    dictGetD c7expected "Otros" 0 = Rat.divInt 667 20 ∧
    ((c7expected.take 10).map Prod.snd).sum = Rat.divInt 667 10 ∧
    ¬ (|Rat.divInt 667 20 - (100 - Rat.divInt 667 10)| ≤ Rat.divInt 1 100) := by
  refine ⟨by decide, by decide, ?_, ?_⟩
  · rw [show (c7expected.take 10).map Prod.snd =
        List.replicate 10 (Rat.divInt 667 100) from by decide]
    rw [List.sum_replicate, Rat.divInt_eq_div, Rat.divInt_eq_div]
    push_cast
    norm_num
  · rw [Rat.divInt_eq_div, Rat.divInt_eq_div, Rat.divInt_eq_div]
    push_cast
    rw [show ((667 : ℚ) / 20 - (100 - 667 / 10)) = 1 / 20 by norm_num]
    rw [abs_of_pos (by norm_num)]
    norm_num


theorem inRange_false_lo {v : ℚ} {r : String × ℚ × Option ℚ} (h : ¬ (r.2.1 ≤ v)) :
    inRange v r = false := by
  rw [inRange, decide_eq_false h, Bool.false_and]

theorem inRange_false_hi {v : ℚ} {name : String} {lo m : ℚ} (h : ¬ (v ≤ m)) :
    inRange v (name, lo, some m) = false := by
  rw [inRange]
  dsimp only
  rw [decide_eq_false h, Bool.and_false]

/-- Claim C10: a value strictly between adjacent bucket boundaries
(5-6, 15-16, 25-26 or 35-36 km) matches no distance bucket; on the
concrete company `dbDist`, the respondent answering `"5,5 km"`
(extracted as 5.5) lands in no bucket while still being counted among
the 2 unique respondents of the denominator, so the returned
percentages sum to 50 < 100. -/
theorem c10_distance_gap :
    (∀ v : ℚ, (5 < v ∧ v < 6) ∨ (15 < v ∧ v < 16) ∨ (25 < v ∧ v < 26) ∨
        (35 < v ∧ v < 36) → assignBucket v = none) ∧
    _extract_distance_value (some "5,5 km") = some (Rat.divInt 11 2) ∧
    _count_unique_respondents_for_question dbDist 1 1 = 2 ∧
    (calculate_distance_range_distribution dbDist 1).result =
      some (ResVal.strMap [("Menos de 5 km", 50), ("Entre 6 y 15 km", 0),
        ("Entre 16 y 25 km", 0), ("Entre 26 y 35 km", 0), ("Más de 35 km", 0)]) ∧
    ([("Menos de 5 km", (50 : ℚ)), ("Entre 6 y 15 km", 0), ("Entre 16 y 25 km", 0),
      ("Entre 26 y 35 km", 0), ("Más de 35 km", 0)].map Prod.snd).sum < 100 := by
  refine ⟨?_, by decide, by decide, by decide, by norm_num⟩
  intro v hv
  rw [assignBucket, List.findIdx?_eq_none_iff]
  intro r hr
  rw [distance_ranges] at hr
  simp only [List.mem_cons, List.not_mem_nil, or_false] at hr
  rcases hv with ⟨h1, h2⟩ | ⟨h1, h2⟩ | ⟨h1, h2⟩ | ⟨h1, h2⟩ <;>
    rcases hr with rfl | rfl | rfl | rfl | rfl <;>
    first
      | exact inRange_false_hi (by linarith)
      | exact inRange_false_lo (by dsimp only; linarith)


/-- Witness for C10: the gap lemma applied at the concrete value
11/2 = 5.5, plus the evaluated envelope of `dbDist`. -/
theorem c10_witness :
    assignBucket (Rat.divInt 11 2) = none ∧
    (calculate_distance_range_distribution dbDist 1).result =
      some (ResVal.strMap [("Menos de 5 km", 50), ("Entre 6 y 15 km", 0),
        ("Entre 16 y 25 km", 0), ("Entre 26 y 35 km", 0), ("Más de 35 km", 0)]) := by
  refine ⟨?_, c10_distance_gap.2.2.2.1⟩
  apply c10_distance_gap.1 (Rat.divInt 11 2)
  left
  rw [Rat.divInt_eq_div]
  push_cast
  norm_num



/-- Witness for C9: a non-sentinel option cell yields an indicator
column. -/
theorem c9_witness :
    lowerStr (pyStr (some "Car")) ≠ "open-ended response" ∧
    (processCol none (some "Commute mode") (some "Car")).2 =
      [ColSpec.indicator "commute_mode__car"] := by
  refine ⟨by decide, ?_⟩
  have h := (c9_sentinel none "Commute mode" (some "Car")).2 (by decide)
  rwa [show (slugify "Commute mode" ++ "__" ++ slugify (pyStr (some "Car")) : String) =
      "commute_mode__car" from by decide] at h

/-- Counterexample to C9 as stated: the upper-cased cell
`"OPEN-ENDED RESPONSE"` differs from the sentinel `"Open-Ended
Response"`, yet the column is still converted to a pass-through
column — the comparison is not case-sensitive. -/
theorem c9_counterexample :
    (processCol none (some "Commute") (some "OPEN-ENDED RESPONSE")).2 =
      [ColSpec.passthrough "commute"] ∧
    some "OPEN-ENDED RESPONSE" ≠ some "Open-Ended Response" :=
  ⟨by decide, by decide⟩

end PTT
